import Mathlib

/-!
# Device Defender agent (`Common/app/defender/defender_task.c`)

A shallow embedding of the defender agent task: the agent context, the topic
builder, the subscribe handshake, the response handlers, the report builder and
one reporting cycle.  Calls into the environment (heap, MQTT agent, task
notifications, CBOR encoder, metric collectors) are modelled by passing the
outcome of every call site as an argument and by recording every call in a
trace of events, in program order.
-/

namespace Defender

/-! ## Basic types and constants -/

/-- Pointers are addresses; the address `0` is `NULL`. -/
abbrev Ptr := Nat

/-- The null pointer. -/
def NULL : Ptr := 0

/-- FreeRTOS `pdTRUE`. -/
def pdTRUE : Int := 1

/-- FreeRTOS `pdFALSE`. -/
def pdFALSE : Int := 0

/-- Number of topic strings, `NUM_TOPIC_STRINGS`. -/
def NUM_TOPIC_STRINGS : Nat := 3

/-- Index of the publish topic. -/
def IDX_PUBLISH : Nat := 0

/-- Index of the accepted topic. -/
def IDX_ACCEPTED : Nat := 1

/-- Index of the rejected topic. -/
def IDX_REJECTED : Nat := 2

/-- Size of the report buffer, `REPORT_BUFFER_SIZE`. -/
def REPORT_BUFFER_SIZE : Nat := 1024

/-- Reporting interval in milliseconds, `MS_BETWEEN_REPORTS`. -/
def MS_BETWEEN_REPORTS : Nat := 5 * 60 * 1000

/-- Response timeout in milliseconds, `RESPONSE_TIMEOUT_MS`. -/
def RESPONSE_TIMEOUT_MS : Nat := 30 * 1000

/-- Block time of an MQTT agent command in milliseconds, `MQTT_BLOCK_TIME_MS`. -/
def MQTT_BLOCK_TIME_MS : Nat := 10 * 1000

/-- Enumerator `ReportStatusNotReceived` of `ReportStatus_t`. -/
def ReportStatusNotReceived : Nat := 0

/-- Enumerator `ReportStatusAccepted` of `ReportStatus_t`. -/
def ReportStatusAccepted : Nat := 1

/-- Enumerator `ReportStatusRejected` of `ReportStatus_t`. -/
def ReportStatusRejected : Nat := 2

/-- Enumerator `ReportStatusInvalid` of `ReportStatus_t`. -/
def ReportStatusInvalid : Nat := 3

/-- The coreMQTT status `MQTTSuccess` (the first enumerator of `MQTTStatus_t`). -/
def MQTTSuccess : Nat := 0

/-- The tinycbor status `CborNoError`. -/
def CborNoError : Nat := 0

/-- Status codes of the Device Defender library that the task uses or may be handed. -/
inductive DefenderStatus_t where
  | DefenderError
  | DefenderSuccess
  | DefenderNoMatch
  | DefenderBadParameter
  | DefenderBufferTooSmall
  deriving DecidableEq, Repr

open DefenderStatus_t

/-- Constants of the platform and of the libraries whose value the task does not fix. -/
structure Platform where
  /-- Tick rate used by `pdMS_TO_TICKS`. -/
  configTICK_RATE_HZ : Nat
  /-- Value of the coreMQTT enumerator `MQTTIllegalState`. -/
  MQTTIllegalState : Nat
  /-- The macro `DEFENDER_API_LENGTH_CBOR_PUBLISH`, as a function of the thing name length. -/
  DEFENDER_API_LENGTH_CBOR_PUBLISH : Nat → Nat
  /-- The macro `DEFENDER_API_LENGTH_CBOR_ACCEPTED`, as a function of the thing name length. -/
  DEFENDER_API_LENGTH_CBOR_ACCEPTED : Nat → Nat
  /-- Value of the enumerator `DefenderCborReportPublish` of `DefenderTopic_t`. -/
  DefenderCborReportPublish : Nat

/-- The FreeRTOS macro `pdMS_TO_TICKS`. -/
def pdMS_TO_TICKS (P : Platform) (xTimeInMs : Nat) : Nat :=
  (xTimeInMs * P.configTICK_RATE_HZ) / 1000

/-- An array of `NUM_TOPIC_STRINGS` machine words. -/
structure Arr3 where
  e0 : Nat
  e1 : Nat
  e2 : Nat
  deriving DecidableEq, Repr

/-- Read element `i` of a three element array. -/
def Arr3.get (a : Arr3) (i : Nat) : Nat :=
  match i with
  | 0 => a.e0
  | 1 => a.e1
  | _ => a.e2

/-- Write element `i` of a three element array. -/
def Arr3.set (a : Arr3) (i : Nat) (v : Nat) : Arr3 :=
  match i with
  | 0 => { a with e0 := v }
  | 1 => { a with e1 := v }
  | _ => { a with e2 := v }

/-- The agent context `struct MQTTAgentCommandContext` (`DefenderAgentCtx_t`). -/
structure DefenderAgentCtx_t where
  xAgentTask : Nat
  xDeviceIdLen : Nat
  pxTopicLen : Arr3
  pcDeviceId : Ptr
  ppcTopic : Arr3
  xWaitingForCallback : Int
  deriving DecidableEq, Repr

/-- The three sub-encoders and the root encoder of a cycle. -/
inductive Encoder where
  | xEncoder
  | xMapEncoder
  | xHeaderEncoder
  | xMetricsEncoder
  deriving DecidableEq, Repr

/-- The four metric collectors of `metrics_collector.h`. -/
inductive Collector where
  | xGetNetworkStats
  | xGetListeningTcpPorts
  | xGetListeningUdpPorts
  | xGetEstablishedConnections
  deriving DecidableEq, Repr

/-- The call sites of `xTaskNotifyWait`. -/
inductive WaitSite where
  | subscribeAck
  | unsubscribeAck
  | publishAck
  | reportResponse
  deriving DecidableEq, Repr

/-- The two incoming publish handlers. -/
inductive Handler where
  | prvReportAcceptedCallback
  | prvReportRejectedCallback
  deriving DecidableEq, Repr

/-- A call into the environment, with its arguments. -/
inductive Event where
  | pvPortMalloc (size : Nat) (result : Ptr)
  | vPortFree (p : Ptr)
  | Defender_GetTopic (buffer : Ptr) (bufferLength : Nat) (api : Nat)
  | MQTTAgent_Subscribe (topic : Ptr) (len : Nat)
  | MQTTAgent_Unsubscribe (topic : Ptr) (len : Nat)
  | MQTTAgent_Publish (topic : Ptr) (topicLen : Nat) (payloadLen : Nat)
  | xTaskNotifyWait (site : WaitSite) (ticks : Nat)
  | xTaskNotify (task : Nat) (value : Nat)
  | mrouter_registerCallback (topic : Ptr) (len : Nat) (cb : Handler)
  | mrouter_deRegisterCallback (topic : Ptr) (len : Nat) (cb : Handler)
  | cbor_encoder_init (size : Nat)
  | cbor_encoder_create_map (parent : Encoder) (child : Encoder) (length : Option Nat)
  | cbor_encode_text_stringz (enc : Encoder) (text : String)
  | cbor_encode_uint (enc : Encoder) (value : Nat)
  | cbor_encoder_close_container (parent : Encoder) (child : Encoder)
  | collect (c : Collector) (enc : Encoder)
  | cbor_encoder_get_buffer_size
  | vTaskDelay (ticks : Nat)
  | KVStore_getStringHeap
  | xTaskGetCurrentTaskHandle
  | xEventGroupWaitBits
  | vTaskDelete
  deriving DecidableEq, Repr

/-! ## Topic builder -/

/-- Outcomes of the environment calls made by `prvBuildDefenderTopicStrings`:
for loop index `i`, the pointer returned by `pvPortMalloc` (`NULL` on failure),
and the status and written length produced by `Defender_GetTopic`. -/
structure TopicEnv where
  mallocResult : Nat → Ptr
  getTopicStatus : Nat → DefenderStatus_t
  usLenWritten : Nat → Nat

/-- State of `prvBuildDefenderTopicStrings` while it runs. -/
structure TopicState where
  ctx : DefenderAgentCtx_t
  xRslt : DefenderStatus_t
  trace : List Event

/-- Body of the allocation loop of `prvBuildDefenderTopicStrings` for index `i`. -/
def topicLoopBody (P : Platform) (env : TopicEnv) (i : Nat) (s : TopicState) : TopicState :=
  let p := env.mallocResult i
  let ctx1 := { s.ctx with ppcTopic := s.ctx.ppcTopic.set i p }
  let tr1 := s.trace ++ [Event.pvPortMalloc (s.ctx.pxTopicLen.get i + 1) p]
  if ctx1.ppcTopic.get i = NULL then
    { ctx := ctx1, xRslt := DefenderError, trace := tr1 }
  else
    let xRslt := env.getTopicStatus i
    let usLenWritten := env.usLenWritten i
    let tr2 := tr1 ++ [Event.Defender_GetTopic (ctx1.ppcTopic.get i) (ctx1.pxTopicLen.get i)
      (i + P.DefenderCborReportPublish)]
    if xRslt = DefenderSuccess ∧ usLenWritten ≤ ctx1.pxTopicLen.get i then
      { ctx := { ctx1 with pxTopicLen := ctx1.pxTopicLen.set i usLenWritten },
        xRslt := xRslt, trace := tr2 }
    else
      { ctx := ctx1, xRslt := DefenderBufferTooSmall, trace := tr2 }

/-- Allocation loop `for( i = IDX_PUBLISH; i <= IDX_REJECTED; i++ )` with its
`break`; `n` is the number of indices left, so the loop starts at
`topicLoop P env 3 0`. -/
def topicLoop (P : Platform) (env : TopicEnv) : Nat → Nat → TopicState → TopicState
  | 0, _, s => s
  | n + 1, i, s =>
    let s1 := topicLoopBody P env i s
    if s1.xRslt ≠ DefenderSuccess then s1 else topicLoop P env n (i + 1) s1

/-- Body of the cleanup loop of `prvBuildDefenderTopicStrings` for index `i`. -/
def topicCleanupBody (i : Nat) (s : TopicState) : TopicState :=
  let ctx1 :=
    if s.ctx.pxTopicLen.get i > 0 then
      { s.ctx with pxTopicLen := s.ctx.pxTopicLen.set i 0 }
    else s.ctx
  if ctx1.ppcTopic.get i ≠ NULL then
    { s with ctx := { ctx1 with ppcTopic := ctx1.ppcTopic.set i NULL },
             trace := s.trace ++ [Event.vPortFree (ctx1.ppcTopic.get i)] }
  else
    { s with ctx := ctx1 }

/-- Cleanup loop `for( i = IDX_PUBLISH; i <= IDX_REJECTED; i++ )`. -/
def topicCleanup : Nat → Nat → TopicState → TopicState
  | 0, _, s => s
  | n + 1, i, s => topicCleanup n (i + 1) (topicCleanupBody i s)

/-- Result of `prvBuildDefenderTopicStrings`: the return value, the context
behind `pxCtx` and the calls made. -/
structure TopicResult where
  ret : Bool
  ctx : DefenderAgentCtx_t
  trace : List Event

/-- The function `prvBuildDefenderTopicStrings`. -/
def prvBuildDefenderTopicStrings (P : Platform) (env : TopicEnv)
    (pxCtx : DefenderAgentCtx_t) : TopicResult :=
  let len0 := P.DEFENDER_API_LENGTH_CBOR_PUBLISH pxCtx.xDeviceIdLen
  let len1 := P.DEFENDER_API_LENGTH_CBOR_ACCEPTED pxCtx.xDeviceIdLen
  let len2 := P.DEFENDER_API_LENGTH_CBOR_ACCEPTED pxCtx.xDeviceIdLen
  let ctx0 := { pxCtx with
    pxTopicLen := ((pxCtx.pxTopicLen.set 0 len0).set 1 len1).set 2 len2 }
  let s1 := topicLoop P env 3 IDX_PUBLISH { ctx := ctx0, xRslt := DefenderSuccess, trace := [] }
  let s2 := if s1.xRslt ≠ DefenderSuccess then topicCleanup 3 IDX_PUBLISH s1 else s1
  { ret := decide (s2.xRslt = DefenderSuccess), ctx := s2.ctx, trace := s2.trace }

/-- Pointers handed out by successful `pvPortMalloc` calls of a trace, in order. -/
def allocated : List Event → List Ptr
  | [] => []
  | Event.pvPortMalloc _ p :: es => if p = NULL then allocated es else p :: allocated es
  | _ :: es => allocated es

/-- Pointers passed to `vPortFree` in a trace, in order. -/
def freed : List Event → List Ptr
  | [] => []
  | Event.vPortFree p :: es => p :: freed es
  | _ :: es => freed es

/-- Number of `pvPortMalloc` calls of a trace, failed ones included. -/
def mallocCalls : List Event → Nat
  | [] => 0
  | Event.pvPortMalloc _ _ :: es => mallocCalls es + 1
  | _ :: es => mallocCalls es

/-- Non-null topic pointers that a context holds in the slots from index `k` on. -/
def heldFrom (ctx : DefenderAgentCtx_t) (k : Nat) : List Ptr :=
  (([0, 1, 2].drop k).map ctx.ppcTopic.get).filter (fun p => decide (p ≠ NULL))

/-! ## Subscribe handshake -/

/-- Outcomes of the environment calls of one subscribe or unsubscribe handshake:
the status returned by the MQTT agent call, the value returned by
`xTaskNotifyWait`, the notification value that `xTaskNotifyWait` stores through
its output pointer, and the value returned by the topic router. -/
structure HandshakeEnv where
  agentStatus : Nat
  xNotifyResult : Int
  ulNotifiedValue : Nat
  routerResult : Bool
  deriving DecidableEq, Repr

/-- Result of a function that returns `bool` and calls into the environment. -/
structure BoolResult where
  ret : Bool
  trace : List Event
  deriving DecidableEq, Repr

/-- The function `prvSubscribeToTopic`.  The context pointer is only handed on
to the callbacks, so it is not an argument of the model. -/
def prvSubscribeToTopic (P : Platform) (env : HandshakeEnv) (pcTopic : Ptr) (xTopicLen : Nat)
    (pxCallback : Handler) : BoolResult :=
  let xReturn := false
  let r : BoolResult :=
    if xTopicLen > 0 ∧ pcTopic ≠ NULL then
      let xNotifyResult := pdFALSE
      let ulStatus := env.agentStatus
      let tr := [Event.MQTTAgent_Subscribe pcTopic xTopicLen]
      let w : Nat × Int × List Event :=
        if ulStatus = MQTTSuccess then
          let ulStatus := P.MQTTIllegalState
          let tr := tr ++ [Event.xTaskNotifyWait WaitSite.subscribeAck RESPONSE_TIMEOUT_MS]
          let ulStatus := (fun _ => env.ulNotifiedValue) ulStatus
          (ulStatus, env.xNotifyResult, tr)
        else (ulStatus, xNotifyResult, tr)
      if w.2.1 = pdTRUE ∧ w.1 = MQTTSuccess then
        { ret := true, trace := w.2.2 }
      else { ret := xReturn, trace := w.2.2 }
    else { ret := xReturn, trace := [] }
  if r.ret = true then
    { ret := env.routerResult,
      trace := r.trace ++ [Event.mrouter_registerCallback pcTopic xTopicLen pxCallback] }
  else r

/-! ## Response handlers -/

/-- The function `prvValidateDefenderResponse`. -/
def prvValidateDefenderResponse (_pcDefenderResponse : List Nat)
    (_ulDefenderResponseLength : Nat) : Bool :=
  let xStatus := true
  xStatus

/-- Result of an incoming publish handler: the context behind `pvCtx` after the
call and the calls made. -/
structure HandlerResult where
  ctx : DefenderAgentCtx_t
  trace : List Event
  deriving DecidableEq, Repr

/-- Body of `prvReportAcceptedCallback`, with the validation function it calls
as an argument. -/
def prvReportAcceptedCallbackWith (validate : List Nat → Nat → Bool)
    (pxCtx : DefenderAgentCtx_t) (pPayload : List Nat) (payloadLength : Nat) : HandlerResult :=
  if pxCtx.xWaitingForCallback ≠ 0 then
    let ulResponseStatus :=
      if validate pPayload payloadLength = true then ReportStatusAccepted
      else ReportStatusInvalid
    { ctx := pxCtx, trace := [Event.xTaskNotify pxCtx.xAgentTask ulResponseStatus] }
  else { ctx := pxCtx, trace := [] }

/-- Body of `prvReportRejectedCallback`, with the validation function it calls
as an argument. -/
def prvReportRejectedCallbackWith (validate : List Nat → Nat → Bool)
    (pxCtx : DefenderAgentCtx_t) (pPayload : List Nat) (payloadLength : Nat) : HandlerResult :=
  if pxCtx.xWaitingForCallback ≠ 0 then
    let ulResponseStatus :=
      if validate pPayload payloadLength = true then ReportStatusRejected
      else ReportStatusInvalid
    { ctx := pxCtx, trace := [Event.xTaskNotify pxCtx.xAgentTask ulResponseStatus] }
  else { ctx := pxCtx, trace := [] }

/-- The function `prvReportAcceptedCallback`. -/
def prvReportAcceptedCallback (pxCtx : DefenderAgentCtx_t) (pPayload : List Nat)
    (payloadLength : Nat) : HandlerResult :=
  prvReportAcceptedCallbackWith prvValidateDefenderResponse pxCtx pPayload payloadLength

/-- The function `prvReportRejectedCallback`. -/
def prvReportRejectedCallback (pxCtx : DefenderAgentCtx_t) (pPayload : List Nat)
    (payloadLength : Nat) : HandlerResult :=
  prvReportRejectedCallbackWith prvValidateDefenderResponse pxCtx pPayload payloadLength

/-! ## Report builder -/

/-- Outcomes of the encoder and collector calls of `prvCollectDeviceMetrics`, one
per call site. -/
structure CollectEnv where
  encodeMet : Nat
  createMetricsMap : Nat
  networkStats : Nat
  listeningTcpPorts : Nat
  listeningUdpPorts : Nat
  establishedConnections : Nat
  closeMetricsMap : Nat
  deriving DecidableEq, Repr

/-- A `CborError` together with the calls made so far. -/
structure Build where
  xError : Nat
  trace : List Event
  deriving DecidableEq, Repr

/-- The function `prvCollectDeviceMetrics`. -/
def prvCollectDeviceMetrics (env : CollectEnv) (pxEncoder : Encoder) : Build :=
  let b : Build :=
    { xError := env.encodeMet, trace := [Event.cbor_encode_text_stringz pxEncoder "met"] }
  let b : Build :=
    if b.xError = CborNoError then
      { xError := env.createMetricsMap,
        trace := b.trace ++
          [Event.cbor_encoder_create_map pxEncoder Encoder.xMetricsEncoder none] }
    else b
  let b : Build :=
    if b.xError = CborNoError then
      { xError := env.networkStats,
        trace := b.trace ++ [Event.collect Collector.xGetNetworkStats Encoder.xMetricsEncoder] }
    else b
  let b : Build :=
    if b.xError = CborNoError then
      { xError := env.listeningTcpPorts,
        trace := b.trace ++
          [Event.collect Collector.xGetListeningTcpPorts Encoder.xMetricsEncoder] }
    else b
  let b : Build :=
    if b.xError = CborNoError then
      { xError := env.listeningUdpPorts,
        trace := b.trace ++
          [Event.collect Collector.xGetListeningUdpPorts Encoder.xMetricsEncoder] }
    else b
  let b : Build :=
    if b.xError = CborNoError then
      { xError := env.establishedConnections,
        trace := b.trace ++
          [Event.collect Collector.xGetEstablishedConnections Encoder.xMetricsEncoder] }
    else b
  let b : Build :=
    if b.xError = CborNoError then
      { xError := env.closeMetricsMap,
        trace := b.trace ++
          [Event.cbor_encoder_close_container pxEncoder Encoder.xMetricsEncoder] }
    else b
  b

/-! ## Publishing and one reporting cycle -/

/-- Pairs every call of a list with the value that `xWaitingForCallback` has
while the calls are made. -/
def stamp (w : Int) (es : List Event) : List (Event × Int) :=
  es.map (fun e => (e, w))

/-- Outcomes of the environment calls of `prvPublishDeviceMetricsReport`: the
status returned by `MQTTAgent_Publish`, the value returned by the
acknowledgment `xTaskNotifyWait`, and the notification value it stores through
its output pointer. -/
structure PublishEnv where
  publishStatus : Nat
  xNotifyResult : Int
  ulNotifiedValue : Nat
  deriving DecidableEq, Repr

/-- Result of `prvPublishDeviceMetricsReport`: the value returned, the context
behind `pxCtx` after the call, and the calls made, each with the value that
`xWaitingForCallback` has in the context when the call is made. -/
structure PublishResult where
  ret : Bool
  ctx : DefenderAgentCtx_t
  stamped : List (Event × Int)
  deriving DecidableEq, Repr

/-- The calls made, in order. -/
def PublishResult.trace (r : PublishResult) : List Event :=
  r.stamped.map Prod.fst

/-- The function `prvPublishDeviceMetricsReport`.  Each call is recorded with
the flag of the context as it is at that point of the body. -/
def prvPublishDeviceMetricsReport (P : Platform) (env : PublishEnv)
    (pxCtx : DefenderAgentCtx_t) (ulReportLength : Nat) : PublishResult :=
  let pxCtx := { pxCtx with xWaitingForCallback := pdTRUE }
  let ulStatus := env.publishStatus
  let tr := stamp pxCtx.xWaitingForCallback
    [Event.MQTTAgent_Publish (pxCtx.ppcTopic.get IDX_PUBLISH)
      (pxCtx.pxTopicLen.get IDX_PUBLISH) ulReportLength]
  let w : Nat × List (Event × Int) :=
    if ulStatus = MQTTSuccess then
      let ulStatus := P.MQTTIllegalState
      let tr := tr ++ stamp pxCtx.xWaitingForCallback
        [Event.xTaskNotifyWait WaitSite.publishAck RESPONSE_TIMEOUT_MS]
      let ulStatus := (fun _ => env.ulNotifiedValue) ulStatus
      (ulStatus, tr)
    else (ulStatus, tr)
  { ret := decide (w.1 = MQTTSuccess), ctx := pxCtx, stamped := w.2 }

/-- Outcomes of the environment calls of one iteration of the reporting loop of
`vDefenderAgentTask`, one per call site. -/
structure CycleEnv where
  xTickCount : Nat
  createMap : Nat
  encodeHed : Nat
  createHeaderMap : Nat
  encodeRid : Nat
  encodeRidValue : Nat
  encodeV : Nat
  encodeVersion : Nat
  closeHeaderMap : Nat
  metrics : CollectEnv
  closeMap : Nat
  xLen : Nat
  publish : PublishEnv
  xResponseResult : Int
  ulResponseValue : Nat
  deriving DecidableEq, Repr

/-- The report building part of the loop body of `vDefenderAgentTask`, from
`cbor_encoder_init` to the closing of the top-level map. -/
def buildReport (env : CycleEnv) : Build :=
  let ulReportId := env.xTickCount % 2 ^ 32
  let b : Build :=
    { xError := env.createMap,
      trace := [Event.cbor_encoder_init REPORT_BUFFER_SIZE,
        Event.cbor_encoder_create_map Encoder.xEncoder Encoder.xMapEncoder none] }
  let b : Build :=
    if b.xError = CborNoError then
      { xError := env.encodeHed,
        trace := b.trace ++ [Event.cbor_encode_text_stringz Encoder.xMapEncoder "hed"] }
    else b
  let b : Build :=
    if b.xError = CborNoError then
      { xError := env.createHeaderMap,
        trace := b.trace ++
          [Event.cbor_encoder_create_map Encoder.xMapEncoder Encoder.xHeaderEncoder (some 2)] }
    else b
  let b : Build :=
    if b.xError = CborNoError then
      { xError := env.encodeRid ||| env.encodeRidValue,
        trace := b.trace ++ [Event.cbor_encode_text_stringz Encoder.xHeaderEncoder "rid",
          Event.cbor_encode_uint Encoder.xHeaderEncoder ulReportId] }
    else b
  let b : Build :=
    if b.xError = CborNoError then
      { xError := (fun _ => env.encodeVersion) env.encodeV,
        trace := b.trace ++ [Event.cbor_encode_text_stringz Encoder.xHeaderEncoder "v",
          Event.cbor_encode_text_stringz Encoder.xHeaderEncoder "1.0"] }
    else b
  let b : Build :=
    if b.xError = CborNoError then
      { xError := env.closeHeaderMap,
        trace := b.trace ++
          [Event.cbor_encoder_close_container Encoder.xMapEncoder Encoder.xHeaderEncoder] }
    else b
  let b : Build :=
    if b.xError = CborNoError then
      let m := prvCollectDeviceMetrics env.metrics Encoder.xMapEncoder
      { xError := m.xError, trace := b.trace ++ m.trace }
    else b
  let b : Build :=
    if b.xError = CborNoError then
      { xError := env.closeMap,
        trace := b.trace ++
          [Event.cbor_encoder_close_container Encoder.xEncoder Encoder.xMapEncoder] }
    else b
  b

/-- Result of one iteration of the reporting loop: the context, the variables
`xSuccess`, `xError` and `xReportStatus`, and the calls made, each with the
value that `xCtx.xWaitingForCallback` has when the call is made. -/
structure CycleResult where
  ctx : DefenderAgentCtx_t
  xSuccess : Bool
  xError : Nat
  xReportStatus : Nat
  stamped : List (Event × Int)
  deriving DecidableEq, Repr

/-- The calls made, in order. -/
def CycleResult.trace (r : CycleResult) : List Event :=
  r.stamped.map Prod.fst

/-- One iteration of the loop `while( xExitFlag == pdFALSE )` of
`vDefenderAgentTask`.  Each call is recorded with the flag of `xCtx` as it is
at that point of the body; the report is built by calls that do not get the
context. -/
def defenderCycle (P : Platform) (env : CycleEnv) (xCtx : DefenderAgentCtx_t)
    (xSuccess : Bool) : CycleResult :=
  let ulNotificationValue := 0
  let xReportStatus := ReportStatusNotReceived
  let b := buildReport env
  let tr := stamp xCtx.xWaitingForCallback b.trace
  let p : PublishResult :=
    if b.xError = CborNoError then
      let tr := tr ++ stamp xCtx.xWaitingForCallback [Event.cbor_encoder_get_buffer_size]
      let xLen := env.xLen
      let r := prvPublishDeviceMetricsReport P env.publish xCtx xLen
      { r with stamped := tr ++ r.stamped }
    else { ret := xSuccess, ctx := xCtx, stamped := tr }
  let xCtx := p.ctx
  let tr := p.stamped ++ stamp xCtx.xWaitingForCallback
    [Event.xTaskNotifyWait WaitSite.reportResponse (pdMS_TO_TICKS P RESPONSE_TIMEOUT_MS)]
  let ulNotificationValue := (fun _ => env.ulResponseValue) ulNotificationValue
  let xReportStatus :=
    if env.xResponseResult = pdTRUE then ulNotificationValue else xReportStatus
  let xCtx := { xCtx with xWaitingForCallback := pdFALSE }
  let tr := tr ++ stamp xCtx.xWaitingForCallback
    [Event.vTaskDelay (pdMS_TO_TICKS P MS_BETWEEN_REPORTS)]
  { ctx := xCtx, xSuccess := p.ret, xError := b.xError, xReportStatus := xReportStatus,
    stamped := tr }

/-! ## Unsubscribe handshake, the two topic pairs, and the clearing of the context -/

/-- The function `prvUnsubscribeFromTopic`.  The context pointer is only handed
on to the callbacks, so it is not an argument of the model. -/
def prvUnsubscribeFromTopic (P : Platform) (env : HandshakeEnv) (pcTopic : Ptr)
    (xTopicLen : Nat) (pxCallback : Handler) : BoolResult :=
  let xReturn := false
  let r : BoolResult :=
    if xTopicLen > 0 ∧ pcTopic ≠ NULL then
      let xNotifyResult := pdFALSE
      let ulStatus := env.agentStatus
      let tr := [Event.MQTTAgent_Unsubscribe pcTopic xTopicLen]
      let w : Nat × Int × List Event :=
        if ulStatus = MQTTSuccess then
          let ulStatus := P.MQTTIllegalState
          let tr := tr ++ [Event.xTaskNotifyWait WaitSite.unsubscribeAck RESPONSE_TIMEOUT_MS]
          let ulStatus := (fun _ => env.ulNotifiedValue) ulStatus
          (ulStatus, env.xNotifyResult, tr)
        else (ulStatus, xNotifyResult, tr)
      if w.2.1 = pdTRUE ∧ w.1 = MQTTSuccess then
        { ret := true, trace := w.2.2 }
      else { ret := xReturn, trace := w.2.2 }
    else { ret := xReturn, trace := [] }
  if r.ret = true then
    { ret := env.routerResult,
      trace := r.trace ++ [Event.mrouter_deRegisterCallback pcTopic xTopicLen pxCallback] }
  else r

/-- Outcomes of the environment calls of the handshakes for the accepted topic
and for the rejected topic. -/
structure PairEnv where
  accepted : HandshakeEnv
  rejected : HandshakeEnv
  deriving DecidableEq, Repr

/-- The function `prvSubscribeToDefenderTopics`. -/
def prvSubscribeToDefenderTopics (P : Platform) (env : PairEnv)
    (pxCtx : DefenderAgentCtx_t) : BoolResult :=
  let r1 := prvSubscribeToTopic P env.accepted (pxCtx.ppcTopic.get IDX_ACCEPTED)
    (pxCtx.pxTopicLen.get IDX_ACCEPTED) Handler.prvReportAcceptedCallback
  let xSuccess := r1.ret
  if ¬ (xSuccess = true) then
    { ret := xSuccess, trace := r1.trace }
  else
    let r2 := prvSubscribeToTopic P env.rejected (pxCtx.ppcTopic.get IDX_REJECTED)
      (pxCtx.pxTopicLen.get IDX_REJECTED) Handler.prvReportRejectedCallback
    let xSuccess := r2.ret
    { ret := xSuccess, trace := r1.trace ++ r2.trace }

/-- Result of a function that returns nothing: the context behind `pxCtx` after
the call and the calls made. -/
structure CtxResult where
  ctx : DefenderAgentCtx_t
  trace : List Event
  deriving DecidableEq, Repr

/-- The function `prvUnsubscribeFromDefenderTopics`. -/
def prvUnsubscribeFromDefenderTopics (P : Platform) (env : PairEnv)
    (pxCtx : DefenderAgentCtx_t) : CtxResult :=
  let r1 := prvUnsubscribeFromTopic P env.accepted (pxCtx.ppcTopic.get IDX_ACCEPTED)
    (pxCtx.pxTopicLen.get IDX_ACCEPTED) Handler.prvReportAcceptedCallback
  let r2 := prvUnsubscribeFromTopic P env.rejected (pxCtx.ppcTopic.get IDX_REJECTED)
    (pxCtx.pxTopicLen.get IDX_REJECTED) Handler.prvReportRejectedCallback
  { ctx := pxCtx, trace := r1.trace ++ r2.trace }

/-- A context whose bytes are all zero, as `memset` leaves it and as the
initialiser of `xCtx` makes it. -/
def zeroCtx : DefenderAgentCtx_t :=
  { xAgentTask := 0, xDeviceIdLen := 0, pxTopicLen := ⟨0, 0, 0⟩, pcDeviceId := NULL,
    ppcTopic := ⟨NULL, NULL, NULL⟩, xWaitingForCallback := 0 }

/-- Body of the loop of `prvClearCtx` for index `i`. -/
def clearLoopBody (i : Nat) (s : CtxResult) : CtxResult :=
  if s.ctx.ppcTopic.get i ≠ NULL then
    { s with trace := s.trace ++ [Event.vPortFree (s.ctx.ppcTopic.get i)] }
  else s

/-- The loop `for( i = IDX_PUBLISH; i < IDX_REJECTED; i++ )` of `prvClearCtx`;
the first argument bounds the number of iterations, and `NUM_TOPIC_STRINGS`
is enough for the guard to end the loop. -/
def clearLoop : Nat → Nat → CtxResult → CtxResult
  | 0, _, s => s
  | n + 1, i, s => if i < IDX_REJECTED then clearLoop n (i + 1) (clearLoopBody i s) else s

/-- The function `prvClearCtx`. -/
def prvClearCtx (pxCtx : DefenderAgentCtx_t) : CtxResult :=
  let s0 : CtxResult :=
    if pxCtx.pcDeviceId ≠ NULL then
      { ctx := pxCtx, trace := [Event.vPortFree pxCtx.pcDeviceId] }
    else { ctx := pxCtx, trace := [] }
  let s1 := clearLoop NUM_TOPIC_STRINGS IDX_PUBLISH s0
  { ctx := zeroCtx, trace := s1.trace }

/-! ## The agent task -/

/-- One pass through the loop as the environment shapes it: the outcomes of the
calls of the iteration, and whether another task sets `xExitFlag` to `pdTRUE`
before the loop condition is evaluated again (so also during the sleep that
ends the iteration). -/
structure LoopStep where
  env : CycleEnv
  exitRequested : Bool
  deriving DecidableEq, Repr

/-- The variables of `vDefenderAgentTask` that live across iterations, the
global `xExitFlag`, the number of iterations run, and the calls made so far
with the value of `xWaitingForCallback` at each. -/
structure LoopState where
  xCtx : DefenderAgentCtx_t
  xSuccess : Bool
  xExitFlag : Int
  cycles : Nat
  stamped : List (Event × Int)
  deriving DecidableEq, Repr

/-- One execution of the body of `while( xExitFlag == pdFALSE )`.  The body does
not write `xExitFlag`; only another task does.  The calls of the iteration
are added with the flag values that `defenderCycle` records. -/
def loopIteration (P : Platform) (st : LoopStep) (s : LoopState) : LoopState :=
  let r := defenderCycle P st.env s.xCtx s.xSuccess
  { xCtx := r.ctx, xSuccess := r.xSuccess,
    xExitFlag := if st.exitRequested = true then pdTRUE else s.xExitFlag,
    cycles := s.cycles + 1,
    stamped := s.stamped ++ r.stamped }

/-- The loop `while( xExitFlag == pdFALSE )`, run against the given passes.  The
second component tells whether the loop was left; it is `false` when the
passes are used up while `xExitFlag` is still `pdFALSE`, the state then being
that of the task at this point of a longer run. -/
def agentLoop (P : Platform) : List LoopStep → LoopState → LoopState × Bool
  | [], s => (s, decide (s.xExitFlag ≠ pdFALSE))
  | st :: rest, s =>
    if s.xExitFlag = pdFALSE then agentLoop P rest (loopIteration P st s) else (s, true)

/-- Outcomes of the environment calls of a run of `vDefenderAgentTask`: the
pointer returned by `KVStore_getStringHeap` and the length it stores, the
handle returned by `xTaskGetCurrentTaskHandle`, the outcomes of the topic
builder, of the two subscriptions, of the passes through the loop and of the
two unsubscriptions, and whether another task sets `xExitFlag` before the loop
condition is first evaluated. -/
structure TaskEnv where
  pcDeviceId : Ptr
  xDeviceIdLen : Nat
  xAgentTask : Nat
  topics : TopicEnv
  subscribe : PairEnv
  exitRequestedAtStartup : Bool
  steps : List LoopStep
  unsubscribe : PairEnv

/-- The part of `vDefenderAgentTask` before the loop: the state with which the
loop condition is first evaluated. -/
def agentStartup (P : Platform) (env : TaskEnv) : LoopState :=
  let xCtx := zeroCtx
  let xExitFlag := pdFALSE
  let st := stamp xCtx.xWaitingForCallback [Event.KVStore_getStringHeap]
  let xCtx := { xCtx with pcDeviceId := env.pcDeviceId, xDeviceIdLen := env.xDeviceIdLen }
  let xCtx := { xCtx with xWaitingForCallback := pdFALSE }
  let st := st ++ stamp xCtx.xWaitingForCallback [Event.xTaskGetCurrentTaskHandle]
  let xCtx := { xCtx with xAgentTask := env.xAgentTask }
  let xCtx := { xCtx with xWaitingForCallback := pdFALSE }
  let xSuccess := decide (xCtx.pcDeviceId ≠ NULL ∧ xCtx.xDeviceIdLen > 0)
  let s1 : LoopState :=
    if xSuccess = true then
      let r := prvBuildDefenderTopicStrings P env.topics xCtx
      { xCtx := r.ctx, xSuccess := r.ret, xExitFlag := xExitFlag, cycles := 0,
        stamped := st ++ stamp xCtx.xWaitingForCallback r.trace }
    else
      { xCtx := xCtx, xSuccess := xSuccess, xExitFlag := xExitFlag, cycles := 0, stamped := st }
  let s2 : LoopState :=
    { s1 with
      stamped := s1.stamped ++ stamp s1.xCtx.xWaitingForCallback [Event.xEventGroupWaitBits] }
  let s3 : LoopState :=
    if s2.xSuccess = true then
      let r := prvSubscribeToDefenderTopics P env.subscribe s2.xCtx
      { s2 with
        xSuccess := r.ret,
        stamped := s2.stamped ++ stamp s2.xCtx.xWaitingForCallback r.trace }
    else s2
  let s4 : LoopState :=
    if env.exitRequestedAtStartup = true then { s3 with xExitFlag := pdTRUE } else s3
  if s4.xSuccess = false then { s4 with xExitFlag := pdTRUE } else s4

/-- The part of `vDefenderAgentTask` after the loop. -/
def agentTeardown (P : Platform) (env : PairEnv) (s : LoopState) : LoopState :=
  let u := prvUnsubscribeFromDefenderTopics P env s.xCtx
  let c := prvClearCtx u.ctx
  { s with
    xCtx := c.ctx,
    stamped := s.stamped ++ (stamp s.xCtx.xWaitingForCallback u.trace ++
      (stamp u.ctx.xWaitingForCallback c.trace ++
        stamp c.ctx.xWaitingForCallback [Event.vTaskDelete])) }

/-- Result of a run of `vDefenderAgentTask`: the final state, and whether the
task ran to its end (`vTaskDelete`) within the passes of the environment. -/
structure TaskResult where
  state : LoopState
  terminated : Bool
  deriving DecidableEq, Repr

/-- The function `vDefenderAgentTask`. -/
def vDefenderAgentTask (P : Platform) (env : TaskEnv) : TaskResult :=
  let l := agentLoop P env.steps (agentStartup P env)
  if l.2 = true then { state := agentTeardown P env.unsubscribe l.1, terminated := true }
  else { state := l.1, terminated := false }

/-- The calls of a run, in order. -/
def TaskResult.trace (r : TaskResult) : List Event :=
  r.state.stamped.map Prod.fst

/-! ## Kinds of calls -/

/-- The part of the task a call belongs to. -/
inductive Kind where
  | heap
  | subscribe
  | unsubscribe
  | encoder
  | publish
  | response
  | notify
  | sleep
  | task
  deriving DecidableEq, Repr

/-- The kind of a call: heap and topic library calls; the subscribe handshake
and the unsubscribe handshake, each with its acknowledgment wait and its router
call; encoder and collector calls; `MQTTAgent_Publish` with its acknowledgment
wait; the report-response wait; a notification sent by a handler; the sleep
between cycles; and the other calls of the task body. -/
def Event.kind : Event → Kind
  | Event.pvPortMalloc _ _ => Kind.heap
  | Event.vPortFree _ => Kind.heap
  | Event.Defender_GetTopic _ _ _ => Kind.heap
  | Event.MQTTAgent_Subscribe _ _ => Kind.subscribe
  | Event.MQTTAgent_Unsubscribe _ _ => Kind.unsubscribe
  | Event.MQTTAgent_Publish _ _ _ => Kind.publish
  | Event.xTaskNotifyWait WaitSite.subscribeAck _ => Kind.subscribe
  | Event.xTaskNotifyWait WaitSite.unsubscribeAck _ => Kind.unsubscribe
  | Event.xTaskNotifyWait WaitSite.publishAck _ => Kind.publish
  | Event.xTaskNotifyWait WaitSite.reportResponse _ => Kind.response
  | Event.xTaskNotify _ _ => Kind.notify
  | Event.mrouter_registerCallback _ _ _ => Kind.subscribe
  | Event.mrouter_deRegisterCallback _ _ _ => Kind.unsubscribe
  | Event.cbor_encoder_init _ => Kind.encoder
  | Event.cbor_encoder_create_map _ _ _ => Kind.encoder
  | Event.cbor_encode_text_stringz _ _ => Kind.encoder
  | Event.cbor_encode_uint _ _ => Kind.encoder
  | Event.cbor_encoder_close_container _ _ => Kind.encoder
  | Event.collect _ _ => Kind.encoder
  | Event.cbor_encoder_get_buffer_size => Kind.encoder
  | Event.vTaskDelay _ => Kind.sleep
  | Event.KVStore_getStringHeap => Kind.task
  | Event.xTaskGetCurrentTaskHandle => Kind.task
  | Event.xEventGroupWaitBits => Kind.task
  | Event.vTaskDelete => Kind.task

/-- The topic filters passed to `MQTTAgent_Unsubscribe` in a trace, in order. -/
def unsubscribes : List Event → List (Ptr × Nat)
  | [] => []
  | Event.MQTTAgent_Unsubscribe t l :: es => (t, l) :: unsubscribes es
  | _ :: es => unsubscribes es

/-- The context of the task once the identity is fetched and the task handle
and the flag are stored, before the topics are built. -/
def identityCtx (env : TaskEnv) : DefenderAgentCtx_t :=
  { xAgentTask := env.xAgentTask, xDeviceIdLen := env.xDeviceIdLen, pxTopicLen := ⟨0, 0, 0⟩,
    pcDeviceId := env.pcDeviceId, ppcTopic := ⟨NULL, NULL, NULL⟩,
    xWaitingForCallback := pdFALSE }

/-- The state of the task after the given passes through the loop body. -/
def iterate (P : Platform) (steps : List LoopStep) (s : LoopState) : LoopState :=
  steps.foldl (fun acc st => loopIteration P st acc) s

/-- What the value `w` of `xWaitingForCallback` must be while the call `e` is made:
`pdTRUE` for `MQTTAgent_Publish` and its acknowledgment wait, either value for
the report-response wait, and `pdFALSE` for every other call. -/
def FlagOk (x : Event × Int) : Prop :=
  (x.1.kind = Kind.publish → x.2 = pdTRUE) ∧
  (x.1.kind ≠ Kind.publish → x.1.kind ≠ Kind.response → x.2 = pdFALSE)

/-! ## Properties of a report -/

/-- Every encoder call and every collector call of a cycle returns `CborNoError`. -/
def AllSucceed (env : CycleEnv) : Prop :=
  env.createMap = CborNoError ∧ env.encodeHed = CborNoError ∧
  env.createHeaderMap = CborNoError ∧ env.encodeRid = CborNoError ∧
  env.encodeRidValue = CborNoError ∧ env.encodeV = CborNoError ∧
  env.encodeVersion = CborNoError ∧ env.closeHeaderMap = CborNoError ∧
  env.metrics.encodeMet = CborNoError ∧ env.metrics.createMetricsMap = CborNoError ∧
  env.metrics.networkStats = CborNoError ∧ env.metrics.listeningTcpPorts = CborNoError ∧
  env.metrics.listeningUdpPorts = CborNoError ∧
  env.metrics.establishedConnections = CborNoError ∧
  env.metrics.closeMetricsMap = CborNoError ∧ env.closeMap = CborNoError

instance (env : CycleEnv) : Decidable (AllSucceed env) := by
  unfold AllSucceed
  exact inferInstance

/-- Text strings written into the container of encoder `enc`, in order. -/
def textsOn (enc : Encoder) : List Event → List String
  | [] => []
  | Event.cbor_encode_text_stringz e t :: es =>
    if e = enc then t :: textsOn enc es else textsOn enc es
  | _ :: es => textsOn enc es

/-- Replays the opening and closing of containers of a trace on a stack of open
containers (innermost first): a container may only be opened inside the
innermost open one (or inside the root encoder when none is open), and only the
innermost open container may be closed, into its parent.  The result is the
stack left at the end, or `none` when the trace breaks this discipline. -/
def openContainers : List Event → List (Encoder × Encoder) → Option (List (Encoder × Encoder))
  | [], st => some st
  | Event.cbor_encoder_create_map parent child _ :: es, st =>
    match st with
    | [] => if parent = Encoder.xEncoder then openContainers es [(parent, child)] else none
    | (_, top) :: _ => if parent = top then openContainers es ((parent, child) :: st) else none
  | Event.cbor_encoder_close_container parent child :: es, st =>
    match st with
    | [] => none
    | top :: rest => if top = (parent, child) then openContainers es rest else none
  | _ :: es, st => openContainers es st

/-! ## Sample inputs -/

/-- A platform with a 1000 Hz tick and the topic lengths of the Defender library. -/
def samplePlatform : Platform :=
  { configTICK_RATE_HZ := 1000, MQTTIllegalState := 8,
    DEFENDER_API_LENGTH_CBOR_PUBLISH := fun n => n + 34,
    DEFENDER_API_LENGTH_CBOR_ACCEPTED := fun n => n + 43,
    DefenderCborReportPublish := 3 }

/-- A context with an eight byte thing name and its three topics built. -/
def sampleCtx : DefenderAgentCtx_t :=
  { xAgentTask := 7, xDeviceIdLen := 8, pxTopicLen := ⟨42, 51, 51⟩, pcDeviceId := 100,
    ppcTopic := ⟨200, 201, 202⟩, xWaitingForCallback := 0 }

/-- A cycle at tick 5000 in which every call succeeds, the publish is
acknowledged, and the report-response wait times out. -/
def envTimeout : CycleEnv :=
  { xTickCount := 5000, createMap := 0, encodeHed := 0, createHeaderMap := 0, encodeRid := 0,
    encodeRidValue := 0, encodeV := 0, encodeVersion := 0, closeHeaderMap := 0,
    metrics := ⟨0, 0, 0, 0, 0, 0, 0⟩, closeMap := 0, xLen := 60,
    publish := ⟨0, 1, 0⟩, xResponseResult := 0, ulResponseValue := 0 }

/-- A cycle in which the report is built, `MQTTAgent_Publish` returns the
non-success status `3`, and the report-response wait then returns `pdTRUE`
with notification value `1`. -/
def envPublishFails : CycleEnv :=
  { envTimeout with publish := ⟨3, 0, 0⟩, xResponseResult := 1, ulResponseValue := 1 }

/-- A cycle in which the report is built, `MQTTAgent_Publish` returns the
non-success status `3`, and the report-response wait times out. -/
def envPublishRefused : CycleEnv :=
  { envTimeout with publish := ⟨3, 0, 0⟩ }

/-- A cycle in which only the encoding of the header key `v` fails, with
`CborErrorOutOfMemory`, and every other encoder and collector call succeeds. -/
def envKeyVFails : CycleEnv :=
  { envTimeout with encodeV := 2147483648 }

/-- A cycle in which the first encoder call, the creation of the top-level map,
fails, so that nothing is published. -/
def envBuildFails : CycleEnv :=
  { envTimeout with createMap := 1 }

/-- A context as `vDefenderAgentTask` prepares it before building the topics:
zero-initialised, then given the thing name, its length and the task handle. -/
def freshCtx : DefenderAgentCtx_t :=
  { xAgentTask := 7, xDeviceIdLen := 8, pxTopicLen := ⟨0, 0, 0⟩, pcDeviceId := 100,
    ppcTopic := ⟨0, 0, 0⟩, xWaitingForCallback := 0 }

/-- Three successful allocations, at addresses 200, 201 and 202, and a
`Defender_GetTopic` that fails for the rejected topic. -/
def envThirdTopicFails : TopicEnv :=
  { mallocResult := fun i => 200 + i,
    getTopicStatus := fun i => if i = 2 then DefenderError else DefenderSuccess,
    usLenWritten := fun _ => 40 }

/-- A handshake that the broker acknowledges with success, after which the topic
router refuses the registration. -/
def envRouterFails : HandshakeEnv :=
  { agentStatus := 0, xNotifyResult := 1, ulNotifiedValue := 0, routerResult := false }

/-- Three successful allocations, at addresses 200, 201 and 202, and three
successful `Defender_GetTopic` calls for an eight byte thing name. -/
def envTopicsOk : TopicEnv :=
  { mallocResult := fun i => 200 + i,
    getTopicStatus := fun _ => DefenderSuccess,
    usLenWritten := fun i => if i = 0 then 42 else 51 }

/-- A handshake that the broker acknowledges with success and that the topic
router accepts. -/
def envHandshakeOk : HandshakeEnv :=
  { agentStatus := 0, xNotifyResult := 1, ulNotifiedValue := 0, routerResult := true }

/-- A handshake that the MQTT agent refuses with status `3`. -/
def envHandshakeRefused : HandshakeEnv :=
  { agentStatus := 3, xNotifyResult := 0, ulNotifiedValue := 0, routerResult := true }

/-- A run in which the startup succeeds, the first pass is `envTimeout`, another
task sets `xExitFlag` during the second pass, `envPublishFails`, and a third
pass is on offer. -/
def envTaskExitInSecondPass : TaskEnv :=
  { pcDeviceId := 100, xDeviceIdLen := 8, xAgentTask := 7, topics := envTopicsOk,
    subscribe := ⟨envHandshakeOk, envHandshakeOk⟩, exitRequestedAtStartup := false,
    steps := [⟨envTimeout, false⟩, ⟨envPublishFails, true⟩, ⟨envTimeout, false⟩],
    unsubscribe := ⟨envHandshakeOk, envHandshakeRefused⟩ }

/-- A run in which `KVStore_getStringHeap` returns `NULL`. -/
def envTaskNoIdentity : TaskEnv :=
  { envTaskExitInSecondPass with pcDeviceId := NULL, xDeviceIdLen := 0 }

/-- A run in which the third `Defender_GetTopic` call fails. -/
def envTaskTopicsFail : TaskEnv :=
  { envTaskExitInSecondPass with topics := envThirdTopicFails }

/-- A run in which the subscription to the rejected topic is refused. -/
def envTaskSubscribeFails : TaskEnv :=
  { envTaskExitInSecondPass with subscribe := ⟨envHandshakeOk, envHandshakeRefused⟩ }

/-- A cycle at tick 5000 of a later run of the task, after a reset of the
device has restarted the tick count from 0. -/
def envAfterReset : CycleEnv :=
  { envTimeout with xTickCount := 5000, xLen := 64 }

/-- A platform as `samplePlatform`, with a 100 Hz tick. -/
def slowTickPlatform : Platform :=
  { samplePlatform with configTICK_RATE_HZ := 100 }

/-- A publish that `MQTTAgent_Publish` accepts and whose acknowledgment wait
times out, the notification value of the task being `0`. -/
def envAckTimeout : PublishEnv :=
  { publishStatus := 0, xNotifyResult := 0, ulNotifiedValue := 0 }

/-! ## The command-completion callback and the calls of a handshake -/

/-- The function `prvSubscribeOpCb`, for a non-null context: `pxReturnInfo` is
`none` for a null pointer and otherwise holds the `returnCode` of the command. -/
def prvSubscribeOpCb (pxCommandContext : DefenderAgentCtx_t) (pxReturnInfo : Option Nat) :
    List Event :=
  match pxReturnInfo with
  | some returnCode => [Event.xTaskNotify pxCommandContext.xAgentTask returnCode]
  | none => []

/-- The notification value that a task waiting in `xTaskNotifyWait` receives
from the notifications sent to it, each sent with `eSetValueWithOverwrite`: the
value of the last one, if there is one. -/
def notifiedValue (task : Nat) : List Event → Option Nat
  | [] => none
  | Event.xTaskNotify t v :: es =>
    match notifiedValue task es with
    | some w => some w
    | none => if t = task then some v else none
  | _ :: es => notifiedValue task es

/-- Calls of the topic router. -/
def isRouterCall : Event → Bool
  | Event.mrouter_registerCallback _ _ _ => true
  | Event.mrouter_deRegisterCallback _ _ _ => true
  | _ => false

/-- Requests to the transport: subscribe, unsubscribe and publish. -/
def isTransportRequest : Event → Bool
  | Event.MQTTAgent_Subscribe _ _ => true
  | Event.MQTTAgent_Unsubscribe _ _ => true
  | Event.MQTTAgent_Publish _ _ _ => true
  | _ => false

/-- A cycle in which the publish is accepted by the MQTT agent, its
acknowledgment wait times out, and the completion callback of the command then
notifies the agent task with the return code `1` while the task is in the
report-response wait; no response handler runs. -/
def envLateCompletion : CycleEnv :=
  { envTimeout with publish := envAckTimeout, xResponseResult := 1, ulResponseValue := 1 }

end Defender

/-!
# Key-value store (`Projects/B-U585I-IOT02A/tz_disabled/Src/kvstore.c`)

The accessors of the key-value store.  The table of defaults and the number of
keys come from the configuration of the project, and the entry read and write
(`READ_ENTRY`, `WRITE_ENTRY`) are calls into the storage tier, whose outcomes
are arguments of the model.
-/

namespace KVStore

/-- The enumeration `KVStoreValueType_t`. -/
inductive KVStoreValueType_t where
  | KV_TYPE_NONE
  | KV_TYPE_BASE_T
  | KV_TYPE_UBASE_T
  | KV_TYPE_INT32
  | KV_TYPE_UINT32
  | KV_TYPE_STRING
  | KV_TYPE_BLOB
  | KV_TYPE_LAST
  deriving DecidableEq, Repr

open KVStoreValueType_t

/-- An entry of `kvStoreDefaults`: the type of the key, and the length and the
bytes of its default value. -/
structure KVStoreDefaultEntry_t where
  type : KVStoreValueType_t
  length : Nat
  blob : List Nat
  deriving DecidableEq, Repr

/-- The configuration of the store: `CS_NUM_KEYS` and the table
`kvStoreDefaults`. -/
structure Config where
  CS_NUM_KEYS : Nat
  kvStoreDefaults : Nat → KVStoreDefaultEntry_t

/-- Size in bytes of `uint32_t` and `int32_t`, and of `BaseType_t` and
`UBaseType_t` on the 32-bit target. -/
def sizeof_word : Nat := 4

/-- Outcome of a call of `READ_ENTRY`: the value it returns, the bytes of the
buffer after the call, and the type and length it reports. -/
structure ReadOutcome where
  xResult : Int
  pvBuffer : List Nat
  xType : KVStoreValueType_t
  xLength : Nat
  deriving DecidableEq, Repr

/-- A call into the storage tier or to the mutex of the store. -/
inductive KvEvent where
  | xSemaphoreTake
  | xSemaphoreGive
  | READ_ENTRY (xKey : Nat) (xBufferSize : Nat)
  | WRITE_ENTRY (xKey : Nat) (xType : KVStoreValueType_t) (xLength : Nat) (value : Nat)
  deriving DecidableEq, Repr

/-- Result of `xReadEntryOrDefault`: the value returned, the bytes of the
buffer, and what is stored through `pxType` and `pxLength` when they are not
null. -/
structure ReadResult where
  xResult : Int
  pvBuffer : List Nat
  pxType : Option KVStoreValueType_t
  pxLength : Option Nat
  deriving DecidableEq, Repr

/-- The function `xReadEntryOrDefault`; `pxType` and `pxLength` tell whether the
pointers of that name are non-null. -/
def xReadEntryOrDefault (cfg : Config) (rd : ReadOutcome) (xKey : Nat) (pxType : Bool)
    (pxLength : Bool) (xBufferSize : Nat) : ReadResult :=
  let xResult := rd.xResult
  let r : ReadResult :=
    { xResult := xResult, pvBuffer := rd.pvBuffer,
      pxType := if pxType = true then some rd.xType else none,
      pxLength := if pxLength = true then some rd.xLength else none }
  if xResult ≠ Defender.pdTRUE then
    let xDataLen := (cfg.kvStoreDefaults xKey).length
    let xDataLen := if xBufferSize < xDataLen then xBufferSize else xDataLen
    { xResult := if xDataLen > 0 then 1 else 0,
      pvBuffer := (cfg.kvStoreDefaults xKey).blob.take xDataLen ++ r.pvBuffer.drop xDataLen,
      pxType := if pxType = true then some (cfg.kvStoreDefaults xKey).type else r.pxType,
      pxLength := if pxLength = true then some (cfg.kvStoreDefaults xKey).length else r.pxLength }
  else r

/-- Conversion of a `BaseType_t` to `size_t`. -/
def toSizeT (x : Int) : Nat := (x % 2 ^ 32).toNat

/-- The 32-bit word that the first four bytes of a buffer hold, least
significant byte first. -/
def wordOf (b : List Nat) : Nat :=
  b.getD 0 0 + 256 * b.getD 1 0 + 65536 * b.getD 2 0 + 16777216 * b.getD 3 0

/-- Result of a getter of a word: the word returned, what is stored through
`pxSuccess` when it is not null, and the calls made. -/
structure GetResult where
  ret : Nat
  pxSuccess : Option Int
  trace : List KvEvent
  deriving DecidableEq, Repr

/-- The function `KVStore_getUInt32`; `pxSuccess` tells whether the pointer of
that name is non-null. -/
def KVStore_getUInt32 (cfg : Config) (rd : ReadOutcome) (key : Nat) (pxSuccess : Bool) :
    GetResult :=
  let ulReturnValue := 0
  let xSizeWritten := 0
  let r : Nat × Nat × List KvEvent :=
    if key < cfg.CS_NUM_KEYS ∧ (cfg.kvStoreDefaults key).type = KV_TYPE_UINT32 then
      let x := xReadEntryOrDefault cfg rd key false false sizeof_word
      (wordOf x.pvBuffer, toSizeT x.xResult,
        [KvEvent.xSemaphoreTake, KvEvent.READ_ENTRY key sizeof_word, KvEvent.xSemaphoreGive])
    else (ulReturnValue, xSizeWritten, [])
  { ret := r.1,
    pxSuccess := if pxSuccess = true then some (if r.2.1 = sizeof_word then 1 else 0) else none,
    trace := r.2.2 }

/-- The function `lKVStore_getInt32`; the word returned is the bit pattern of
the `int32_t`. -/
def lKVStore_getInt32 (cfg : Config) (rd : ReadOutcome) (key : Nat) (pxSuccess : Bool) :
    GetResult :=
  let lReturnValue := 0
  let xSizeWritten := 0
  let r : Nat × Nat × List KvEvent :=
    if key < cfg.CS_NUM_KEYS ∧ (cfg.kvStoreDefaults key).type = KV_TYPE_INT32 then
      let x := xReadEntryOrDefault cfg rd key false false sizeof_word
      (wordOf x.pvBuffer, toSizeT x.xResult,
        [KvEvent.xSemaphoreTake, KvEvent.READ_ENTRY key sizeof_word, KvEvent.xSemaphoreGive])
    else (lReturnValue, xSizeWritten, [])
  { ret := r.1,
    pxSuccess := if pxSuccess = true then some (if r.2.1 = sizeof_word then 1 else 0) else none,
    trace := r.2.2 }

/-- The function `lKVStore_getBase`; the word returned is the bit pattern of the
`BaseType_t`. -/
def lKVStore_getBase (cfg : Config) (rd : ReadOutcome) (key : Nat) (pxSuccess : Bool) :
    GetResult :=
  let xReturnValue := 0
  let xSizeWritten := 0
  let r : Nat × Nat × List KvEvent :=
    if key < cfg.CS_NUM_KEYS ∧ (cfg.kvStoreDefaults key).type = KV_TYPE_BASE_T then
      let x := xReadEntryOrDefault cfg rd key false false sizeof_word
      (wordOf x.pvBuffer, toSizeT x.xResult,
        [KvEvent.xSemaphoreTake, KvEvent.READ_ENTRY key sizeof_word, KvEvent.xSemaphoreGive])
    else (xReturnValue, xSizeWritten, [])
  { ret := r.1,
    pxSuccess := if pxSuccess = true then some (if r.2.1 = sizeof_word then 1 else 0) else none,
    trace := r.2.2 }

/-- The function `lKVStore_getUBase`. -/
def lKVStore_getUBase (cfg : Config) (rd : ReadOutcome) (key : Nat) (pxSuccess : Bool) :
    GetResult :=
  let xReturnValue := 0
  let xSizeWritten := 0
  let r : Nat × Nat × List KvEvent :=
    if key < cfg.CS_NUM_KEYS ∧ (cfg.kvStoreDefaults key).type = KV_TYPE_BASE_T then
      let x := xReadEntryOrDefault cfg rd key false false sizeof_word
      (wordOf x.pvBuffer, toSizeT x.xResult,
        [KvEvent.xSemaphoreTake, KvEvent.READ_ENTRY key sizeof_word, KvEvent.xSemaphoreGive])
    else (xReturnValue, xSizeWritten, [])
  { ret := r.1,
    pxSuccess := if pxSuccess = true then some (if r.2.1 = sizeof_word then 1 else 0) else none,
    trace := r.2.2 }

/-- Result of a setter: the value returned and the calls made. -/
structure SetResult where
  xReturn : Int
  trace : List KvEvent
  deriving DecidableEq, Repr

/-- The function `KVStore_setUBaseType`; `xWriteResult` is what `WRITE_ENTRY`
returns. -/
def KVStore_setUBaseType (cfg : Config) (xWriteResult : Int) (key : Nat) (uxNewVal : Nat) :
    SetResult :=
  let xReturn := Defender.pdFALSE
  if key < cfg.CS_NUM_KEYS ∧ (cfg.kvStoreDefaults key).type = KV_TYPE_UBASE_T then
    { xReturn := xWriteResult,
      trace := [KvEvent.WRITE_ENTRY key KV_TYPE_UBASE_T sizeof_word uxNewVal] }
  else { xReturn := xReturn, trace := [] }

/-- A store with two keys: key 0 of type `KV_TYPE_UBASE_T` and key 1 of type
`KV_TYPE_UINT32`, each with a four byte default. -/
def sampleConfig : Config :=
  { CS_NUM_KEYS := 2,
    kvStoreDefaults := fun k =>
      if k = 0 then ⟨KV_TYPE_UBASE_T, 4, [7, 0, 0, 0]⟩
      else if k = 1 then ⟨KV_TYPE_UINT32, 4, [9, 0, 0, 0]⟩
      else ⟨KV_TYPE_NONE, 0, []⟩ }

/-- An entry read that succeeds and delivers the word 42. -/
def readsFortyTwo : ReadOutcome :=
  { xResult := 1, pvBuffer := [42, 0, 0, 0], xType := KV_TYPE_UBASE_T, xLength := 4 }

end KVStore

/-!
# Console commands (`Projects/B-U585I-IOT02A/tz_disabled/Src/cli/cli_utils.c`)

The commands `kill` and `ps`.  C strings are lists of characters, the
terminating NUL left out; `strtoul` is the function of the C library, for
base 10 and a 32-bit `unsigned long`.
-/

namespace Cli

/-- What the commands read of a task: fields of its `TaskStatus_t`, and the two
stack pointers of the task control block behind `xHandle`. -/
structure TaskStatus_t where
  xHandle : Nat
  xTaskNumber : Nat
  ulRunTimeCounter : Nat
  usStackHighWaterMark : Nat
  pxStack : Nat
  pxEndOfStack : Nat
  deriving DecidableEq, Repr

/-- The function `ulGetStackDepth`, with 32-bit pointers and a four byte
`StackType_t`. -/
def ulGetStackDepth (xTask : TaskStatus_t) : Nat :=
  (((xTask.pxEndOfStack + 2 ^ 32 - xTask.pxStack) % 2 ^ 32) / 4 + 2) % 2 ^ 32

/-- Unsigned division: `none` when the divisor is zero. -/
def udiv (a b : Nat) : Option Nat :=
  if b = 0 then none else some (a / b)

/-- A line of the table printed by `prvPSCommand`. -/
structure PsRow where
  xTaskNumber : Nat
  cpuPct : Nat
  ulStackSize : Nat
  usStackHighWaterMark : Nat
  ucStackUsagePct : Nat
  deriving DecidableEq, Repr

/-- Body of the loop of `prvPSCommand` for one task, `ulTotalRuntime` being the
total run time already divided by 100: `none` when one of its two divisions
has a zero divisor. -/
def psRow (ulTotalRuntime : Nat) (t : TaskStatus_t) : Option PsRow :=
  let ulStackSize := ulGetStackDepth t
  match udiv ((100 * ((ulStackSize + 2 ^ 32 - t.usStackHighWaterMark) % 2 ^ 32)) % 2 ^ 32)
      ulStackSize with
  | none => none
  | some ucStackUsagePct =>
    match udiv t.ulRunTimeCounter ulTotalRuntime with
    | none => none
    | some cpuPct =>
      some { xTaskNumber := t.xTaskNumber, cpuPct := cpuPct, ulStackSize := ulStackSize,
             usStackHighWaterMark := t.usStackHighWaterMark,
             ucStackUsagePct := ucStackUsagePct }

/-- The loop of `prvPSCommand` over the tasks. -/
def psRows (ulTotalRuntime : Nat) : List TaskStatus_t → Option (List PsRow)
  | [] => some []
  | t :: ts =>
    match psRow ulTotalRuntime t with
    | none => none
    | some r =>
      match psRows ulTotalRuntime ts with
      | none => none
      | some rs => some (r :: rs)

/-- The function `prvPSCommand`: the lines it prints, or `none` when it divides
by zero.  The arguments are the pointer returned by `pvPortMalloc`, and the
tasks and the total run time that `uxTaskGetSystemState` reports. -/
def prvPSCommand (pxTaskStatusArray : Nat) (tasks : List TaskStatus_t)
    (ulTotalRuntime : Nat) : Option (List PsRow) :=
  if pxTaskStatusArray = 0 then some []
  else
    let ulTotalRuntime := ulTotalRuntime / 100
    psRows ulTotalRuntime tasks

/-- A task with a stack of 256 words. -/
def sampleTask : TaskStatus_t :=
  { xHandle := 536875008, xTaskNumber := 1, ulRunTimeCounter := 10,
    usStackHighWaterMark := 100, pxStack := 536870912, pxEndOfStack := 536871936 }

end Cli

namespace Defender

open DefenderStatus_t

/-! ## Theorems -/

section TopicBuilder

theorem Arr3.get_set_self (a : Arr3) (i v : Nat) : (a.set i v).get i = v := by
  unfold Arr3.get Arr3.set
  split <;> simp

theorem topicLoopBody_eq (P : Platform) (env : TopicEnv) (i : Nat) (s : TopicState) :
    topicLoopBody P env i s =
      if env.mallocResult i = 0 then
        { ctx := { s.ctx with ppcTopic := s.ctx.ppcTopic.set i 0 },
          xRslt := DefenderError,
          trace := s.trace ++ [Event.pvPortMalloc (s.ctx.pxTopicLen.get i + 1) 0] }
      else if env.getTopicStatus i = DefenderSuccess ∧
          env.usLenWritten i ≤ s.ctx.pxTopicLen.get i then
        { ctx := { s.ctx with ppcTopic := s.ctx.ppcTopic.set i (env.mallocResult i),
                              pxTopicLen := s.ctx.pxTopicLen.set i (env.usLenWritten i) },
          xRslt := DefenderSuccess,
          trace := s.trace ++
            [Event.pvPortMalloc (s.ctx.pxTopicLen.get i + 1) (env.mallocResult i),
              Event.Defender_GetTopic (env.mallocResult i) (s.ctx.pxTopicLen.get i)
                (i + P.DefenderCborReportPublish)] }
      else
        { ctx := { s.ctx with ppcTopic := s.ctx.ppcTopic.set i (env.mallocResult i) },
          xRslt := DefenderBufferTooSmall,
          trace := s.trace ++
            [Event.pvPortMalloc (s.ctx.pxTopicLen.get i + 1) (env.mallocResult i),
              Event.Defender_GetTopic (env.mallocResult i) (s.ctx.pxTopicLen.get i)
                (i + P.DefenderCborReportPublish)] } := by
  by_cases h : env.mallocResult i = 0
  · simp only [topicLoopBody, Arr3.get_set_self, NULL, h, if_true]
  · by_cases g : env.getTopicStatus i = DefenderSuccess ∧
        env.usLenWritten i ≤ s.ctx.pxTopicLen.get i
    · simp only [topicLoopBody, Arr3.get_set_self, NULL, h, if_false, g, and_self, if_true,
        List.append_assoc, List.singleton_append]
    · simp only [topicLoopBody, Arr3.get_set_self, NULL, h, if_false, g,
        List.append_assoc, List.singleton_append]

theorem topicLoop_succ (P : Platform) (env : TopicEnv) (n i : Nat) (s : TopicState) :
    topicLoop P env (n + 1) i s =
      if (topicLoopBody P env i s).xRslt ≠ DefenderSuccess then topicLoopBody P env i s
      else topicLoop P env n (i + 1) (topicLoopBody P env i s) := rfl

theorem freed_append (a b : List Event) : freed (a ++ b) = freed a ++ freed b := by
  induction a with
  | nil => rfl
  | cons e es ih => cases e <;> simp [freed, ih]

theorem allocated_append (a b : List Event) :
    allocated (a ++ b) = allocated a ++ allocated b := by
  induction a with
  | nil => rfl
  | cons e es ih =>
    cases e <;> simp [allocated, ih]
    split <;> simp

theorem mallocCalls_append (a b : List Event) :
    mallocCalls (a ++ b) = mallocCalls a + mallocCalls b := by
  induction a with
  | nil => simp [mallocCalls]
  | cons e es ih => cases e <;> simp [mallocCalls, ih]; omega

theorem freed_map_vPortFree (l : List Ptr) : freed (l.map Event.vPortFree) = l := by
  induction l with
  | nil => rfl
  | cons p ps ih => simp [freed, ih]

theorem allocated_map_vPortFree (l : List Ptr) : allocated (l.map Event.vPortFree) = [] := by
  induction l with
  | nil => rfl
  | cons p ps ih => simp [allocated, ih]

theorem mallocCalls_map_vPortFree (l : List Ptr) : mallocCalls (l.map Event.vPortFree) = 0 := by
  induction l with
  | nil => rfl
  | cons p ps ih => simp [mallocCalls, ih]

/-- The cleanup loop clears every topic slot and every topic length, and frees
exactly the non-null topic pointers, in slot order. -/
theorem topicCleanup_spec (s : TopicState) :
    (topicCleanup 3 0 s).ctx.ppcTopic = ⟨NULL, NULL, NULL⟩ ∧
    (topicCleanup 3 0 s).ctx.pxTopicLen = ⟨0, 0, 0⟩ ∧
    (topicCleanup 3 0 s).xRslt = s.xRslt ∧
    (topicCleanup 3 0 s).trace = s.trace ++ (heldFrom s.ctx 0).map Event.vPortFree := by
  obtain ⟨⟨task, idLen, ⟨l0, l1, l2⟩, id, ⟨t0, t1, t2⟩, w⟩, x, tr⟩ := s
  by_cases k0 : t0 = 0 <;> by_cases k1 : t1 = 0 <;> by_cases k2 : t2 = 0 <;>
  by_cases m0 : l0 = 0 <;> by_cases m1 : l1 = 0 <;> by_cases m2 : l2 = 0 <;>
  simp [topicCleanup, topicCleanupBody, Arr3.get, Arr3.set, NULL, heldFrom, k0, k1, k2,
    m0, m1, m2, Nat.pos_iff_ne_zero]

/-- The allocation loop either fills all three slots, or stops with an error
having freed nothing, the non-null slots being the buffers it allocated
followed by what the slots it did not reach held on entry. -/
theorem topicLoop_spec (P : Platform) (env : TopicEnv) (ctx : DefenderAgentCtx_t) :
    ((topicLoop P env 3 0 ⟨ctx, DefenderSuccess, []⟩).xRslt = DefenderSuccess ∧
      (topicLoop P env 3 0 ⟨ctx, DefenderSuccess, []⟩).ctx.ppcTopic.get 0 ≠ NULL ∧
      (topicLoop P env 3 0 ⟨ctx, DefenderSuccess, []⟩).ctx.ppcTopic.get 1 ≠ NULL ∧
      (topicLoop P env 3 0 ⟨ctx, DefenderSuccess, []⟩).ctx.ppcTopic.get 2 ≠ NULL) ∨
    ((topicLoop P env 3 0 ⟨ctx, DefenderSuccess, []⟩).xRslt ≠ DefenderSuccess ∧
      freed (topicLoop P env 3 0 ⟨ctx, DefenderSuccess, []⟩).trace = [] ∧
      heldFrom (topicLoop P env 3 0 ⟨ctx, DefenderSuccess, []⟩).ctx 0 =
        allocated (topicLoop P env 3 0 ⟨ctx, DefenderSuccess, []⟩).trace ++
          heldFrom ctx (mallocCalls (topicLoop P env 3 0 ⟨ctx, DefenderSuccess, []⟩).trace)) := by
  obtain ⟨task, idLen, ⟨l0, l1, l2⟩, id, ⟨t0, t1, t2⟩, w⟩ := ctx
  by_cases h0 : env.mallocResult 0 = 0
  · by_cases k1 : t1 = 0 <;> by_cases k2 : t2 = 0 <;>
    simp [topicLoop_succ, topicLoopBody_eq, Arr3.get, Arr3.set, NULL, allocated, freed,
      mallocCalls, heldFrom, h0, k1, k2]
  · by_cases g0 : env.getTopicStatus 0 = DefenderSuccess ∧ env.usLenWritten 0 ≤ l0
    · by_cases h1 : env.mallocResult 1 = 0
      · by_cases k2 : t2 = 0 <;>
        simp [topicLoop_succ, topicLoopBody_eq, Arr3.get, Arr3.set, NULL, allocated, freed,
          mallocCalls, heldFrom, h0, g0, h1, k2]
      · by_cases g1 : env.getTopicStatus 1 = DefenderSuccess ∧ env.usLenWritten 1 ≤ l1
        · by_cases h2 : env.mallocResult 2 = 0
          · simp [topicLoop_succ, topicLoopBody_eq, Arr3.get, Arr3.set, NULL, allocated,
              freed, mallocCalls, heldFrom, h0, g0, h1, g1, h2]
          · by_cases g2 : env.getTopicStatus 2 = DefenderSuccess ∧ env.usLenWritten 2 ≤ l2 <;>
            simp [topicLoop_succ, topicLoop, topicLoopBody_eq, Arr3.get, Arr3.set, NULL,
              allocated, freed, mallocCalls, heldFrom, h0, g0, h1, g1, h2, g2]
        · by_cases k2 : t2 = 0 <;>
          simp [topicLoop_succ, topicLoopBody_eq, Arr3.get, Arr3.set, NULL, allocated, freed,
            mallocCalls, heldFrom, h0, g0, h1, g1, k2]
    · by_cases k1 : t1 = 0 <;> by_cases k2 : t2 = 0 <;>
      simp [topicLoop_succ, topicLoopBody_eq, Arr3.get, Arr3.set, NULL, allocated, freed,
        mallocCalls, heldFrom, h0, g0, k1, k2]

/-- C1: `prvBuildDefenderTopicStrings` is all or nothing.  For every context
(so for every device identity) and every outcome of the three allocations and
of the three `Defender_GetTopic` calls, either it returns `true` and the three
topic pointers are non-null, or it returns `false`, the three topic pointers
are `NULL`, the three topic lengths are `0`, and the calls to `vPortFree` are,
one for one and in order, the buffers allocated during the call, followed by
the non-null pointers that the slots the loop did not reach held on entry
(none in the zero-initialised context of the task); so when these pointers are
pairwise distinct, as the blocks of an allocator are, each allocated buffer is
freed exactly once. -/
theorem prvBuildDefenderTopicStrings_all_or_nothing (P : Platform) (env : TopicEnv)
    (pxCtx : DefenderAgentCtx_t) :
    ((prvBuildDefenderTopicStrings P env pxCtx).ret = true ∧
      (prvBuildDefenderTopicStrings P env pxCtx).ctx.ppcTopic.get IDX_PUBLISH ≠ NULL ∧
      (prvBuildDefenderTopicStrings P env pxCtx).ctx.ppcTopic.get IDX_ACCEPTED ≠ NULL ∧
      (prvBuildDefenderTopicStrings P env pxCtx).ctx.ppcTopic.get IDX_REJECTED ≠ NULL) ∨
    ((prvBuildDefenderTopicStrings P env pxCtx).ret = false ∧
      (prvBuildDefenderTopicStrings P env pxCtx).ctx.ppcTopic = ⟨NULL, NULL, NULL⟩ ∧
      (prvBuildDefenderTopicStrings P env pxCtx).ctx.pxTopicLen = ⟨0, 0, 0⟩ ∧
      freed (prvBuildDefenderTopicStrings P env pxCtx).trace =
        allocated (prvBuildDefenderTopicStrings P env pxCtx).trace ++
          heldFrom pxCtx (mallocCalls (prvBuildDefenderTopicStrings P env pxCtx).trace) ∧
      (pxCtx.ppcTopic = ⟨NULL, NULL, NULL⟩ →
        freed (prvBuildDefenderTopicStrings P env pxCtx).trace =
          allocated (prvBuildDefenderTopicStrings P env pxCtx).trace) ∧
      ((allocated (prvBuildDefenderTopicStrings P env pxCtx).trace ++
          heldFrom pxCtx (mallocCalls (prvBuildDefenderTopicStrings P env pxCtx).trace)).Nodup →
        ∀ p ∈ allocated (prvBuildDefenderTopicStrings P env pxCtx).trace,
          (freed (prvBuildDefenderTopicStrings P env pxCtx).trace).count p = 1)) := by
  have hheld : ∀ k, pxCtx.ppcTopic = ⟨NULL, NULL, NULL⟩ → heldFrom pxCtx k = [] := by
    intro k hk
    simp only [heldFrom, hk, Arr3.get, NULL, List.map_drop, List.map_cons, List.map_nil,
      List.filter_eq_nil_iff, ne_eq, decide_eq_true_eq, not_not]
    intro a ha
    have hm := List.mem_of_mem_drop ha
    simpa using hm
  have hl := topicLoop_spec P env { pxCtx with
    pxTopicLen := ((pxCtx.pxTopicLen.set 0
      (P.DEFENDER_API_LENGTH_CBOR_PUBLISH pxCtx.xDeviceIdLen)).set 1
      (P.DEFENDER_API_LENGTH_CBOR_ACCEPTED pxCtx.xDeviceIdLen)).set 2
      (P.DEFENDER_API_LENGTH_CBOR_ACCEPTED pxCtx.xDeviceIdLen) }
  unfold prvBuildDefenderTopicStrings
  simp only [IDX_PUBLISH, IDX_ACCEPTED, IDX_REJECTED]
  generalize topicLoop P env 3 0 _ = s1 at hl ⊢
  rcases hl with ⟨hx, a, b, c⟩ | ⟨hx, hf, hh⟩
  · left
    simp [hx, a, b, c]
  · right
    obtain ⟨c1, c2, c3, c4⟩ := topicCleanup_spec s1
    have hh2 : heldFrom s1.ctx 0 = allocated s1.trace ++ heldFrom pxCtx (mallocCalls s1.trace) :=
      hh
    have key : freed (topicCleanup 3 0 s1).trace =
        allocated (topicCleanup 3 0 s1).trace ++
          heldFrom pxCtx (mallocCalls (topicCleanup 3 0 s1).trace) := by
      rw [c4, freed_append, allocated_append, mallocCalls_append, freed_map_vPortFree,
        allocated_map_vPortFree, mallocCalls_map_vPortFree, hf, hh2]
      simp
    simp only [hx, ne_eq, not_false_eq_true, if_true, c1, c2, c3, decide_False, true_and]
    refine ⟨key, ?_, ?_⟩
    · intro hk
      rw [key, hheld _ hk, List.append_nil]
    · intro hnd p hp
      rw [key]
      exact List.count_eq_one_of_mem hnd (List.mem_append_left _ hp)

/-- Witness of C1: the third `Defender_GetTopic` call fails; the builder
returns `false` and frees the three buffers it allocated. -/
theorem prvBuildDefenderTopicStrings_all_or_nothing_witness :
    (prvBuildDefenderTopicStrings samplePlatform envThirdTopicFails freshCtx).ret = false ∧
    allocated (prvBuildDefenderTopicStrings samplePlatform envThirdTopicFails freshCtx).trace =
      [200, 201, 202] ∧
    freed (prvBuildDefenderTopicStrings samplePlatform envThirdTopicFails freshCtx).trace =
      allocated (prvBuildDefenderTopicStrings samplePlatform envThirdTopicFails freshCtx).trace :=
  ⟨by decide, by decide,
    ((prvBuildDefenderTopicStrings_all_or_nothing samplePlatform envThirdTopicFails
      freshCtx).resolve_left (by decide)).2.2.2.2.1 rfl⟩

end TopicBuilder


section Subscribe

/-- C2: `prvSubscribeToTopic` returns `true` exactly when the topic is non-null
with a length above zero, `MQTTAgent_Subscribe` returned `MQTTSuccess`, the
acknowledgment wait returned `pdTRUE` with notification value `MQTTSuccess`,
and `mrouter_registerCallback` returned `true`; in particular a successful
handshake followed by a failed router registration gives `false`, the router
having been called. -/
theorem prvSubscribeToTopic_true_iff (P : Platform) (env : HandshakeEnv) (pcTopic : Ptr)
    (xTopicLen : Nat) (pxCallback : Handler) :
    ((prvSubscribeToTopic P env pcTopic xTopicLen pxCallback).ret = true ↔
      (pcTopic ≠ NULL ∧ 0 < xTopicLen ∧ env.agentStatus = MQTTSuccess ∧
        env.xNotifyResult = pdTRUE ∧ env.ulNotifiedValue = MQTTSuccess ∧
        env.routerResult = true)) ∧
    ((pcTopic ≠ NULL ∧ 0 < xTopicLen ∧ env.agentStatus = MQTTSuccess ∧
        env.xNotifyResult = pdTRUE ∧ env.ulNotifiedValue = MQTTSuccess ∧
        env.routerResult = false) →
      (prvSubscribeToTopic P env pcTopic xTopicLen pxCallback).ret = false ∧
      (prvSubscribeToTopic P env pcTopic xTopicLen pxCallback).trace =
        [Event.MQTTAgent_Subscribe pcTopic xTopicLen,
         Event.xTaskNotifyWait WaitSite.subscribeAck RESPONSE_TIMEOUT_MS,
         Event.mrouter_registerCallback pcTopic xTopicLen pxCallback]) := by
  unfold prvSubscribeToTopic
  constructor
  · by_cases ht : pcTopic = NULL <;> by_cases hl : 0 < xTopicLen <;>
    by_cases hs : env.agentStatus = MQTTSuccess <;>
    by_cases hn : env.xNotifyResult = 1 <;>
    by_cases hv : env.ulNotifiedValue = MQTTSuccess <;>
    simp [ht, hl, hs, hn, hv, pdTRUE, pdFALSE]
  · rintro ⟨h1, h2, h3, h4, h5, h6⟩
    simp [h1, h2, h3, h4, h5, h6]

/-- Witness of C2: the handshake succeeds and the router registration fails. -/
theorem prvSubscribeToTopic_true_iff_witness :
    (prvSubscribeToTopic samplePlatform envRouterFails 201 51
      Handler.prvReportAcceptedCallback).ret = false :=
  ((prvSubscribeToTopic_true_iff samplePlatform envRouterFails 201 51
    Handler.prvReportAcceptedCallback).2 (by decide)).1

end Subscribe

section Handlers

/-- C3: for both handlers, every validation function and every payload, a
handler invoked while `xWaitingForCallback` is false sends no task notification
(it makes no call at all) and leaves the context unchanged. -/
theorem handlers_ignore_when_not_waiting (validate : List Nat → Nat → Bool)
    (pxCtx : DefenderAgentCtx_t) (pPayload : List Nat) (payloadLength : Nat)
    (h : pxCtx.xWaitingForCallback = pdFALSE) :
    prvReportAcceptedCallback pxCtx pPayload payloadLength = { ctx := pxCtx, trace := [] } ∧
    prvReportRejectedCallback pxCtx pPayload payloadLength = { ctx := pxCtx, trace := [] } ∧
    prvReportAcceptedCallbackWith validate pxCtx pPayload payloadLength =
      { ctx := pxCtx, trace := [] } ∧
    prvReportRejectedCallbackWith validate pxCtx pPayload payloadLength =
      { ctx := pxCtx, trace := [] } := by
  simp [prvReportAcceptedCallback, prvReportRejectedCallback, prvReportAcceptedCallbackWith,
    prvReportRejectedCallbackWith, h, pdFALSE]

/-- Witness of C3: a context that is not waiting, and a one byte payload. -/
theorem handlers_ignore_when_not_waiting_witness :
    prvReportAcceptedCallback ⟨7, 8, ⟨40, 49, 49⟩, 100, ⟨200, 201, 202⟩, 0⟩ [123] 1 =
      { ctx := ⟨7, 8, ⟨40, 49, 49⟩, 100, ⟨200, 201, 202⟩, 0⟩, trace := [] } ∧
    prvReportRejectedCallback ⟨7, 8, ⟨40, 49, 49⟩, 100, ⟨200, 201, 202⟩, 0⟩ [123] 1 =
      { ctx := ⟨7, 8, ⟨40, 49, 49⟩, 100, ⟨200, 201, 202⟩, 0⟩, trace := [] } ∧
    prvReportAcceptedCallbackWith (fun _ _ => false)
        ⟨7, 8, ⟨40, 49, 49⟩, 100, ⟨200, 201, 202⟩, 0⟩ [123] 1 =
      { ctx := ⟨7, 8, ⟨40, 49, 49⟩, 100, ⟨200, 201, 202⟩, 0⟩, trace := [] } ∧
    prvReportRejectedCallbackWith (fun _ _ => false)
        ⟨7, 8, ⟨40, 49, 49⟩, 100, ⟨200, 201, 202⟩, 0⟩ [123] 1 =
      { ctx := ⟨7, 8, ⟨40, 49, 49⟩, 100, ⟨200, 201, 202⟩, 0⟩, trace := [] } :=
  handlers_ignore_when_not_waiting (fun _ _ => false)
    ⟨7, 8, ⟨40, 49, 49⟩, 100, ⟨200, 201, 202⟩, 0⟩ [123] 1 rfl

/-- C4: while `xWaitingForCallback` is true (non-zero), each handler sends
exactly one notification, to the agent task.  Whatever the validation function
answers, the accepted handler sends `ReportStatusAccepted` when validation
returns `true` and `ReportStatusInvalid` when it returns `false`, never
`ReportStatusRejected`; the rejected handler sends `ReportStatusRejected` when
validation returns `true` and `ReportStatusInvalid` when it returns `false`,
never `ReportStatusAccepted`; and the handlers of the task are these bodies
with `prvValidateDefenderResponse` as validation function. -/
theorem handlers_notify_once_when_waiting (validate : List Nat → Nat → Bool)
    (pxCtx : DefenderAgentCtx_t) (pPayload : List Nat) (payloadLength : Nat)
    (h : pxCtx.xWaitingForCallback ≠ 0) :
    (prvReportAcceptedCallbackWith validate pxCtx pPayload payloadLength).trace =
      [Event.xTaskNotify pxCtx.xAgentTask
        (if validate pPayload payloadLength = true then ReportStatusAccepted
         else ReportStatusInvalid)] ∧
    (prvReportRejectedCallbackWith validate pxCtx pPayload payloadLength).trace =
      [Event.xTaskNotify pxCtx.xAgentTask
        (if validate pPayload payloadLength = true then ReportStatusRejected
         else ReportStatusInvalid)] ∧
    (prvReportAcceptedCallbackWith validate pxCtx pPayload payloadLength).trace ≠
      [Event.xTaskNotify pxCtx.xAgentTask ReportStatusRejected] ∧
    (prvReportRejectedCallbackWith validate pxCtx pPayload payloadLength).trace ≠
      [Event.xTaskNotify pxCtx.xAgentTask ReportStatusAccepted] ∧
    prvReportAcceptedCallback pxCtx pPayload payloadLength =
      prvReportAcceptedCallbackWith prvValidateDefenderResponse pxCtx pPayload payloadLength ∧
    prvReportRejectedCallback pxCtx pPayload payloadLength =
      prvReportRejectedCallbackWith prvValidateDefenderResponse pxCtx pPayload payloadLength := by
  refine ⟨?_, ?_, ?_, ?_, rfl, rfl⟩
  · simp [prvReportAcceptedCallbackWith, h]
  · simp [prvReportRejectedCallbackWith, h]
  · cases hv : validate pPayload payloadLength <;>
    simp [prvReportAcceptedCallbackWith, h, hv, ReportStatusAccepted, ReportStatusRejected,
      ReportStatusInvalid]
  · cases hv : validate pPayload payloadLength <;>
    simp [prvReportRejectedCallbackWith, h, hv, ReportStatusAccepted, ReportStatusRejected,
      ReportStatusInvalid]

/-- Witness of C4: a waiting context and a validation function that refuses the
payload; both handlers notify task `7` with `ReportStatusInvalid`. -/
theorem handlers_notify_once_when_waiting_witness :
    (prvReportAcceptedCallbackWith (fun _ _ => false)
        ⟨7, 8, ⟨40, 49, 49⟩, 100, ⟨200, 201, 202⟩, 1⟩ [123] 1).trace =
      [Event.xTaskNotify 7 ReportStatusInvalid] ∧
    (prvReportRejectedCallbackWith (fun _ _ => false)
        ⟨7, 8, ⟨40, 49, 49⟩, 100, ⟨200, 201, 202⟩, 1⟩ [123] 1).trace =
      [Event.xTaskNotify 7 ReportStatusInvalid] :=
  ⟨(handlers_notify_once_when_waiting (fun _ _ => false)
      ⟨7, 8, ⟨40, 49, 49⟩, 100, ⟨200, 201, 202⟩, 1⟩ [123] 1 (by decide)).1,
   (handlers_notify_once_when_waiting (fun _ _ => false)
      ⟨7, 8, ⟨40, 49, 49⟩, 100, ⟨200, 201, 202⟩, 1⟩ [123] 1 (by decide)).2.1⟩

/-- C5 (evaluation of the code): `prvValidateDefenderResponse` answers `true`
for the one byte payload `0x7B` (an opening brace), which is not a JSON document and carries no
report identifier. -/
theorem prvValidateDefenderResponse_accepts_malformed :
    prvValidateDefenderResponse [123] 1 = true := rfl

end Handlers

section ReportBuilder

/-- C9: `prvCollectDeviceMetrics` calls the collectors in the order
`xGetNetworkStats`, `xGetListeningTcpPorts`, `xGetListeningUdpPorts`,
`xGetEstablishedConnections`, each on the metrics map.  Once the key `met` is
written and the metrics map is open: when a collector returns an error, the
calls made are the collectors up to that one, no later collector is called,
the metrics map is not closed, and the function returns that collector's error
code; when all four succeed, the map is closed and the result of closing it is
returned.  When the key or the opening of the map fails, no collector is
called. -/
theorem prvCollectDeviceMetrics_order (env : CollectEnv) (pxEncoder : Encoder) :
    (env.encodeMet ≠ CborNoError →
      prvCollectDeviceMetrics env pxEncoder =
        { xError := env.encodeMet,
          trace := [Event.cbor_encode_text_stringz pxEncoder "met"] }) ∧
    (env.encodeMet = CborNoError → env.createMetricsMap ≠ CborNoError →
      prvCollectDeviceMetrics env pxEncoder =
        { xError := env.createMetricsMap,
          trace := [Event.cbor_encode_text_stringz pxEncoder "met",
            Event.cbor_encoder_create_map pxEncoder Encoder.xMetricsEncoder none] }) ∧
    (env.encodeMet = CborNoError → env.createMetricsMap = CborNoError →
      ((env.networkStats ≠ CborNoError →
        prvCollectDeviceMetrics env pxEncoder =
          { xError := env.networkStats,
            trace := [Event.cbor_encode_text_stringz pxEncoder "met",
              Event.cbor_encoder_create_map pxEncoder Encoder.xMetricsEncoder none,
              Event.collect Collector.xGetNetworkStats Encoder.xMetricsEncoder] }) ∧
      (env.networkStats = CborNoError → env.listeningTcpPorts ≠ CborNoError →
        prvCollectDeviceMetrics env pxEncoder =
          { xError := env.listeningTcpPorts,
            trace := [Event.cbor_encode_text_stringz pxEncoder "met",
              Event.cbor_encoder_create_map pxEncoder Encoder.xMetricsEncoder none,
              Event.collect Collector.xGetNetworkStats Encoder.xMetricsEncoder,
              Event.collect Collector.xGetListeningTcpPorts Encoder.xMetricsEncoder] }) ∧
      (env.networkStats = CborNoError → env.listeningTcpPorts = CborNoError →
        env.listeningUdpPorts ≠ CborNoError →
        prvCollectDeviceMetrics env pxEncoder =
          { xError := env.listeningUdpPorts,
            trace := [Event.cbor_encode_text_stringz pxEncoder "met",
              Event.cbor_encoder_create_map pxEncoder Encoder.xMetricsEncoder none,
              Event.collect Collector.xGetNetworkStats Encoder.xMetricsEncoder,
              Event.collect Collector.xGetListeningTcpPorts Encoder.xMetricsEncoder,
              Event.collect Collector.xGetListeningUdpPorts Encoder.xMetricsEncoder] }) ∧
      (env.networkStats = CborNoError → env.listeningTcpPorts = CborNoError →
        env.listeningUdpPorts = CborNoError → env.establishedConnections ≠ CborNoError →
        prvCollectDeviceMetrics env pxEncoder =
          { xError := env.establishedConnections,
            trace := [Event.cbor_encode_text_stringz pxEncoder "met",
              Event.cbor_encoder_create_map pxEncoder Encoder.xMetricsEncoder none,
              Event.collect Collector.xGetNetworkStats Encoder.xMetricsEncoder,
              Event.collect Collector.xGetListeningTcpPorts Encoder.xMetricsEncoder,
              Event.collect Collector.xGetListeningUdpPorts Encoder.xMetricsEncoder,
              Event.collect Collector.xGetEstablishedConnections Encoder.xMetricsEncoder] }) ∧
      (env.networkStats = CborNoError → env.listeningTcpPorts = CborNoError →
        env.listeningUdpPorts = CborNoError → env.establishedConnections = CborNoError →
        prvCollectDeviceMetrics env pxEncoder =
          { xError := env.closeMetricsMap,
            trace := [Event.cbor_encode_text_stringz pxEncoder "met",
              Event.cbor_encoder_create_map pxEncoder Encoder.xMetricsEncoder none,
              Event.collect Collector.xGetNetworkStats Encoder.xMetricsEncoder,
              Event.collect Collector.xGetListeningTcpPorts Encoder.xMetricsEncoder,
              Event.collect Collector.xGetListeningUdpPorts Encoder.xMetricsEncoder,
              Event.collect Collector.xGetEstablishedConnections Encoder.xMetricsEncoder,
              Event.cbor_encoder_close_container pxEncoder Encoder.xMetricsEncoder] }))) := by
  refine ⟨?_, ?_, ?_⟩
  · intro h
    simp [prvCollectDeviceMetrics, h]
  · intro h1 h2
    simp [prvCollectDeviceMetrics, h1, h2]
  · intro h1 h2
    refine ⟨?_, ?_, ?_, ?_, ?_⟩
    · intro a
      simp [prvCollectDeviceMetrics, h1, h2, a]
    · intro a b
      simp [prvCollectDeviceMetrics, h1, h2, a, b]
    · intro a b c
      simp [prvCollectDeviceMetrics, h1, h2, a, b, c]
    · intro a b c d
      simp [prvCollectDeviceMetrics, h1, h2, a, b, c, d]
    · intro a b c d
      simp [prvCollectDeviceMetrics, h1, h2, a, b, c, d]

/-- Witness of C9: the UDP collector fails with error `5`; the TCP collector
was called before it, the connections collector and the close are not, and `5`
is returned. -/
theorem prvCollectDeviceMetrics_order_witness :
    prvCollectDeviceMetrics ⟨0, 0, 0, 0, 5, 0, 0⟩ Encoder.xMapEncoder =
      { xError := 5,
        trace := [Event.cbor_encode_text_stringz Encoder.xMapEncoder "met",
          Event.cbor_encoder_create_map Encoder.xMapEncoder Encoder.xMetricsEncoder none,
          Event.collect Collector.xGetNetworkStats Encoder.xMetricsEncoder,
          Event.collect Collector.xGetListeningTcpPorts Encoder.xMetricsEncoder,
          Event.collect Collector.xGetListeningUdpPorts Encoder.xMetricsEncoder] } :=
  ((prvCollectDeviceMetrics_order ⟨0, 0, 0, 0, 5, 0, 0⟩ Encoder.xMapEncoder).2.2 rfl rfl).2.2.1
    rfl rfl (by decide)

end ReportBuilder

section Cycle

/-- C6: in a cycle where the report is built, published and acknowledged, and
the report-response wait returns `pdFALSE`, the report status of the cycle is
`ReportStatusNotReceived` and `xWaitingForCallback` is false afterwards; the
calls of the cycle after the build are the publish, the acknowledgment wait,
the report-response wait and the sleep. -/
theorem cycle_response_timeout (P : Platform) (env : CycleEnv) (xCtx : DefenderAgentCtx_t)
    (xSuccess : Bool)
    (hb : (buildReport env).xError = CborNoError)
    (hp : env.publish.publishStatus = MQTTSuccess)
    (ha : env.publish.xNotifyResult = pdTRUE ∧ env.publish.ulNotifiedValue = MQTTSuccess)
    (hr : env.xResponseResult = pdFALSE) :
    (defenderCycle P env xCtx xSuccess).xReportStatus = ReportStatusNotReceived ∧
    (defenderCycle P env xCtx xSuccess).ctx.xWaitingForCallback = pdFALSE ∧
    (defenderCycle P env xCtx xSuccess).xSuccess = true ∧
    (defenderCycle P env xCtx xSuccess).trace =
      (buildReport env).trace ++
        [Event.cbor_encoder_get_buffer_size,
         Event.MQTTAgent_Publish (xCtx.ppcTopic.get IDX_PUBLISH)
           (xCtx.pxTopicLen.get IDX_PUBLISH) env.xLen,
         Event.xTaskNotifyWait WaitSite.publishAck RESPONSE_TIMEOUT_MS,
         Event.xTaskNotifyWait WaitSite.reportResponse (pdMS_TO_TICKS P RESPONSE_TIMEOUT_MS),
         Event.vTaskDelay (pdMS_TO_TICKS P MS_BETWEEN_REPORTS)] := by
  simp [defenderCycle, prvPublishDeviceMetricsReport, hb, hp, ha.2, hr, pdTRUE, pdFALSE,
    CycleResult.trace, stamp, Function.comp_def]

/-- Witness of C6: the cycle `envTimeout`. -/
theorem cycle_response_timeout_witness :
    (defenderCycle samplePlatform envTimeout sampleCtx false).xReportStatus =
      ReportStatusNotReceived ∧
    (defenderCycle samplePlatform envTimeout sampleCtx false).ctx.xWaitingForCallback =
      pdFALSE :=
  ⟨(cycle_response_timeout samplePlatform envTimeout sampleCtx false (by decide) rfl
      ⟨rfl, rfl⟩ rfl).1,
   (cycle_response_timeout samplePlatform envTimeout sampleCtx false (by decide) rfl
      ⟨rfl, rfl⟩ rfl).2.1⟩

/-- C7 as stated fails: in the cycle `envPublishFails` the report is built and
`MQTTAgent_Publish` does not return `MQTTSuccess`, yet the report-response wait
is performed, and as it returns `pdTRUE` with value `1` the report status of
the cycle is `ReportStatusAccepted`, not `ReportStatusNotReceived`. -/
theorem publish_failure_counterexample :
    (buildReport envPublishFails).xError = CborNoError ∧
    envPublishFails.publish.publishStatus ≠ MQTTSuccess ∧
    (prvPublishDeviceMetricsReport samplePlatform envPublishFails.publish sampleCtx
      envPublishFails.xLen).ret = false ∧
    ¬ ((defenderCycle samplePlatform envPublishFails sampleCtx false).xReportStatus =
          ReportStatusNotReceived ∧
        (defenderCycle samplePlatform envPublishFails sampleCtx false).ctx.xWaitingForCallback =
          pdFALSE ∧
        Event.xTaskNotifyWait WaitSite.reportResponse
            (pdMS_TO_TICKS samplePlatform RESPONSE_TIMEOUT_MS) ∉
          (defenderCycle samplePlatform envPublishFails sampleCtx false).trace) ∧
    (defenderCycle samplePlatform envPublishFails sampleCtx false).xReportStatus =
      ReportStatusAccepted ∧
    Event.xTaskNotifyWait WaitSite.reportResponse
        (pdMS_TO_TICKS samplePlatform RESPONSE_TIMEOUT_MS) ∈
      (defenderCycle samplePlatform envPublishFails sampleCtx false).trace := by
  decide

/-- C7 as the code has it: in every cycle where the report is built and
publishing fails (`MQTTAgent_Publish` does not return `MQTTSuccess`, or the
publish acknowledgment is not received with success), `xWaitingForCallback` is
cleared at the end of the cycle, and the report-response wait is still
performed, once, after the publish (and after the acknowledgment wait when
there is one); the report status of the cycle is `ReportStatusNotReceived` when
that wait returns `pdFALSE`. -/
theorem publish_failure_cycle (P : Platform) (env : CycleEnv) (xCtx : DefenderAgentCtx_t)
    (xSuccess : Bool)
    (hb : (buildReport env).xError = CborNoError)
    (_hf : env.publish.publishStatus ≠ MQTTSuccess ∨
      ¬ (env.publish.xNotifyResult = pdTRUE ∧ env.publish.ulNotifiedValue = MQTTSuccess)) :
    (defenderCycle P env xCtx xSuccess).ctx.xWaitingForCallback = pdFALSE ∧
    (defenderCycle P env xCtx xSuccess).trace =
      (buildReport env).trace ++
        [Event.cbor_encoder_get_buffer_size,
         Event.MQTTAgent_Publish (xCtx.ppcTopic.get IDX_PUBLISH)
           (xCtx.pxTopicLen.get IDX_PUBLISH) env.xLen] ++
        (if env.publish.publishStatus = MQTTSuccess then
          [Event.xTaskNotifyWait WaitSite.publishAck RESPONSE_TIMEOUT_MS] else []) ++
        [Event.xTaskNotifyWait WaitSite.reportResponse (pdMS_TO_TICKS P RESPONSE_TIMEOUT_MS),
         Event.vTaskDelay (pdMS_TO_TICKS P MS_BETWEEN_REPORTS)] ∧
    (env.xResponseResult = pdFALSE →
      (defenderCycle P env xCtx xSuccess).xReportStatus = ReportStatusNotReceived) := by
  refine ⟨?_, ?_, ?_⟩
  · simp [defenderCycle, prvPublishDeviceMetricsReport, hb]
  · by_cases hp : env.publish.publishStatus = MQTTSuccess <;>
    simp [defenderCycle, prvPublishDeviceMetricsReport, hb, hp, CycleResult.trace, stamp,
      Function.comp_def]
  · intro hr
    simp [defenderCycle, hr, pdTRUE, pdFALSE]

/-- Witness of the amended C7: the cycle `envPublishRefused`, in which the
publish is refused and the report-response wait then times out. -/
theorem publish_failure_cycle_witness :
    (defenderCycle samplePlatform envPublishRefused sampleCtx false).ctx.xWaitingForCallback =
      pdFALSE ∧
    Event.xTaskNotifyWait WaitSite.reportResponse
        (pdMS_TO_TICKS samplePlatform RESPONSE_TIMEOUT_MS) ∈
      (defenderCycle samplePlatform envPublishRefused sampleCtx false).trace ∧
    (defenderCycle samplePlatform envPublishRefused sampleCtx false).xReportStatus =
      ReportStatusNotReceived :=
  ⟨(publish_failure_cycle samplePlatform envPublishRefused sampleCtx false (by decide)
      (Or.inl (by decide))).1,
   by decide,
   (publish_failure_cycle samplePlatform envPublishRefused sampleCtx false (by decide)
      (Or.inl (by decide))).2.2 rfl⟩

/-- C8 (evaluation of the code): in the cycle `envKeyVFails` the encoding of the
header key `v` returns an error and every other step succeeds; the error is
overwritten by the result of encoding the version text, the build ends with
`CborNoError`, and `MQTTAgent_Publish` is invoked. -/
theorem key_v_error_is_published :
    envKeyVFails.encodeV ≠ CborNoError ∧
    (buildReport envKeyVFails).xError = CborNoError ∧
    Event.MQTTAgent_Publish 200 42 60 ∈
      (defenderCycle samplePlatform envKeyVFails sampleCtx false).trace := by
  decide

theorem lor_eq_zero_iff (a b : Nat) : a ||| b = 0 ↔ a = 0 ∧ b = 0 := by
  constructor
  · intro h
    have hb : ∀ i, (a.testBit i || b.testBit i) = false := by
      intro i
      rw [← Nat.testBit_or, h]
      simp
    constructor <;> apply Nat.eq_of_testBit_eq <;> intro i <;> have hi := hb i <;> simp_all
  · rintro ⟨rfl, rfl⟩
    simp

/-- The build of the report ends with `CborNoError` exactly when every encoder
and collector call other than the encoding of the header key `v` returns
`CborNoError`. -/
theorem buildReport_ok_iff (env : CycleEnv) :
    (buildReport env).xError = CborNoError ↔
      AllSucceed { env with encodeV := CborNoError } := by
  obtain ⟨t, a1, a2, a3, a4, a5, a6, a7, a8, ⟨m1, m2, m3, m4, m5, m6, m7⟩, a9, l, pe, rr, rv⟩ := env
  by_cases ha1 : a1 = 0
  swap
  · simp [buildReport, prvCollectDeviceMetrics, AllSucceed, CborNoError, lor_eq_zero_iff,
      ha1]
  by_cases ha2 : a2 = 0
  swap
  · simp [buildReport, prvCollectDeviceMetrics, AllSucceed, CborNoError, lor_eq_zero_iff,
      ha1, ha2]
  by_cases ha3 : a3 = 0
  swap
  · simp [buildReport, prvCollectDeviceMetrics, AllSucceed, CborNoError, lor_eq_zero_iff,
      ha1, ha2, ha3]
  by_cases ha4 : a4 = 0
  swap
  · simp [buildReport, prvCollectDeviceMetrics, AllSucceed, CborNoError, lor_eq_zero_iff,
      ha1, ha2, ha3, ha4]
  by_cases ha5 : a5 = 0
  swap
  · simp [buildReport, prvCollectDeviceMetrics, AllSucceed, CborNoError, lor_eq_zero_iff,
      ha1, ha2, ha3, ha4, ha5]
  by_cases ha7 : a7 = 0
  swap
  · simp [buildReport, prvCollectDeviceMetrics, AllSucceed, CborNoError, lor_eq_zero_iff,
      ha1, ha2, ha3, ha4, ha5, ha7]
  by_cases ha8 : a8 = 0
  swap
  · simp [buildReport, prvCollectDeviceMetrics, AllSucceed, CborNoError, lor_eq_zero_iff,
      ha1, ha2, ha3, ha4, ha5, ha7, ha8]
  by_cases hm1 : m1 = 0
  swap
  · simp [buildReport, prvCollectDeviceMetrics, AllSucceed, CborNoError, lor_eq_zero_iff,
      ha1, ha2, ha3, ha4, ha5, ha7, ha8, hm1]
  by_cases hm2 : m2 = 0
  swap
  · simp [buildReport, prvCollectDeviceMetrics, AllSucceed, CborNoError, lor_eq_zero_iff,
      ha1, ha2, ha3, ha4, ha5, ha7, ha8, hm1, hm2]
  by_cases hm3 : m3 = 0
  swap
  · simp [buildReport, prvCollectDeviceMetrics, AllSucceed, CborNoError, lor_eq_zero_iff,
      ha1, ha2, ha3, ha4, ha5, ha7, ha8, hm1, hm2, hm3]
  by_cases hm4 : m4 = 0
  swap
  · simp [buildReport, prvCollectDeviceMetrics, AllSucceed, CborNoError, lor_eq_zero_iff,
      ha1, ha2, ha3, ha4, ha5, ha7, ha8, hm1, hm2, hm3, hm4]
  by_cases hm5 : m5 = 0
  swap
  · simp [buildReport, prvCollectDeviceMetrics, AllSucceed, CborNoError, lor_eq_zero_iff,
      ha1, ha2, ha3, ha4, ha5, ha7, ha8, hm1, hm2, hm3, hm4, hm5]
  by_cases hm6 : m6 = 0
  swap
  · simp [buildReport, prvCollectDeviceMetrics, AllSucceed, CborNoError, lor_eq_zero_iff,
      ha1, ha2, ha3, ha4, ha5, ha7, ha8, hm1, hm2, hm3, hm4, hm5, hm6]
  by_cases hm7 : m7 = 0
  swap
  · simp [buildReport, prvCollectDeviceMetrics, AllSucceed, CborNoError, lor_eq_zero_iff,
      ha1, ha2, ha3, ha4, ha5, ha7, ha8, hm1, hm2, hm3, hm4, hm5, hm6, hm7]
  by_cases ha9 : a9 = 0
  swap
  · simp [buildReport, prvCollectDeviceMetrics, AllSucceed, CborNoError, lor_eq_zero_iff,
      ha1, ha2, ha3, ha4, ha5, ha7, ha8, hm1, hm2, hm3, hm4, hm5, hm6, hm7, ha9]
  simp [buildReport, prvCollectDeviceMetrics, AllSucceed, CborNoError, lor_eq_zero_iff,
    ha1, ha2, ha3, ha4, ha5, ha7, ha8, hm1, hm2, hm3, hm4, hm5, hm6, hm7, ha9]

/-- C10: in a cycle where every encoder and collector call succeeds, the build
ends with `CborNoError` and the structured-writer operations, after the
initialisation of the encoder over the report buffer, are exactly: open the
top-level map; key `hed`; open the header map declared with 2 entries; key
`rid`, unsigned value the report identifier (the tick count truncated to 32
bits); key `v`, text `1.0`; close the header map; key `met`; open the metrics
map; the four collectors; close the metrics map; close the top-level map.
Hence the keys written into the top-level map are `hed` and `met`, the texts
written into the header are `rid`, `v` and `1.0`, every container is closed,
innermost first, and the cycle goes on with the publish of the report. -/
theorem buildReport_sequence (env : CycleEnv) (h : AllSucceed env) :
    (buildReport env).xError = CborNoError ∧
    (buildReport env).trace =
      [Event.cbor_encoder_init REPORT_BUFFER_SIZE,
       Event.cbor_encoder_create_map Encoder.xEncoder Encoder.xMapEncoder none,
       Event.cbor_encode_text_stringz Encoder.xMapEncoder "hed",
       Event.cbor_encoder_create_map Encoder.xMapEncoder Encoder.xHeaderEncoder (some 2),
       Event.cbor_encode_text_stringz Encoder.xHeaderEncoder "rid",
       Event.cbor_encode_uint Encoder.xHeaderEncoder (env.xTickCount % 2 ^ 32),
       Event.cbor_encode_text_stringz Encoder.xHeaderEncoder "v",
       Event.cbor_encode_text_stringz Encoder.xHeaderEncoder "1.0",
       Event.cbor_encoder_close_container Encoder.xMapEncoder Encoder.xHeaderEncoder,
       Event.cbor_encode_text_stringz Encoder.xMapEncoder "met",
       Event.cbor_encoder_create_map Encoder.xMapEncoder Encoder.xMetricsEncoder none,
       Event.collect Collector.xGetNetworkStats Encoder.xMetricsEncoder,
       Event.collect Collector.xGetListeningTcpPorts Encoder.xMetricsEncoder,
       Event.collect Collector.xGetListeningUdpPorts Encoder.xMetricsEncoder,
       Event.collect Collector.xGetEstablishedConnections Encoder.xMetricsEncoder,
       Event.cbor_encoder_close_container Encoder.xMapEncoder Encoder.xMetricsEncoder,
       Event.cbor_encoder_close_container Encoder.xEncoder Encoder.xMapEncoder] ∧
    textsOn Encoder.xMapEncoder (buildReport env).trace = ["hed", "met"] ∧
    textsOn Encoder.xHeaderEncoder (buildReport env).trace = ["rid", "v", "1.0"] ∧
    textsOn Encoder.xEncoder (buildReport env).trace = [] ∧
    openContainers (buildReport env).trace [] = some [] ∧
    (∀ (P : Platform) (xCtx : DefenderAgentCtx_t) (xSuccess : Bool),
      (defenderCycle P env xCtx xSuccess).trace =
        (buildReport env).trace ++ [Event.cbor_encoder_get_buffer_size] ++
          (prvPublishDeviceMetricsReport P env.publish xCtx env.xLen).trace ++
          [Event.xTaskNotifyWait WaitSite.reportResponse (pdMS_TO_TICKS P RESPONSE_TIMEOUT_MS),
           Event.vTaskDelay (pdMS_TO_TICKS P MS_BETWEEN_REPORTS)]) := by
  obtain ⟨h1, h2, h3, h4, h5, h6, h7, h8, n1, n2, n3, n4, n5, n6, n7, h9⟩ := h
  have hx : (buildReport env).xError = CborNoError := by
    simp [buildReport, prvCollectDeviceMetrics, CborNoError, h1, h2, h3, h4, h5, h6, h7, h8,
      n1, n2, n3, n4, n5, n6, n7, h9] at *
  refine ⟨hx, ?_⟩
  have ht : (buildReport env).trace =
      [Event.cbor_encoder_init REPORT_BUFFER_SIZE,
       Event.cbor_encoder_create_map Encoder.xEncoder Encoder.xMapEncoder none,
       Event.cbor_encode_text_stringz Encoder.xMapEncoder "hed",
       Event.cbor_encoder_create_map Encoder.xMapEncoder Encoder.xHeaderEncoder (some 2),
       Event.cbor_encode_text_stringz Encoder.xHeaderEncoder "rid",
       Event.cbor_encode_uint Encoder.xHeaderEncoder (env.xTickCount % 2 ^ 32),
       Event.cbor_encode_text_stringz Encoder.xHeaderEncoder "v",
       Event.cbor_encode_text_stringz Encoder.xHeaderEncoder "1.0",
       Event.cbor_encoder_close_container Encoder.xMapEncoder Encoder.xHeaderEncoder,
       Event.cbor_encode_text_stringz Encoder.xMapEncoder "met",
       Event.cbor_encoder_create_map Encoder.xMapEncoder Encoder.xMetricsEncoder none,
       Event.collect Collector.xGetNetworkStats Encoder.xMetricsEncoder,
       Event.collect Collector.xGetListeningTcpPorts Encoder.xMetricsEncoder,
       Event.collect Collector.xGetListeningUdpPorts Encoder.xMetricsEncoder,
       Event.collect Collector.xGetEstablishedConnections Encoder.xMetricsEncoder,
       Event.cbor_encoder_close_container Encoder.xMapEncoder Encoder.xMetricsEncoder,
       Event.cbor_encoder_close_container Encoder.xEncoder Encoder.xMapEncoder] := by
    simp [buildReport, prvCollectDeviceMetrics, CborNoError, h1, h2, h3, h4, h5, h6, h7, h8,
      n1, n2, n3, n4, n5, n6, n7, h9] at *
  refine ⟨ht, ?_, ?_, ?_, ?_, ?_⟩
  · rw [ht]
    simp [textsOn]
  · rw [ht]
    simp [textsOn]
  · rw [ht]
    simp [textsOn]
  · rw [ht]
    simp [openContainers]
  · intro P xCtx xSuccess
    simp [defenderCycle, hx, CycleResult.trace, PublishResult.trace, stamp,
      Function.comp_def]

/-- Witness of C10: the cycle `envTimeout`, at tick 5000. -/
theorem buildReport_sequence_witness :
    AllSucceed envTimeout ∧
    textsOn Encoder.xMapEncoder (buildReport envTimeout).trace = ["hed", "met"] ∧
    textsOn Encoder.xHeaderEncoder (buildReport envTimeout).trace = ["rid", "v", "1.0"] ∧
    openContainers (buildReport envTimeout).trace [] = some [] :=
  ⟨by decide, (buildReport_sequence envTimeout (by decide)).2.2.1,
    (buildReport_sequence envTimeout (by decide)).2.2.2.1,
    (buildReport_sequence envTimeout (by decide)).2.2.2.2.2.1⟩

end Cycle

section Teardown

/-- C13 (evaluation of the code): for the context `sampleCtx`, whose identity
buffer is at 100 and whose publish, accepted and rejected topic buffers are at
200, 201 and 202, `prvClearCtx` frees 100, 200 and 201 and zeroes the context;
the rejected topic buffer 202 is not freed. -/
theorem prvClearCtx_leaks_rejected_topic :
    sampleCtx.ppcTopic.get IDX_REJECTED = 202 ∧
    (prvClearCtx sampleCtx).trace =
      [Event.vPortFree 100, Event.vPortFree 200, Event.vPortFree 201] ∧
    202 ∉ freed (prvClearCtx sampleCtx).trace ∧
    (prvClearCtx sampleCtx).ctx = zeroCtx := by
  decide

/-- C14: clearing is idempotent.  For every context, a second `prvClearCtx`
right after the first makes no call, so frees no buffer, and leaves the
context as the first call left it. -/
theorem prvClearCtx_idempotent (pxCtx : DefenderAgentCtx_t) :
    (prvClearCtx (prvClearCtx pxCtx).ctx).trace = [] ∧
    freed (prvClearCtx (prvClearCtx pxCtx).ctx).trace = [] ∧
    (prvClearCtx (prvClearCtx pxCtx).ctx).ctx = (prvClearCtx pxCtx).ctx := by
  have h1 : (prvClearCtx pxCtx).ctx = zeroCtx := rfl
  have h2 : prvClearCtx zeroCtx = { ctx := zeroCtx, trace := [] } := by decide
  rw [h1, h2]
  exact ⟨rfl, rfl, rfl⟩

/-- C18: `prvSubscribeToDefenderTopics` returns `true` exactly when the
subscription to the accepted topic and then the one to the rejected topic both
succeed; when the first fails its calls are the only ones, so the rejected
subscription is not attempted.  `prvUnsubscribeFromDefenderTopics` makes the
calls of the accepted unsubscription followed by those of the rejected one,
whatever the first returned, and leaves the context as it was; and the rest of
the teardown (the clearing of the context and `vTaskDelete`) is the same
whatever the unsubscriptions returned. -/
theorem defender_topics_pairs (P : Platform) (env : PairEnv) (pxCtx : DefenderAgentCtx_t) :
    ((prvSubscribeToDefenderTopics P env pxCtx).ret = true ↔
      ((prvSubscribeToTopic P env.accepted (pxCtx.ppcTopic.get IDX_ACCEPTED)
          (pxCtx.pxTopicLen.get IDX_ACCEPTED) Handler.prvReportAcceptedCallback).ret = true ∧
        (prvSubscribeToTopic P env.rejected (pxCtx.ppcTopic.get IDX_REJECTED)
          (pxCtx.pxTopicLen.get IDX_REJECTED) Handler.prvReportRejectedCallback).ret = true)) ∧
    ((prvSubscribeToTopic P env.accepted (pxCtx.ppcTopic.get IDX_ACCEPTED)
          (pxCtx.pxTopicLen.get IDX_ACCEPTED) Handler.prvReportAcceptedCallback).ret = false →
      (prvSubscribeToDefenderTopics P env pxCtx).trace =
        (prvSubscribeToTopic P env.accepted (pxCtx.ppcTopic.get IDX_ACCEPTED)
          (pxCtx.pxTopicLen.get IDX_ACCEPTED) Handler.prvReportAcceptedCallback).trace) ∧
    ((prvSubscribeToTopic P env.accepted (pxCtx.ppcTopic.get IDX_ACCEPTED)
          (pxCtx.pxTopicLen.get IDX_ACCEPTED) Handler.prvReportAcceptedCallback).ret = true →
      (prvSubscribeToDefenderTopics P env pxCtx).trace =
        (prvSubscribeToTopic P env.accepted (pxCtx.ppcTopic.get IDX_ACCEPTED)
          (pxCtx.pxTopicLen.get IDX_ACCEPTED) Handler.prvReportAcceptedCallback).trace ++
        (prvSubscribeToTopic P env.rejected (pxCtx.ppcTopic.get IDX_REJECTED)
          (pxCtx.pxTopicLen.get IDX_REJECTED) Handler.prvReportRejectedCallback).trace) ∧
    (prvUnsubscribeFromDefenderTopics P env pxCtx).trace =
      (prvUnsubscribeFromTopic P env.accepted (pxCtx.ppcTopic.get IDX_ACCEPTED)
        (pxCtx.pxTopicLen.get IDX_ACCEPTED) Handler.prvReportAcceptedCallback).trace ++
      (prvUnsubscribeFromTopic P env.rejected (pxCtx.ppcTopic.get IDX_REJECTED)
        (pxCtx.pxTopicLen.get IDX_REJECTED) Handler.prvReportRejectedCallback).trace ∧
    (prvUnsubscribeFromDefenderTopics P env pxCtx).ctx = pxCtx ∧
    (∀ s : LoopState,
      (agentTeardown P env s).xCtx = (prvClearCtx s.xCtx).ctx ∧
      (agentTeardown P env s).stamped.map Prod.fst =
        s.stamped.map Prod.fst ++ (prvUnsubscribeFromDefenderTopics P env s.xCtx).trace ++
          (prvClearCtx s.xCtx).trace ++ [Event.vTaskDelete]) := by
  refine ⟨?_, ?_, ?_, rfl, rfl, ?_⟩
  · cases h1 : (prvSubscribeToTopic P env.accepted (pxCtx.ppcTopic.get IDX_ACCEPTED)
        (pxCtx.pxTopicLen.get IDX_ACCEPTED) Handler.prvReportAcceptedCallback).ret <;>
    simp [prvSubscribeToDefenderTopics, h1]
  · intro h1
    simp [prvSubscribeToDefenderTopics, h1]
  · intro h1
    simp [prvSubscribeToDefenderTopics, h1]
  · intro s
    simp [agentTeardown, prvUnsubscribeFromDefenderTopics, stamp, Function.comp_def]

/-- Witness of C18: the accepted subscription is refused by the MQTT agent; the
only call is its `MQTTAgent_Subscribe`, and `false` is returned. -/
theorem defender_topics_pairs_witness :
    (prvSubscribeToDefenderTopics samplePlatform ⟨envHandshakeRefused, envHandshakeOk⟩
      sampleCtx).ret = false ∧
    (prvSubscribeToDefenderTopics samplePlatform ⟨envHandshakeRefused, envHandshakeOk⟩
      sampleCtx).trace = [Event.MQTTAgent_Subscribe 201 51] :=
  ⟨by decide,
   (defender_topics_pairs samplePlatform ⟨envHandshakeRefused, envHandshakeOk⟩
      sampleCtx).2.1 (by decide)⟩

end Teardown

section Defects

/-- C15 (evaluation of the code): the report built at tick 5000 and the report
built at tick 5000 of a later run, after a reset of the device, both carry the
report identifier 5000. -/
theorem report_id_repeats_after_reset :
    envTimeout ≠ envAfterReset ∧
    Event.cbor_encode_uint Encoder.xHeaderEncoder 5000 ∈ (buildReport envTimeout).trace ∧
    Event.cbor_encode_uint Encoder.xHeaderEncoder 5000 ∈ (buildReport envAfterReset).trace := by
  decide

/-- C19 (evaluation of the code): with a 100 Hz tick the acknowledgment waits of
subscribe, unsubscribe and publish are passed 30000 ticks, which is 300000 ms,
while the report-response wait is passed 3000 ticks, which is 30000 ms. -/
theorem waits_differ_at_100_hz :
    Event.xTaskNotifyWait WaitSite.subscribeAck 30000 ∈
      (prvSubscribeToTopic slowTickPlatform envHandshakeOk 201 51
        Handler.prvReportAcceptedCallback).trace ∧
    Event.xTaskNotifyWait WaitSite.unsubscribeAck 30000 ∈
      (prvUnsubscribeFromTopic slowTickPlatform envHandshakeOk 201 51
        Handler.prvReportAcceptedCallback).trace ∧
    Event.xTaskNotifyWait WaitSite.publishAck 30000 ∈
      (defenderCycle slowTickPlatform envTimeout sampleCtx false).trace ∧
    Event.xTaskNotifyWait WaitSite.reportResponse 3000 ∈
      (defenderCycle slowTickPlatform envTimeout sampleCtx false).trace ∧
    pdMS_TO_TICKS slowTickPlatform RESPONSE_TIMEOUT_MS = 3000 ∧
    pdMS_TO_TICKS slowTickPlatform 300000 = 30000 := by
  decide

/-- C20 (evaluation of the code): `MQTTAgent_Publish` returns `MQTTSuccess` and
the acknowledgment wait times out (returns `pdFALSE`), leaving `0` in the
status word; `prvPublishDeviceMetricsReport` returns `true`. -/
theorem publish_ack_timeout_returns_true :
    envAckTimeout.xNotifyResult = pdFALSE ∧
    (prvPublishDeviceMetricsReport samplePlatform envAckTimeout sampleCtx 60).ret = true ∧
    (prvPublishDeviceMetricsReport samplePlatform envAckTimeout sampleCtx 60).trace =
      [Event.MQTTAgent_Publish 200 42 60,
       Event.xTaskNotifyWait WaitSite.publishAck RESPONSE_TIMEOUT_MS] := by
  decide

end Defects

section Kinds

theorem kind_topicLoopBody (P : Platform) (env : TopicEnv) (i : Nat) (s : TopicState)
    (h : ∀ e ∈ s.trace, e.kind = Kind.heap) :
    ∀ e ∈ (topicLoopBody P env i s).trace, e.kind = Kind.heap := by
  rw [topicLoopBody_eq]
  split_ifs <;> simp only [List.mem_append, List.mem_cons, List.mem_singleton,
    List.not_mem_nil, or_false] <;> rintro e (he | he)
  all_goals first
    | exact h e he
    | (rcases he with rfl | rfl <;> rfl)

theorem kind_topicLoop (P : Platform) (env : TopicEnv) :
    ∀ (n i : Nat) (s : TopicState), (∀ e ∈ s.trace, e.kind = Kind.heap) →
      ∀ e ∈ (topicLoop P env n i s).trace, e.kind = Kind.heap := by
  intro n
  induction n with
  | zero => intro i s h; exact h
  | succ n ih =>
    intro i s h
    rw [topicLoop_succ]
    split_ifs
    · exact kind_topicLoopBody P env i s h
    · exact ih (i + 1) _ (kind_topicLoopBody P env i s h)

theorem kind_prvBuildDefenderTopicStrings (P : Platform) (env : TopicEnv)
    (pxCtx : DefenderAgentCtx_t) :
    ∀ e ∈ (prvBuildDefenderTopicStrings P env pxCtx).trace, e.kind = Kind.heap := by
  unfold prvBuildDefenderTopicStrings
  simp only [IDX_PUBLISH]
  have hl := kind_topicLoop P env 3 0
    { ctx := { pxCtx with
        pxTopicLen := ((pxCtx.pxTopicLen.set 0
          (P.DEFENDER_API_LENGTH_CBOR_PUBLISH pxCtx.xDeviceIdLen)).set 1
          (P.DEFENDER_API_LENGTH_CBOR_ACCEPTED pxCtx.xDeviceIdLen)).set 2
          (P.DEFENDER_API_LENGTH_CBOR_ACCEPTED pxCtx.xDeviceIdLen) },
      xRslt := DefenderSuccess, trace := [] } (by simp)
  generalize topicLoop P env 3 0 _ = s1 at hl ⊢
  split_ifs
  · obtain ⟨_, _, _, c4⟩ := topicCleanup_spec s1
    rw [c4]
    intro e he
    rcases List.mem_append.mp he with he | he
    · exact hl e he
    · obtain ⟨p, _, rfl⟩ := List.mem_map.mp he
      rfl
  · exact hl

theorem kind_prvSubscribeToTopic (P : Platform) (env : HandshakeEnv) (pcTopic : Ptr)
    (xTopicLen : Nat) (pxCallback : Handler) :
    ∀ e ∈ (prvSubscribeToTopic P env pcTopic xTopicLen pxCallback).trace,
      e.kind = Kind.subscribe := by
  unfold prvSubscribeToTopic
  by_cases ht : xTopicLen > 0 ∧ pcTopic ≠ NULL <;>
  by_cases hs : env.agentStatus = MQTTSuccess <;>
  by_cases hn : env.xNotifyResult = 1 <;>
  by_cases hv : env.ulNotifiedValue = MQTTSuccess <;>
  simp [ht, hs, hn, hv, pdTRUE, pdFALSE, Event.kind]

theorem kind_prvUnsubscribeFromTopic (P : Platform) (env : HandshakeEnv) (pcTopic : Ptr)
    (xTopicLen : Nat) (pxCallback : Handler) :
    ∀ e ∈ (prvUnsubscribeFromTopic P env pcTopic xTopicLen pxCallback).trace,
      e.kind = Kind.unsubscribe := by
  unfold prvUnsubscribeFromTopic
  by_cases ht : xTopicLen > 0 ∧ pcTopic ≠ NULL <;>
  by_cases hs : env.agentStatus = MQTTSuccess <;>
  by_cases hn : env.xNotifyResult = 1 <;>
  by_cases hv : env.ulNotifiedValue = MQTTSuccess <;>
  simp [ht, hs, hn, hv, pdTRUE, pdFALSE, Event.kind]

theorem kind_prvSubscribeToDefenderTopics (P : Platform) (env : PairEnv)
    (pxCtx : DefenderAgentCtx_t) :
    ∀ e ∈ (prvSubscribeToDefenderTopics P env pxCtx).trace, e.kind = Kind.subscribe := by
  unfold prvSubscribeToDefenderTopics
  intro e he
  simp only [] at he
  split_ifs at he <;> simp only [List.mem_append] at he
  · rcases he with he | he <;> exact kind_prvSubscribeToTopic _ _ _ _ _ e he
  · exact kind_prvSubscribeToTopic _ _ _ _ _ e he

theorem kind_prvUnsubscribeFromDefenderTopics (P : Platform) (env : PairEnv)
    (pxCtx : DefenderAgentCtx_t) :
    ∀ e ∈ (prvUnsubscribeFromDefenderTopics P env pxCtx).trace,
      e.kind = Kind.unsubscribe := by
  unfold prvUnsubscribeFromDefenderTopics
  intro e he
  rcases List.mem_append.mp he with he | he <;>
  exact kind_prvUnsubscribeFromTopic _ _ _ _ _ e he

theorem kind_prvClearCtx (pxCtx : DefenderAgentCtx_t) :
    ∀ e ∈ (prvClearCtx pxCtx).trace, e.kind = Kind.heap := by
  obtain ⟨task, idLen, lens, id, ⟨t0, t1, t2⟩, w⟩ := pxCtx
  by_cases h : id = 0 <;> by_cases k0 : t0 = 0 <;> by_cases k1 : t1 = 0 <;>
  simp [prvClearCtx, clearLoop, clearLoopBody, NUM_TOPIC_STRINGS, IDX_PUBLISH, IDX_REJECTED,
    Arr3.get, NULL, h, k0, k1, Event.kind]

theorem kind_prvPublishDeviceMetricsReport (P : Platform) (env : PublishEnv)
    (pxCtx : DefenderAgentCtx_t) (ulReportLength : Nat) :
    ∀ e ∈ (prvPublishDeviceMetricsReport P env pxCtx ulReportLength).trace,
      e.kind = Kind.publish := by
  unfold prvPublishDeviceMetricsReport
  by_cases hs : env.publishStatus = MQTTSuccess <;>
  simp [hs, Event.kind, PublishResult.trace, stamp]

theorem kind_buildReport (env : CycleEnv) :
    ∀ e ∈ (buildReport env).trace, e.kind = Kind.encoder := by
  obtain ⟨t, a1, a2, a3, a4, a5, a6, a7, a8, ⟨m1, m2, m3, m4, m5, m6, m7⟩, a9, l, pe, rr, rv⟩ := env
  by_cases ha1 : a1 = 0
  swap
  · simp [buildReport, prvCollectDeviceMetrics, CborNoError, lor_eq_zero_iff, Event.kind,
      ha1]
  by_cases ha2 : a2 = 0
  swap
  · simp [buildReport, prvCollectDeviceMetrics, CborNoError, lor_eq_zero_iff, Event.kind,
      ha1, ha2]
  by_cases ha3 : a3 = 0
  swap
  · simp [buildReport, prvCollectDeviceMetrics, CborNoError, lor_eq_zero_iff, Event.kind,
      ha1, ha2, ha3]
  by_cases ha4 : a4 = 0
  swap
  · simp [buildReport, prvCollectDeviceMetrics, CborNoError, lor_eq_zero_iff, Event.kind,
      ha1, ha2, ha3, ha4]
  by_cases ha5 : a5 = 0
  swap
  · simp [buildReport, prvCollectDeviceMetrics, CborNoError, lor_eq_zero_iff, Event.kind,
      ha1, ha2, ha3, ha4, ha5]
  by_cases ha7 : a7 = 0
  swap
  · simp [buildReport, prvCollectDeviceMetrics, CborNoError, lor_eq_zero_iff, Event.kind,
      ha1, ha2, ha3, ha4, ha5, ha7]
  by_cases ha8 : a8 = 0
  swap
  · simp [buildReport, prvCollectDeviceMetrics, CborNoError, lor_eq_zero_iff, Event.kind,
      ha1, ha2, ha3, ha4, ha5, ha7, ha8]
  by_cases hm1 : m1 = 0
  swap
  · simp [buildReport, prvCollectDeviceMetrics, CborNoError, lor_eq_zero_iff, Event.kind,
      ha1, ha2, ha3, ha4, ha5, ha7, ha8, hm1]
  by_cases hm2 : m2 = 0
  swap
  · simp [buildReport, prvCollectDeviceMetrics, CborNoError, lor_eq_zero_iff, Event.kind,
      ha1, ha2, ha3, ha4, ha5, ha7, ha8, hm1, hm2]
  by_cases hm3 : m3 = 0
  swap
  · simp [buildReport, prvCollectDeviceMetrics, CborNoError, lor_eq_zero_iff, Event.kind,
      ha1, ha2, ha3, ha4, ha5, ha7, ha8, hm1, hm2, hm3]
  by_cases hm4 : m4 = 0
  swap
  · simp [buildReport, prvCollectDeviceMetrics, CborNoError, lor_eq_zero_iff, Event.kind,
      ha1, ha2, ha3, ha4, ha5, ha7, ha8, hm1, hm2, hm3, hm4]
  by_cases hm5 : m5 = 0
  swap
  · simp [buildReport, prvCollectDeviceMetrics, CborNoError, lor_eq_zero_iff, Event.kind,
      ha1, ha2, ha3, ha4, ha5, ha7, ha8, hm1, hm2, hm3, hm4, hm5]
  by_cases hm6 : m6 = 0
  swap
  · simp [buildReport, prvCollectDeviceMetrics, CborNoError, lor_eq_zero_iff, Event.kind,
      ha1, ha2, ha3, ha4, ha5, ha7, ha8, hm1, hm2, hm3, hm4, hm5, hm6]
  by_cases hm7 : m7 = 0
  swap
  · simp [buildReport, prvCollectDeviceMetrics, CborNoError, lor_eq_zero_iff, Event.kind,
      ha1, ha2, ha3, ha4, ha5, ha7, ha8, hm1, hm2, hm3, hm4, hm5, hm6, hm7]
  by_cases ha9 : a9 = 0
  swap
  · simp [buildReport, prvCollectDeviceMetrics, CborNoError, lor_eq_zero_iff, Event.kind,
      ha1, ha2, ha3, ha4, ha5, ha7, ha8, hm1, hm2, hm3, hm4, hm5, hm6, hm7, ha9]
  simp [buildReport, prvCollectDeviceMetrics, CborNoError, lor_eq_zero_iff, Event.kind,
    ha1, ha2, ha3, ha4, ha5, ha7, ha8, hm1, hm2, hm3, hm4, hm5, hm6, hm7, ha9]

theorem defenderCycle_ctx (P : Platform) (env : CycleEnv) (xCtx : DefenderAgentCtx_t)
    (xSuccess : Bool) :
    (defenderCycle P env xCtx xSuccess).ctx = { xCtx with xWaitingForCallback := pdFALSE } := by
  unfold defenderCycle
  by_cases hb : (buildReport env).xError = CborNoError <;>
  simp [hb, prvPublishDeviceMetricsReport]

theorem defenderCycle_trace (P : Platform) (env : CycleEnv) (xCtx : DefenderAgentCtx_t)
    (xSuccess : Bool) :
    (defenderCycle P env xCtx xSuccess).trace =
      (buildReport env).trace ++
        ((if (buildReport env).xError = CborNoError then
            Event.cbor_encoder_get_buffer_size ::
              (prvPublishDeviceMetricsReport P env.publish xCtx env.xLen).trace
          else []) ++
        [Event.xTaskNotifyWait WaitSite.reportResponse (pdMS_TO_TICKS P RESPONSE_TIMEOUT_MS),
         Event.vTaskDelay (pdMS_TO_TICKS P MS_BETWEEN_REPORTS)]) := by
  unfold defenderCycle
  by_cases hb : (buildReport env).xError = CborNoError <;>
  simp [hb, CycleResult.trace, PublishResult.trace, stamp, Function.comp_def]

end Kinds

section Task

theorem frame_topicLoopBody (P : Platform) (env : TopicEnv) (i : Nat) (s : TopicState) :
    (topicLoopBody P env i s).ctx.xWaitingForCallback = s.ctx.xWaitingForCallback ∧
    (topicLoopBody P env i s).ctx.pcDeviceId = s.ctx.pcDeviceId := by
  rw [topicLoopBody_eq]
  split_ifs <;> exact ⟨rfl, rfl⟩

theorem frame_topicLoop (P : Platform) (env : TopicEnv) :
    ∀ (n i : Nat) (s : TopicState),
      (topicLoop P env n i s).ctx.xWaitingForCallback = s.ctx.xWaitingForCallback ∧
      (topicLoop P env n i s).ctx.pcDeviceId = s.ctx.pcDeviceId := by
  intro n
  induction n with
  | zero => intro i s; exact ⟨rfl, rfl⟩
  | succ n ih =>
    intro i s
    rw [topicLoop_succ]
    split_ifs
    · exact frame_topicLoopBody P env i s
    · obtain ⟨h1, h2⟩ := ih (i + 1) (topicLoopBody P env i s)
      obtain ⟨h3, h4⟩ := frame_topicLoopBody P env i s
      exact ⟨h1.trans h3, h2.trans h4⟩

theorem frame_topicCleanup :
    ∀ (n i : Nat) (s : TopicState),
      (topicCleanup n i s).ctx.xWaitingForCallback = s.ctx.xWaitingForCallback ∧
      (topicCleanup n i s).ctx.pcDeviceId = s.ctx.pcDeviceId := by
  intro n
  induction n with
  | zero => intro i s; exact ⟨rfl, rfl⟩
  | succ n ih =>
    intro i s
    have hb : (topicCleanupBody i s).ctx.xWaitingForCallback = s.ctx.xWaitingForCallback ∧
        (topicCleanupBody i s).ctx.pcDeviceId = s.ctx.pcDeviceId := by
      unfold topicCleanupBody
      simp only []
      split_ifs <;> exact ⟨rfl, rfl⟩
    obtain ⟨h1, h2⟩ := ih (i + 1) (topicCleanupBody i s)
    exact ⟨h1.trans hb.1, h2.trans hb.2⟩

/-- The topic builder leaves the flag and the identity pointer of the context
as they are. -/
theorem frame_prvBuildDefenderTopicStrings (P : Platform) (env : TopicEnv)
    (pxCtx : DefenderAgentCtx_t) :
    (prvBuildDefenderTopicStrings P env pxCtx).ctx.xWaitingForCallback =
      pxCtx.xWaitingForCallback ∧
    (prvBuildDefenderTopicStrings P env pxCtx).ctx.pcDeviceId = pxCtx.pcDeviceId := by
  unfold prvBuildDefenderTopicStrings
  simp only [IDX_PUBLISH]
  have hl := frame_topicLoop P env 3 0
    { ctx := { pxCtx with
        pxTopicLen := ((pxCtx.pxTopicLen.set 0
          (P.DEFENDER_API_LENGTH_CBOR_PUBLISH pxCtx.xDeviceIdLen)).set 1
          (P.DEFENDER_API_LENGTH_CBOR_ACCEPTED pxCtx.xDeviceIdLen)).set 2
          (P.DEFENDER_API_LENGTH_CBOR_ACCEPTED pxCtx.xDeviceIdLen) },
      xRslt := DefenderSuccess, trace := [] }
  generalize topicLoop P env 3 0 _ = s1 at hl ⊢
  split_ifs
  · obtain ⟨h1, h2⟩ := frame_topicCleanup 3 0 s1
    exact ⟨h1.trans hl.1, h2.trans hl.2⟩
  · exact hl

/-- A failed topic build leaves every topic pointer `NULL` and every topic
length `0`. -/
theorem prvBuildDefenderTopicStrings_failure (P : Platform) (env : TopicEnv)
    (pxCtx : DefenderAgentCtx_t)
    (h : (prvBuildDefenderTopicStrings P env pxCtx).ret = false) :
    (prvBuildDefenderTopicStrings P env pxCtx).ctx.ppcTopic = ⟨NULL, NULL, NULL⟩ ∧
    (prvBuildDefenderTopicStrings P env pxCtx).ctx.pxTopicLen = ⟨0, 0, 0⟩ := by
  unfold prvBuildDefenderTopicStrings at h ⊢
  simp only [IDX_PUBLISH] at h ⊢
  generalize topicLoop P env 3 0 _ = s1 at h ⊢
  obtain ⟨c1, c2, c3, _⟩ := topicCleanup_spec s1
  by_cases hx : s1.xRslt = DefenderSuccess
  · simp [hx] at h
  · simp only [hx, ne_eq, not_false_eq_true, if_true]
    exact ⟨c1, c2⟩

theorem agentLoop_exited (P : Platform) (steps : List LoopStep) (s : LoopState)
    (h : s.xExitFlag ≠ pdFALSE) : agentLoop P steps s = (s, true) := by
  cases steps with
  | nil => simp [agentLoop, h]
  | cons st rest => simp [agentLoop, h]

theorem iterate_append (P : Platform) (a b : List LoopStep) (s : LoopState) :
    iterate P (a ++ b) s = iterate P b (iterate P a s) := by
  simp [iterate, List.foldl_append]

/-- The loop runs the passes up to and including the first one during which
another task sets `xExitFlag`, and is then left. -/
theorem agentLoop_run (P : Platform) (st : LoopStep) (post : List LoopStep)
    (hst : st.exitRequested = true) :
    ∀ (pre : List LoopStep) (s : LoopState), s.xExitFlag = pdFALSE →
      (∀ x ∈ pre, x.exitRequested = false) →
      agentLoop P (pre ++ st :: post) s = (iterate P (pre ++ [st]) s, true) := by
  intro pre
  induction pre with
  | nil =>
    intro s hs _
    have hx : (loopIteration P st s).xExitFlag ≠ pdFALSE := by
      simp [loopIteration, hst, pdTRUE, pdFALSE]
    simp [agentLoop, hs, agentLoop_exited P post _ hx, iterate]
  | cons x pre ih =>
    intro s hs hpre
    have hx : x.exitRequested = false := hpre x (List.mem_cons_self _ _)
    have hs1 : (loopIteration P x s).xExitFlag = pdFALSE := by
      simp [loopIteration, hx, hs]
    have hrest : ∀ y ∈ pre, y.exitRequested = false :=
      fun y hy => hpre y (List.mem_cons_of_mem _ hy)
    have hstep : agentLoop P (x :: pre ++ st :: post) s =
        agentLoop P (pre ++ st :: post) (loopIteration P x s) := by
      show agentLoop P (x :: (pre ++ st :: post)) s = _
      simp only [agentLoop, hs, if_true]
    rw [hstep, ih _ hs1 hrest]
    simp [iterate]

theorem iterate_cycles (P : Platform) :
    ∀ (steps : List LoopStep) (s : LoopState),
      (iterate P steps s).cycles = s.cycles + steps.length := by
  intro steps
  induction steps with
  | nil => intro s; simp [iterate]
  | cons x rest ih =>
    intro s
    have h := ih (loopIteration P x s)
    simp only [iterate, List.foldl_cons, List.length_cons] at h ⊢
    rw [h]
    simp [loopIteration]
    omega

theorem stamp_append (w : Int) (a b : List Event) :
    stamp w (a ++ b) = stamp w a ++ stamp w b := by
  simp [stamp]

theorem stamp_erase (w : Int) (a : List Event) : (stamp w a).map Prod.fst = a := by
  simp [stamp, Function.comp_def]

/-- The state before the loop when the identity is missing. -/
theorem agentStartup_no_identity (P : Platform) (env : TaskEnv)
    (h : env.pcDeviceId = NULL ∨ env.xDeviceIdLen = 0) :
    agentStartup P env =
      { xCtx := identityCtx env, xSuccess := false, xExitFlag := pdTRUE, cycles := 0,
        stamped := stamp pdFALSE [Event.KVStore_getStringHeap, Event.xTaskGetCurrentTaskHandle,
          Event.xEventGroupWaitBits] } := by
  have hx : ¬ (env.pcDeviceId ≠ NULL ∧ env.xDeviceIdLen > 0) := by
    rcases h with h | h
    · simp [h]
    · simp [h]
  by_cases he : env.exitRequestedAtStartup = true <;>
  simp [agentStartup, hx, he, identityCtx, zeroCtx, stamp, pdFALSE, pdTRUE]

/-- The state before the loop when the identity is there and the topic build
fails. -/
theorem agentStartup_build_fails (P : Platform) (env : TaskEnv)
    (h1 : env.pcDeviceId ≠ NULL) (h2 : 0 < env.xDeviceIdLen)
    (hb : (prvBuildDefenderTopicStrings P env.topics (identityCtx env)).ret = false) :
    agentStartup P env =
      { xCtx := (prvBuildDefenderTopicStrings P env.topics (identityCtx env)).ctx,
        xSuccess := false, xExitFlag := pdTRUE, cycles := 0,
        stamped := stamp pdFALSE ([Event.KVStore_getStringHeap, Event.xTaskGetCurrentTaskHandle]
          ++ (prvBuildDefenderTopicStrings P env.topics (identityCtx env)).trace ++
          [Event.xEventGroupWaitBits]) } := by
  have hf : (prvBuildDefenderTopicStrings P env.topics
      (identityCtx env)).ctx.xWaitingForCallback = 0 :=
    (frame_prvBuildDefenderTopicStrings P env.topics (identityCtx env)).1
  have hx : env.pcDeviceId ≠ 0 ∧ env.xDeviceIdLen > 0 := ⟨h1, h2⟩
  have hi : DefenderAgentCtx_t.mk env.xAgentTask env.xDeviceIdLen ⟨0, 0, 0⟩ env.pcDeviceId
      ⟨0, 0, 0⟩ 0 = identityCtx env := rfl
  by_cases he : env.exitRequestedAtStartup = true <;>
  simp [agentStartup, hx, he, zeroCtx, NULL, pdFALSE, pdTRUE, hi, hb, hf, stamp]

/-- The state before the loop when the identity is there and the topics are
built. -/
theorem agentStartup_build_ok (P : Platform) (env : TaskEnv)
    (h1 : env.pcDeviceId ≠ NULL) (h2 : 0 < env.xDeviceIdLen)
    (hb : (prvBuildDefenderTopicStrings P env.topics (identityCtx env)).ret = true) :
    agentStartup P env =
      { xCtx := (prvBuildDefenderTopicStrings P env.topics (identityCtx env)).ctx,
        xSuccess := (prvSubscribeToDefenderTopics P env.subscribe
          (prvBuildDefenderTopicStrings P env.topics (identityCtx env)).ctx).ret,
        xExitFlag :=
          if env.exitRequestedAtStartup = true ∨
            (prvSubscribeToDefenderTopics P env.subscribe
              (prvBuildDefenderTopicStrings P env.topics (identityCtx env)).ctx).ret = false
          then pdTRUE else pdFALSE,
        cycles := 0,
        stamped := stamp pdFALSE ([Event.KVStore_getStringHeap, Event.xTaskGetCurrentTaskHandle]
          ++ (prvBuildDefenderTopicStrings P env.topics (identityCtx env)).trace ++
          [Event.xEventGroupWaitBits] ++
          (prvSubscribeToDefenderTopics P env.subscribe
            (prvBuildDefenderTopicStrings P env.topics (identityCtx env)).ctx).trace) } := by
  have hf : (prvBuildDefenderTopicStrings P env.topics
      (identityCtx env)).ctx.xWaitingForCallback = 0 :=
    (frame_prvBuildDefenderTopicStrings P env.topics (identityCtx env)).1
  have hx : env.pcDeviceId ≠ 0 ∧ env.xDeviceIdLen > 0 := ⟨h1, h2⟩
  have hi : DefenderAgentCtx_t.mk env.xAgentTask env.xDeviceIdLen ⟨0, 0, 0⟩ env.pcDeviceId
      ⟨0, 0, 0⟩ 0 = identityCtx env := rfl
  by_cases he : env.exitRequestedAtStartup = true <;>
  cases hs : (prvSubscribeToDefenderTopics P env.subscribe
      (prvBuildDefenderTopicStrings P env.topics (identityCtx env)).ctx).ret <;>
  simp [agentStartup, hx, he, zeroCtx, NULL, pdFALSE, pdTRUE, hi, hb, hf, hs, stamp]

theorem forall_mem_append {α : Type} {Q : α → Prop} {a b : List α}
    (ha : ∀ e ∈ a, Q e) (hb : ∀ e ∈ b, Q e) : ∀ e ∈ a ++ b, Q e := by
  intro e he
  rcases List.mem_append.mp he with h | h
  · exact ha e h
  · exact hb e h

theorem prvUnsubscribeFromDefenderTopics_null (P : Platform) (env : PairEnv)
    (pxCtx : DefenderAgentCtx_t) (h : pxCtx.ppcTopic = ⟨NULL, NULL, NULL⟩) :
    (prvUnsubscribeFromDefenderTopics P env pxCtx).trace = [] := by
  simp [prvUnsubscribeFromDefenderTopics, prvUnsubscribeFromTopic, h, Arr3.get, IDX_ACCEPTED,
    IDX_REJECTED]

/-- A task whose state before the loop has `xExitFlag` set goes straight to the
teardown. -/
theorem vDefenderAgentTask_of_exit (P : Platform) (env : TaskEnv)
    (h : (agentStartup P env).xExitFlag ≠ pdFALSE) :
    vDefenderAgentTask P env =
      { state := agentTeardown P env.unsubscribe (agentStartup P env), terminated := true } := by
  simp [vDefenderAgentTask, agentLoop_exited P env.steps _ h]

theorem agentTeardown_trace (P : Platform) (env : PairEnv) (s : LoopState) :
    (agentTeardown P env s).stamped.map Prod.fst =
      s.stamped.map Prod.fst ++ ((prvUnsubscribeFromDefenderTopics P env s.xCtx).trace ++
        ((prvClearCtx s.xCtx).trace ++ [Event.vTaskDelete])) := by
  simp [agentTeardown, prvUnsubscribeFromDefenderTopics, stamp, Function.comp_def]

/-- C11: a failed startup skips the reporting loop.  When the device identity is
missing (`NULL` or of length 0) the task ends having run the loop body zero
times, and its calls are the fetch of the identity and of the task handle,
the wait for the connection, the freeing of the identity buffer when there is
one, and `vTaskDelete`: neither the topic builder nor a subscribe is invoked.
When the topic build fails, the task ends having run the loop body zero
times, and its calls are those of the topic builder around the same startup
calls, followed by the clearing of the context and `vTaskDelete`: no
subscribe is invoked.  When the subscription fails, the task ends having run
the loop body zero times, and the calls after those of the failed subscription
are those of the unsubscribe attempt, of the clearing of the context, and
`vTaskDelete`.  In all three cases no call is an encoder call, a publish, a
report-response wait or a sleep. -/
theorem startup_failure_skips_loop (P : Platform) (env : TaskEnv) :
    ((env.pcDeviceId = NULL ∨ env.xDeviceIdLen = 0) →
      (vDefenderAgentTask P env).terminated = true ∧
      (vDefenderAgentTask P env).state.cycles = 0 ∧
      (vDefenderAgentTask P env).trace =
        [Event.KVStore_getStringHeap, Event.xTaskGetCurrentTaskHandle,
          Event.xEventGroupWaitBits] ++
        (if env.pcDeviceId ≠ NULL then [Event.vPortFree env.pcDeviceId] else []) ++
        [Event.vTaskDelete]) ∧
    (env.pcDeviceId ≠ NULL → 0 < env.xDeviceIdLen →
      (prvBuildDefenderTopicStrings P env.topics (identityCtx env)).ret = false →
      (vDefenderAgentTask P env).terminated = true ∧
      (vDefenderAgentTask P env).state.cycles = 0 ∧
      (vDefenderAgentTask P env).trace =
        [Event.KVStore_getStringHeap, Event.xTaskGetCurrentTaskHandle] ++
        (prvBuildDefenderTopicStrings P env.topics (identityCtx env)).trace ++
        [Event.xEventGroupWaitBits] ++
        (prvClearCtx (prvBuildDefenderTopicStrings P env.topics (identityCtx env)).ctx).trace ++
        [Event.vTaskDelete] ∧
      ∀ e ∈ (vDefenderAgentTask P env).trace, e.kind = Kind.task ∨ e.kind = Kind.heap) ∧
    (env.pcDeviceId ≠ NULL → 0 < env.xDeviceIdLen →
      (prvBuildDefenderTopicStrings P env.topics (identityCtx env)).ret = true →
      (prvSubscribeToDefenderTopics P env.subscribe
        (prvBuildDefenderTopicStrings P env.topics (identityCtx env)).ctx).ret = false →
      (vDefenderAgentTask P env).terminated = true ∧
      (vDefenderAgentTask P env).state.cycles = 0 ∧
      (vDefenderAgentTask P env).trace =
        [Event.KVStore_getStringHeap, Event.xTaskGetCurrentTaskHandle] ++
        (prvBuildDefenderTopicStrings P env.topics (identityCtx env)).trace ++
        [Event.xEventGroupWaitBits] ++
        (prvSubscribeToDefenderTopics P env.subscribe
          (prvBuildDefenderTopicStrings P env.topics (identityCtx env)).ctx).trace ++
        (prvUnsubscribeFromDefenderTopics P env.unsubscribe
          (prvBuildDefenderTopicStrings P env.topics (identityCtx env)).ctx).trace ++
        (prvClearCtx (prvBuildDefenderTopicStrings P env.topics (identityCtx env)).ctx).trace ++
        [Event.vTaskDelete] ∧
      ∀ e ∈ (vDefenderAgentTask P env).trace,
        e.kind = Kind.task ∨ e.kind = Kind.heap ∨ e.kind = Kind.subscribe ∨
          e.kind = Kind.unsubscribe) := by
  refine ⟨?_, ?_, ?_⟩
  · intro h
    have hs := agentStartup_no_identity P env h
    have hx : (agentStartup P env).xExitFlag ≠ pdFALSE := by
      rw [hs]
      simp [pdTRUE, pdFALSE]
    have hu : (prvUnsubscribeFromDefenderTopics P env.unsubscribe (identityCtx env)).trace = [] :=
      prvUnsubscribeFromDefenderTopics_null P _ _ rfl
    have hc : (prvClearCtx (identityCtx env)).trace =
        if env.pcDeviceId ≠ NULL then [Event.vPortFree env.pcDeviceId] else [] := by
      by_cases hp : env.pcDeviceId = 0 <;>
      simp [prvClearCtx, clearLoop, clearLoopBody, identityCtx, NUM_TOPIC_STRINGS, IDX_PUBLISH,
        IDX_REJECTED, Arr3.get, NULL, hp]
    rw [vDefenderAgentTask_of_exit P env hx]
    refine ⟨rfl, ?_, ?_⟩
    · simp [agentTeardown, hs]
    · simp only [TaskResult.trace, agentTeardown_trace, hs, stamp_erase, hu, hc]
      simp
  · intro h1 h2 hb
    have hs := agentStartup_build_fails P env h1 h2 hb
    have hx : (agentStartup P env).xExitFlag ≠ pdFALSE := by
      rw [hs]
      simp [pdTRUE, pdFALSE]
    have hu : (prvUnsubscribeFromDefenderTopics P env.unsubscribe
        (prvBuildDefenderTopicStrings P env.topics (identityCtx env)).ctx).trace = [] :=
      prvUnsubscribeFromDefenderTopics_null P _ _
        (prvBuildDefenderTopicStrings_failure P env.topics (identityCtx env) hb).1
    have ht : (vDefenderAgentTask P env).trace =
        [Event.KVStore_getStringHeap, Event.xTaskGetCurrentTaskHandle] ++
        (prvBuildDefenderTopicStrings P env.topics (identityCtx env)).trace ++
        [Event.xEventGroupWaitBits] ++
        (prvClearCtx (prvBuildDefenderTopicStrings P env.topics (identityCtx env)).ctx).trace ++
        [Event.vTaskDelete] := by
      rw [vDefenderAgentTask_of_exit P env hx]
      simp only [TaskResult.trace, agentTeardown_trace, hs, stamp_erase, hu]
      simp
    rw [ht]
    rw [vDefenderAgentTask_of_exit P env hx]
    refine ⟨rfl, ?_, rfl, ?_⟩
    · simp [agentTeardown, hs]
    · refine forall_mem_append (forall_mem_append (forall_mem_append (forall_mem_append
        ?_ ?_) ?_) ?_) ?_
      · simp [Event.kind]
      · exact fun e he => Or.inr (kind_prvBuildDefenderTopicStrings _ _ _ e he)
      · simp [Event.kind]
      · exact fun e he => Or.inr (kind_prvClearCtx _ e he)
      · simp [Event.kind]
  · intro h1 h2 hb hsub
    have hs := agentStartup_build_ok P env h1 h2 hb
    have hx : (agentStartup P env).xExitFlag ≠ pdFALSE := by
      rw [hs]
      simp [hsub, pdTRUE, pdFALSE]
    have ht : (vDefenderAgentTask P env).trace =
        [Event.KVStore_getStringHeap, Event.xTaskGetCurrentTaskHandle] ++
        (prvBuildDefenderTopicStrings P env.topics (identityCtx env)).trace ++
        [Event.xEventGroupWaitBits] ++
        (prvSubscribeToDefenderTopics P env.subscribe
          (prvBuildDefenderTopicStrings P env.topics (identityCtx env)).ctx).trace ++
        (prvUnsubscribeFromDefenderTopics P env.unsubscribe
          (prvBuildDefenderTopicStrings P env.topics (identityCtx env)).ctx).trace ++
        (prvClearCtx (prvBuildDefenderTopicStrings P env.topics (identityCtx env)).ctx).trace ++
        [Event.vTaskDelete] := by
      rw [vDefenderAgentTask_of_exit P env hx]
      simp only [TaskResult.trace, agentTeardown_trace, hs, stamp_erase]
      simp
    rw [ht]
    rw [vDefenderAgentTask_of_exit P env hx]
    refine ⟨rfl, ?_, rfl, ?_⟩
    · simp [agentTeardown, hs]
    · refine forall_mem_append (forall_mem_append (forall_mem_append (forall_mem_append
        (forall_mem_append (forall_mem_append ?_ ?_) ?_) ?_) ?_) ?_) ?_
      · simp [Event.kind]
      · exact fun e he => Or.inr (Or.inl (kind_prvBuildDefenderTopicStrings _ _ _ e he))
      · simp [Event.kind]
      · exact fun e he => Or.inr (Or.inr (Or.inl (kind_prvSubscribeToDefenderTopics _ _ _ e he)))
      · exact fun e he =>
          Or.inr (Or.inr (Or.inr (kind_prvUnsubscribeFromDefenderTopics _ _ _ e he)))
      · exact fun e he => Or.inr (Or.inl (kind_prvClearCtx _ e he))
      · simp [Event.kind]

theorem kind_defenderCycle (P : Platform) (env : CycleEnv) (xCtx : DefenderAgentCtx_t)
    (xSuccess : Bool) :
    ∀ e ∈ (defenderCycle P env xCtx xSuccess).trace,
      e.kind = Kind.encoder ∨ e.kind = Kind.publish ∨ e.kind = Kind.response ∨
        e.kind = Kind.sleep := by
  rw [defenderCycle_trace]
  refine forall_mem_append (fun e he => Or.inl (kind_buildReport env e he))
    (forall_mem_append ?_ ?_)
  · split_ifs
    · intro e he
      rcases List.mem_cons.mp he with rfl | he
      · exact Or.inl rfl
      · exact Or.inr (Or.inl (kind_prvPublishDeviceMetricsReport _ _ _ _ e he))
    · simp
  · simp [Event.kind]

theorem iterate_induction (P : Platform) (Inv : LoopState → Prop)
    (hstep : ∀ st s, Inv s → Inv (loopIteration P st s)) :
    ∀ (steps : List LoopStep) (s : LoopState), Inv s → Inv (iterate P steps s) := by
  intro steps
  induction steps with
  | nil => intro s hs; simpa [iterate] using hs
  | cons x rest ih =>
    intro s hs
    have h := ih (loopIteration P x s) (hstep x s hs)
    simpa [iterate] using h

theorem agentLoop_induction (P : Platform) (Inv : LoopState → Prop)
    (hstep : ∀ st s, Inv s → Inv (loopIteration P st s)) :
    ∀ (steps : List LoopStep) (s : LoopState), Inv s → Inv (agentLoop P steps s).1 := by
  intro steps
  induction steps with
  | nil => intro s hs; simpa [agentLoop] using hs
  | cons x rest ih =>
    intro s hs
    by_cases hf : s.xExitFlag = pdFALSE
    · simpa [agentLoop, hf] using ih (loopIteration P x s) (hstep x s hs)
    · simpa [agentLoop, hf] using hs

theorem loopIteration_trace (P : Platform) (st : LoopStep) (s : LoopState) :
    (loopIteration P st s).stamped.map Prod.fst =
      s.stamped.map Prod.fst ++ (defenderCycle P st.env s.xCtx s.xSuccess).trace := by
  simp [loopIteration, CycleResult.trace]

theorem loopIteration_topics (P : Platform) (st : LoopStep) (s : LoopState) :
    (loopIteration P st s).xCtx.ppcTopic = s.xCtx.ppcTopic ∧
    (loopIteration P st s).xCtx.pxTopicLen = s.xCtx.pxTopicLen ∧
    (loopIteration P st s).xCtx.pcDeviceId = s.xCtx.pcDeviceId ∧
    (loopIteration P st s).xCtx.xWaitingForCallback = pdFALSE := by
  simp [loopIteration, defenderCycle_ctx]

theorem unsubscribes_append (a b : List Event) :
    unsubscribes (a ++ b) = unsubscribes a ++ unsubscribes b := by
  induction a with
  | nil => rfl
  | cons e es ih => cases e <;> simp [unsubscribes, ih]

theorem unsubscribes_eq_nil (a : List Event) (h : ∀ e ∈ a, e.kind ≠ Kind.unsubscribe) :
    unsubscribes a = [] := by
  induction a with
  | nil => rfl
  | cons e es ih =>
    have he := h e (List.mem_cons_self _ _)
    have hes := ih (fun x hx => h x (List.mem_cons_of_mem _ hx))
    cases e <;> simp_all [unsubscribes, Event.kind]

theorem unsubscribes_prvUnsubscribeFromTopic (P : Platform) (env : HandshakeEnv)
    (pcTopic : Ptr) (xTopicLen : Nat) (pxCallback : Handler)
    (h : pcTopic ≠ NULL ∧ 0 < xTopicLen) :
    unsubscribes (prvUnsubscribeFromTopic P env pcTopic xTopicLen pxCallback).trace =
      [(pcTopic, xTopicLen)] := by
  unfold prvUnsubscribeFromTopic
  by_cases hs : env.agentStatus = MQTTSuccess <;>
  by_cases hn : env.xNotifyResult = 1 <;>
  by_cases hv : env.ulNotifiedValue = MQTTSuccess <;>
  simp [h.1, h.2, hs, hn, hv, pdTRUE, pdFALSE, unsubscribes]

theorem prvSubscribeToTopic_ret (P : Platform) (env : HandshakeEnv) (pcTopic : Ptr)
    (xTopicLen : Nat) (pxCallback : Handler)
    (h : (prvSubscribeToTopic P env pcTopic xTopicLen pxCallback).ret = true) :
    pcTopic ≠ NULL ∧ 0 < xTopicLen := by
  unfold prvSubscribeToTopic at h
  by_cases ht : xTopicLen > 0 ∧ pcTopic ≠ NULL
  · exact ⟨ht.2, ht.1⟩
  · simp [ht] at h

theorem prvSubscribeToDefenderTopics_ret (P : Platform) (env : PairEnv)
    (pxCtx : DefenderAgentCtx_t) (h : (prvSubscribeToDefenderTopics P env pxCtx).ret = true) :
    (pxCtx.ppcTopic.get IDX_ACCEPTED ≠ NULL ∧ 0 < pxCtx.pxTopicLen.get IDX_ACCEPTED) ∧
    (pxCtx.ppcTopic.get IDX_REJECTED ≠ NULL ∧ 0 < pxCtx.pxTopicLen.get IDX_REJECTED) := by
  unfold prvSubscribeToDefenderTopics at h
  simp only [] at h
  split_ifs at h with h1
  · simp only [] at h
    exact ⟨prvSubscribeToTopic_ret _ _ _ _ _ h1, prvSubscribeToTopic_ret _ _ _ _ _ h⟩
  · simp only [] at h
    exact absurd h h1

/-- The loop is entered only after a startup in which the identity is there,
the topics are built and both subscriptions succeed. -/
theorem agentStartup_entered (P : Platform) (env : TaskEnv)
    (h0 : (agentStartup P env).xExitFlag = pdFALSE) :
    (env.pcDeviceId ≠ NULL ∧ 0 < env.xDeviceIdLen) ∧
    (prvBuildDefenderTopicStrings P env.topics (identityCtx env)).ret = true ∧
    (prvSubscribeToDefenderTopics P env.subscribe
      (prvBuildDefenderTopicStrings P env.topics (identityCtx env)).ctx).ret = true := by
  by_cases hid : env.pcDeviceId = NULL ∨ env.xDeviceIdLen = 0
  · rw [agentStartup_no_identity P env hid] at h0
    simp [pdTRUE, pdFALSE] at h0
  · have h1 : env.pcDeviceId ≠ NULL := fun h => hid (Or.inl h)
    have h2 : 0 < env.xDeviceIdLen := Nat.pos_of_ne_zero (fun h => hid (Or.inr h))
    cases hb : (prvBuildDefenderTopicStrings P env.topics (identityCtx env)).ret
    · rw [agentStartup_build_fails P env h1 h2 hb] at h0
      simp [pdTRUE, pdFALSE] at h0
    · rw [agentStartup_build_ok P env h1 h2 hb] at h0
      cases hs : (prvSubscribeToDefenderTopics P env.subscribe
          (prvBuildDefenderTopicStrings P env.topics (identityCtx env)).ctx).ret
      · simp [hs, pdTRUE, pdFALSE] at h0
      · exact ⟨⟨h1, h2⟩, rfl, rfl⟩

theorem kind_agentStartup (P : Platform) (env : TaskEnv) :
    ∀ e ∈ (agentStartup P env).stamped.map Prod.fst,
      e.kind = Kind.task ∨ e.kind = Kind.heap ∨ e.kind = Kind.subscribe := by
  by_cases hid : env.pcDeviceId = NULL ∨ env.xDeviceIdLen = 0
  · rw [agentStartup_no_identity P env hid]
    simp [stamp, Event.kind]
  · have h1 : env.pcDeviceId ≠ NULL := fun h => hid (Or.inl h)
    have h2 : 0 < env.xDeviceIdLen := Nat.pos_of_ne_zero (fun h => hid (Or.inr h))
    cases hb : (prvBuildDefenderTopicStrings P env.topics (identityCtx env)).ret
    · rw [agentStartup_build_fails P env h1 h2 hb]
      simp only [stamp_erase]
      refine forall_mem_append (forall_mem_append ?_ ?_) ?_
      · simp [Event.kind]
      · exact fun e he => Or.inr (Or.inl (kind_prvBuildDefenderTopicStrings _ _ _ e he))
      · simp [Event.kind]
    · rw [agentStartup_build_ok P env h1 h2 hb]
      simp only [stamp_erase]
      refine forall_mem_append (forall_mem_append (forall_mem_append ?_ ?_) ?_) ?_
      · simp [Event.kind]
      · exact fun e he => Or.inr (Or.inl (kind_prvBuildDefenderTopicStrings _ _ _ e he))
      · simp [Event.kind]
      · exact fun e he => Or.inr (Or.inr (kind_prvSubscribeToDefenderTopics _ _ _ e he))

theorem iterate_frame (P : Platform) (steps : List LoopStep) (s : LoopState) :
    (iterate P steps s).xCtx.ppcTopic = s.xCtx.ppcTopic ∧
    (iterate P steps s).xCtx.pxTopicLen = s.xCtx.pxTopicLen ∧
    (iterate P steps s).xCtx.pcDeviceId = s.xCtx.pcDeviceId := by
  refine iterate_induction P
    (fun t => t.xCtx.ppcTopic = s.xCtx.ppcTopic ∧ t.xCtx.pxTopicLen = s.xCtx.pxTopicLen ∧
      t.xCtx.pcDeviceId = s.xCtx.pcDeviceId) ?_ steps s ⟨rfl, rfl, rfl⟩
  intro st t ht
  obtain ⟨a, b, c, _⟩ := loopIteration_topics P st t
  exact ⟨a.trans ht.1, b.trans ht.2.1, c.trans ht.2.2⟩

theorem iterate_no_unsubscribe (P : Platform) (steps : List LoopStep) (s : LoopState)
    (h : ∀ e ∈ s.stamped.map Prod.fst, e.kind ≠ Kind.unsubscribe) :
    ∀ e ∈ (iterate P steps s).stamped.map Prod.fst, e.kind ≠ Kind.unsubscribe := by
  refine iterate_induction P
    (fun t => ∀ e ∈ t.stamped.map Prod.fst, e.kind ≠ Kind.unsubscribe) ?_ steps s h
  intro st t ht
  rw [loopIteration_trace]
  refine forall_mem_append ht ?_
  intro e he
  rcases kind_defenderCycle _ _ _ _ e he with h | h | h | h <;> simp [h]

theorem iterate_last (P : Platform) (pre : List LoopStep) (st : LoopStep) (s : LoopState) :
    ((iterate P (pre ++ [st]) s).stamped.map Prod.fst).getLast? =
      some (Event.vTaskDelay (pdMS_TO_TICKS P MS_BETWEEN_REPORTS)) := by
  rw [iterate_append]
  simp only [iterate, List.foldl_cons, List.foldl_nil]
  rw [loopIteration_trace, defenderCycle_trace]
  simp [List.getLast?_append, List.getLast?_cons_cons]

/-- C12: exit during the sleep between cycles.  When the loop has been entered
and another task sets `xExitFlag` during a pass through the loop (so also
while the agent sleeps at its end), no earlier pass having seen it set, the
task runs to its end; the loop body has run exactly for the passes up to that
one, whatever further passes the environment offers; the last call before the
teardown is the sleep of that pass; the calls after it are those of the
unsubscribe attempt, of the clearing of the context, and `vTaskDelete`, none of
them an encoder call or a publish; and over the whole run
`MQTTAgent_Unsubscribe` is called exactly twice, once for the accepted topic
and then once for the rejected topic. -/
theorem exit_during_sleep (P : Platform) (env : TaskEnv) (pre : List LoopStep)
    (st : LoopStep) (post : List LoopStep)
    (h0 : (agentStartup P env).xExitFlag = pdFALSE)
    (hsteps : env.steps = pre ++ st :: post)
    (hpre : ∀ x ∈ pre, x.exitRequested = false)
    (hst : st.exitRequested = true) :
    (vDefenderAgentTask P env).terminated = true ∧
    (vDefenderAgentTask P env).state.cycles = pre.length + 1 ∧
    (vDefenderAgentTask P env).trace =
      (iterate P (pre ++ [st]) (agentStartup P env)).stamped.map Prod.fst ++
        ((prvUnsubscribeFromDefenderTopics P env.unsubscribe
            (iterate P (pre ++ [st]) (agentStartup P env)).xCtx).trace ++
          ((prvClearCtx (iterate P (pre ++ [st]) (agentStartup P env)).xCtx).trace ++
            [Event.vTaskDelete])) ∧
    ((iterate P (pre ++ [st]) (agentStartup P env)).stamped.map Prod.fst).getLast? =
      some (Event.vTaskDelay (pdMS_TO_TICKS P MS_BETWEEN_REPORTS)) ∧
    (∀ e ∈ (prvUnsubscribeFromDefenderTopics P env.unsubscribe
            (iterate P (pre ++ [st]) (agentStartup P env)).xCtx).trace ++
          ((prvClearCtx (iterate P (pre ++ [st]) (agentStartup P env)).xCtx).trace ++
            [Event.vTaskDelete]),
      e.kind ≠ Kind.encoder ∧ e.kind ≠ Kind.publish) ∧
    unsubscribes (vDefenderAgentTask P env).trace =
      [((agentStartup P env).xCtx.ppcTopic.get IDX_ACCEPTED,
          (agentStartup P env).xCtx.pxTopicLen.get IDX_ACCEPTED),
       ((agentStartup P env).xCtx.ppcTopic.get IDX_REJECTED,
          (agentStartup P env).xCtx.pxTopicLen.get IDX_REJECTED)] := by
  have hloop : agentLoop P env.steps (agentStartup P env) =
      (iterate P (pre ++ [st]) (agentStartup P env), true) := by
    rw [hsteps]
    exact agentLoop_run P st post hst pre _ h0 hpre
  have htask : vDefenderAgentTask P env =
      { state := agentTeardown P env.unsubscribe
          (iterate P (pre ++ [st]) (agentStartup P env)),
        terminated := true } := by
    simp [vDefenderAgentTask, hloop]
  have htrace : (vDefenderAgentTask P env).trace =
      (iterate P (pre ++ [st]) (agentStartup P env)).stamped.map Prod.fst ++
        ((prvUnsubscribeFromDefenderTopics P env.unsubscribe
            (iterate P (pre ++ [st]) (agentStartup P env)).xCtx).trace ++
          ((prvClearCtx (iterate P (pre ++ [st]) (agentStartup P env)).xCtx).trace ++
            [Event.vTaskDelete])) := by
    rw [htask]
    exact agentTeardown_trace P env.unsubscribe _
  obtain ⟨⟨h1, h2⟩, hb, hs⟩ := agentStartup_entered P env h0
  have hctx : (agentStartup P env).xCtx =
      (prvBuildDefenderTopicStrings P env.topics (identityCtx env)).ctx := by
    rw [agentStartup_build_ok P env h1 h2 hb]
  have hcyc : (agentStartup P env).cycles = 0 := by
    rw [agentStartup_build_ok P env h1 h2 hb]
  obtain ⟨hacc, hrej⟩ := prvSubscribeToDefenderTopics_ret P env.subscribe _ hs
  rw [← hctx] at hacc hrej
  obtain ⟨f1, f2, _⟩ := iterate_frame P (pre ++ [st]) (agentStartup P env)
  refine ⟨?_, ?_, htrace, iterate_last P pre st _, ?_, ?_⟩
  · rw [htask]
  · rw [htask]
    simp [agentTeardown, iterate_cycles, hcyc]
  · refine forall_mem_append ?_ (forall_mem_append ?_ ?_)
    · intro e he
      simp [kind_prvUnsubscribeFromDefenderTopics _ _ _ e he]
    · intro e he
      simp [kind_prvClearCtx _ e he]
    · simp [Event.kind]
  · rw [htrace, unsubscribes_append, unsubscribes_append, unsubscribes_append]
    have n1 : unsubscribes ((iterate P (pre ++ [st]) (agentStartup P env)).stamped.map
        Prod.fst) = [] := by
      apply unsubscribes_eq_nil
      apply iterate_no_unsubscribe
      intro e he
      rcases kind_agentStartup P env e he with h | h | h <;> simp [h]
    have n2 : unsubscribes (prvClearCtx
        (iterate P (pre ++ [st]) (agentStartup P env)).xCtx).trace = [] := by
      apply unsubscribes_eq_nil
      intro e he
      simp [kind_prvClearCtx _ e he]
    have n3 : unsubscribes [Event.vTaskDelete] = [] := rfl
    rw [n1, n2, n3]
    simp only [prvUnsubscribeFromDefenderTopics, unsubscribes_append, f1, f2]
    rw [unsubscribes_prvUnsubscribeFromTopic _ _ _ _ _ hacc,
      unsubscribes_prvUnsubscribeFromTopic _ _ _ _ _ hrej]
    simp

/-- Witness of C12: the run `envTaskExitInSecondPass`, in which `xExitFlag` is
set during the second pass and a third pass is on offer. -/
theorem exit_during_sleep_witness :
    (vDefenderAgentTask samplePlatform envTaskExitInSecondPass).terminated = true ∧
    (vDefenderAgentTask samplePlatform envTaskExitInSecondPass).state.cycles = 2 ∧
    unsubscribes (vDefenderAgentTask samplePlatform envTaskExitInSecondPass).trace =
      [(201, 51), (202, 51)] :=
  ⟨(exit_during_sleep samplePlatform envTaskExitInSecondPass [⟨envTimeout, false⟩]
      ⟨envPublishFails, true⟩ [⟨envTimeout, false⟩] (by decide) rfl (by decide) rfl).1,
   (exit_during_sleep samplePlatform envTaskExitInSecondPass [⟨envTimeout, false⟩]
      ⟨envPublishFails, true⟩ [⟨envTimeout, false⟩] (by decide) rfl (by decide) rfl).2.1,
   by decide⟩

/-- Witness of C11: the run `envTaskNoIdentity`, without a device identity. -/
theorem startup_failure_skips_loop_witness :
    (vDefenderAgentTask samplePlatform envTaskNoIdentity).terminated = true ∧
    (vDefenderAgentTask samplePlatform envTaskNoIdentity).state.cycles = 0 ∧
    (vDefenderAgentTask samplePlatform envTaskNoIdentity).trace =
      [Event.KVStore_getStringHeap, Event.xTaskGetCurrentTaskHandle,
        Event.xEventGroupWaitBits, Event.vTaskDelete] :=
  (startup_failure_skips_loop samplePlatform envTaskNoIdentity).1 (Or.inl rfl)

theorem flagOk_stamp_false (l : List Event) (h : ∀ e ∈ l, e.kind ≠ Kind.publish) :
    ∀ x ∈ stamp pdFALSE l, FlagOk x := by
  intro x hx
  obtain ⟨e, he, rfl⟩ := List.mem_map.mp hx
  exact ⟨fun hk => absurd hk (h e he), fun _ _ => rfl⟩

theorem flagOk_stamp_true (l : List Event) (h : ∀ e ∈ l, e.kind = Kind.publish) :
    ∀ x ∈ stamp pdTRUE l, FlagOk x := by
  intro x hx
  obtain ⟨e, he, rfl⟩ := List.mem_map.mp hx
  exact ⟨fun _ => rfl, fun hk => absurd (h e he) hk⟩

/-- The calls of `prvPublishDeviceMetricsReport` are all recorded with the flag
`pdTRUE`, the value stored before the first of them. -/
theorem prvPublishDeviceMetricsReport_stamped (P : Platform) (env : PublishEnv)
    (pxCtx : DefenderAgentCtx_t) (ulReportLength : Nat) :
    (prvPublishDeviceMetricsReport P env pxCtx ulReportLength).stamped =
      stamp pdTRUE (prvPublishDeviceMetricsReport P env pxCtx ulReportLength).trace ∧
    (prvPublishDeviceMetricsReport P env pxCtx ulReportLength).ctx.xWaitingForCallback =
      pdTRUE := by
  unfold prvPublishDeviceMetricsReport
  by_cases hs : env.publishStatus = MQTTSuccess <;>
  simp [hs, PublishResult.trace, stamp]

/-- The calls of one iteration with the flag recorded at each: the build and the
reading of the length with the flag the iteration starts with, the calls of
the publish with `pdTRUE`, the report-response wait with `pdTRUE` when the
report was handed to the publish and with the initial flag otherwise, the
sleep with `pdFALSE`. -/
theorem defenderCycle_stamped (P : Platform) (env : CycleEnv) (xCtx : DefenderAgentCtx_t)
    (xSuccess : Bool) :
    (defenderCycle P env xCtx xSuccess).stamped =
      stamp xCtx.xWaitingForCallback (buildReport env).trace ++
        ((if (buildReport env).xError = CborNoError then
            (Event.cbor_encoder_get_buffer_size, xCtx.xWaitingForCallback) ::
              stamp pdTRUE (prvPublishDeviceMetricsReport P env.publish xCtx env.xLen).trace
          else []) ++
        [(Event.xTaskNotifyWait WaitSite.reportResponse (pdMS_TO_TICKS P RESPONSE_TIMEOUT_MS),
            if (buildReport env).xError = CborNoError then pdTRUE
            else xCtx.xWaitingForCallback),
         (Event.vTaskDelay (pdMS_TO_TICKS P MS_BETWEEN_REPORTS), pdFALSE)]) := by
  have hp := prvPublishDeviceMetricsReport_stamped P env.publish xCtx env.xLen
  unfold defenderCycle
  by_cases hb : (buildReport env).xError = CborNoError
  · simp only [hb, if_true, hp.1, hp.2]
    simp [stamp]
  · simp only [hb, if_false]
    simp [stamp]

theorem flagOk_defenderCycle (P : Platform) (env : CycleEnv)
    (xCtx : DefenderAgentCtx_t) (xSuccess : Bool) (h : xCtx.xWaitingForCallback = pdFALSE) :
    ∀ x ∈ (defenderCycle P env xCtx xSuccess).stamped, FlagOk x := by
  rw [defenderCycle_stamped, h]
  have hb : ∀ x ∈ stamp pdFALSE (buildReport env).trace, FlagOk x :=
    flagOk_stamp_false _ (fun e he => by simp [kind_buildReport env e he])
  have hr : ∀ w : Int, FlagOk (Event.xTaskNotifyWait WaitSite.reportResponse
      (pdMS_TO_TICKS P RESPONSE_TIMEOUT_MS), w) := by
    intro w
    exact ⟨fun hk => by simp [Event.kind] at hk, fun _ hk => absurd rfl hk⟩
  have hd : FlagOk (Event.vTaskDelay (pdMS_TO_TICKS P MS_BETWEEN_REPORTS), pdFALSE) :=
    ⟨fun hk => by simp [Event.kind] at hk, fun _ _ => rfl⟩
  have hg : FlagOk (Event.cbor_encoder_get_buffer_size, pdFALSE) :=
    ⟨fun hk => by simp [Event.kind] at hk, fun _ _ => rfl⟩
  refine forall_mem_append hb (forall_mem_append ?_ ?_)
  · split_ifs
    · intro x hx
      rcases List.mem_cons.mp hx with rfl | hx
      · exact hg
      · exact flagOk_stamp_true _ (kind_prvPublishDeviceMetricsReport _ _ _ _) x hx
    · simp
  · intro x hx
    simp only [List.mem_cons, List.mem_singleton, List.not_mem_nil, or_false] at hx
    rcases hx with rfl | rfl
    · exact hr _
    · exact hd

theorem flagOk_agentStartup (P : Platform) (env : TaskEnv) :
    (agentStartup P env).xCtx.xWaitingForCallback = pdFALSE ∧
    ∀ x ∈ (agentStartup P env).stamped, FlagOk x := by
  have hf : (prvBuildDefenderTopicStrings P env.topics
      (identityCtx env)).ctx.xWaitingForCallback = pdFALSE :=
    (frame_prvBuildDefenderTopicStrings P env.topics (identityCtx env)).1
  by_cases hid : env.pcDeviceId = NULL ∨ env.xDeviceIdLen = 0
  · rw [agentStartup_no_identity P env hid]
    exact ⟨rfl, flagOk_stamp_false _ (by simp [Event.kind])⟩
  · have h1 : env.pcDeviceId ≠ NULL := fun h => hid (Or.inl h)
    have h2 : 0 < env.xDeviceIdLen := Nat.pos_of_ne_zero (fun h => hid (Or.inr h))
    cases hb : (prvBuildDefenderTopicStrings P env.topics (identityCtx env)).ret
    · rw [agentStartup_build_fails P env h1 h2 hb]
      refine ⟨hf, flagOk_stamp_false _ ?_⟩
      refine forall_mem_append (forall_mem_append ?_ ?_) ?_
      · simp [Event.kind]
      · exact fun e he => by simp [kind_prvBuildDefenderTopicStrings _ _ _ e he]
      · simp [Event.kind]
    · rw [agentStartup_build_ok P env h1 h2 hb]
      refine ⟨hf, flagOk_stamp_false _ ?_⟩
      refine forall_mem_append (forall_mem_append (forall_mem_append ?_ ?_) ?_) ?_
      · simp [Event.kind]
      · exact fun e he => by simp [kind_prvBuildDefenderTopicStrings _ _ _ e he]
      · simp [Event.kind]
      · exact fun e he => by simp [kind_prvSubscribeToDefenderTopics _ _ _ e he]

theorem flagOk_loopIteration (P : Platform) (st : LoopStep) (s : LoopState)
    (h : s.xCtx.xWaitingForCallback = pdFALSE ∧ ∀ x ∈ s.stamped, FlagOk x) :
    (loopIteration P st s).xCtx.xWaitingForCallback = pdFALSE ∧
    ∀ x ∈ (loopIteration P st s).stamped, FlagOk x := by
  refine ⟨(loopIteration_topics P st s).2.2.2, ?_⟩
  exact forall_mem_append h.2 (flagOk_defenderCycle P st.env s.xCtx s.xSuccess h.1)

theorem flagOk_agentTeardown (P : Platform) (env : PairEnv) (s : LoopState)
    (h : s.xCtx.xWaitingForCallback = pdFALSE ∧ ∀ x ∈ s.stamped, FlagOk x) :
    (agentTeardown P env s).xCtx.xWaitingForCallback = pdFALSE ∧
    ∀ x ∈ (agentTeardown P env s).stamped, FlagOk x := by
  refine ⟨rfl, ?_⟩
  unfold agentTeardown
  simp only []
  have hu : (prvUnsubscribeFromDefenderTopics P env s.xCtx).ctx.xWaitingForCallback =
      pdFALSE := h.1
  have hc : (prvClearCtx (prvUnsubscribeFromDefenderTopics P env s.xCtx).ctx).ctx.xWaitingForCallback
      = pdFALSE := rfl
  rw [h.1, hu, hc]
  refine forall_mem_append h.2 (forall_mem_append ?_ (forall_mem_append ?_ ?_))
  · exact flagOk_stamp_false _
      (fun e he => by simp [kind_prvUnsubscribeFromDefenderTopics _ _ _ e he])
  · exact flagOk_stamp_false _ (fun e he => by simp [kind_prvClearCtx _ e he])
  · exact flagOk_stamp_false _ (by simp [Event.kind])

/-- The flag invariant holds in the state with which the loop is left or in
which the passes of the environment are used up. -/
theorem flagOk_agentLoop (P : Platform) (env : TaskEnv) (steps : List LoopStep) :
    (agentLoop P steps (agentStartup P env)).1.xCtx.xWaitingForCallback = pdFALSE ∧
    ∀ x ∈ (agentLoop P steps (agentStartup P env)).1.stamped, FlagOk x :=
  agentLoop_induction P
    (fun s => s.xCtx.xWaitingForCallback = pdFALSE ∧ ∀ x ∈ s.stamped, FlagOk x)
    (fun st s h => flagOk_loopIteration P st s h) steps _ (flagOk_agentStartup P env)

theorem flagOk_vDefenderAgentTask (P : Platform) (env : TaskEnv) :
    (vDefenderAgentTask P env).state.xCtx.xWaitingForCallback = pdFALSE ∧
    ∀ x ∈ (vDefenderAgentTask P env).state.stamped, FlagOk x := by
  have hl := flagOk_agentLoop P env env.steps
  unfold vDefenderAgentTask
  simp only []
  split_ifs
  · exact flagOk_agentTeardown P env.unsubscribe _ hl
  · exact hl

/-- C16: the invariant of `xWaitingForCallback`.  In every run of the task, for
every outcome of every call (so on every path through a cycle) and at every
point the run may have reached, each call is made with the flag as follows:
`MQTTAgent_Publish` and its acknowledgment wait with the flag true; every call
other than these two and the report-response wait with the flag false, in
particular the first call of a loop iteration (`cbor_encoder_init`), the sleep
between cycles (`vTaskDelay`) and the calls of the teardown
(`MQTTAgent_Unsubscribe`, `vPortFree`, `vTaskDelete`).  The flag is false
each time the loop condition is evaluated, and in the final state.  The flag
of a call is the value that the body has stored in the context when the call
is made: a pass through the loop adds the calls of `defenderCycle` as that
function records them, and in a cycle entered with the flag false these are
the build with the flag false, then, when the build succeeded, the reading of
the length with the flag false and the calls of
`prvPublishDeviceMetricsReport` with the flag true, then the report-response
wait, with the flag true when the build succeeded and false when it failed,
and the sleep with the flag false. -/
theorem waiting_flag_invariant (P : Platform) (env : TaskEnv) :
    (∀ e w, (e, w) ∈ (vDefenderAgentTask P env).state.stamped →
      (e.kind = Kind.publish → w = pdTRUE) ∧
      (e.kind ≠ Kind.publish → e.kind ≠ Kind.response → w = pdFALSE)) ∧
    (∀ a b c w, (Event.MQTTAgent_Publish a b c, w) ∈ (vDefenderAgentTask P env).state.stamped →
      w = pdTRUE) ∧
    (∀ n w, (Event.cbor_encoder_init n, w) ∈ (vDefenderAgentTask P env).state.stamped →
      w = pdFALSE) ∧
    (∀ t w, (Event.vTaskDelay t, w) ∈ (vDefenderAgentTask P env).state.stamped →
      w = pdFALSE) ∧
    (∀ t l w, (Event.MQTTAgent_Unsubscribe t l, w) ∈ (vDefenderAgentTask P env).state.stamped →
      w = pdFALSE) ∧
    (∀ p w, (Event.vPortFree p, w) ∈ (vDefenderAgentTask P env).state.stamped →
      w = pdFALSE) ∧
    (∀ w, (Event.vTaskDelete, w) ∈ (vDefenderAgentTask P env).state.stamped → w = pdFALSE) ∧
    (∀ steps, (agentLoop P steps (agentStartup P env)).1.xCtx.xWaitingForCallback = pdFALSE) ∧
    (vDefenderAgentTask P env).state.xCtx.xWaitingForCallback = pdFALSE ∧
    (∀ st s, (loopIteration P st s).stamped =
      s.stamped ++ (defenderCycle P st.env s.xCtx s.xSuccess).stamped) ∧
    (∀ cenv xCtx xSuccess, xCtx.xWaitingForCallback = pdFALSE →
      (defenderCycle P cenv xCtx xSuccess).stamped =
        stamp pdFALSE (buildReport cenv).trace ++
          ((if (buildReport cenv).xError = CborNoError then
              (Event.cbor_encoder_get_buffer_size, pdFALSE) ::
                stamp pdTRUE (prvPublishDeviceMetricsReport P cenv.publish xCtx cenv.xLen).trace
            else []) ++
          [(Event.xTaskNotifyWait WaitSite.reportResponse (pdMS_TO_TICKS P RESPONSE_TIMEOUT_MS),
              if (buildReport cenv).xError = CborNoError then pdTRUE else pdFALSE),
           (Event.vTaskDelay (pdMS_TO_TICKS P MS_BETWEEN_REPORTS), pdFALSE)])) := by
  obtain ⟨hfin, hall⟩ := flagOk_vDefenderAgentTask P env
  refine ⟨fun e w h => hall (e, w) h, ?_, ?_, ?_, ?_, ?_, ?_, ?_, hfin, fun _ _ => rfl,
    fun cenv xCtx xSuccess h => by rw [defenderCycle_stamped, h]⟩
  · exact fun a b c w h => (hall _ h).1 rfl
  · exact fun n w h => (hall _ h).2 (by simp [Event.kind]) (by simp [Event.kind])
  · exact fun t w h => (hall _ h).2 (by simp [Event.kind]) (by simp [Event.kind])
  · exact fun t l w h => (hall _ h).2 (by simp [Event.kind]) (by simp [Event.kind])
  · exact fun p w h => (hall _ h).2 (by simp [Event.kind]) (by simp [Event.kind])
  · exact fun w h => (hall _ h).2 (by simp [Event.kind]) (by simp [Event.kind])
  · exact fun steps => (flagOk_agentLoop P env steps).1

theorem countP_sleep_zero (l : List Event) (h : ∀ e ∈ l, e.kind ≠ Kind.sleep) :
    l.countP (fun e => decide (e.kind = Kind.sleep)) = 0 := by
  rw [List.countP_eq_zero]
  intro e he
  simpa using h e he

theorem agentLoop_schedule (P : Platform) :
    ∀ (steps1 steps2 : List LoopStep) (s1 s2 : LoopState),
      steps1.map (fun x => x.exitRequested) = steps2.map (fun x => x.exitRequested) →
      s1.xExitFlag = s2.xExitFlag → s1.cycles = s2.cycles →
      (agentLoop P steps1 s1).1.cycles = (agentLoop P steps2 s2).1.cycles ∧
      (agentLoop P steps1 s1).1.xExitFlag = (agentLoop P steps2 s2).1.xExitFlag ∧
      (agentLoop P steps1 s1).2 = (agentLoop P steps2 s2).2 := by
  intro steps1
  induction steps1 with
  | nil =>
    intro steps2 s1 s2 hm hf hc
    cases steps2 with
    | nil => simp [agentLoop, hf, hc]
    | cons y ys => simp at hm
  | cons x xs ih =>
    intro steps2 s1 s2 hm hf hc
    cases steps2 with
    | nil => simp at hm
    | cons y ys =>
      simp only [List.map_cons, List.cons.injEq] at hm
      by_cases h1 : s1.xExitFlag = pdFALSE
      · have h2 : s2.xExitFlag = pdFALSE := hf ▸ h1
        simp only [agentLoop, h1, h2, if_true]
        apply ih ys _ _ hm.2
        · simp [loopIteration, hm.1, hf]
        · simp [loopIteration, hc]
      · have h2 : ¬ s2.xExitFlag = pdFALSE := hf ▸ h1
        simp [agentLoop, h1, h2, hf, hc]

/-- C17: the schedule does not depend on the outcome of a cycle.  For every
outcome of the calls of an iteration, the iteration makes exactly one sleep,
its last call, of `MS_BETWEEN_REPORTS` converted to ticks; the iteration leaves
`xExitFlag` as it is unless another task sets it; and the number of iterations
run, the final value of `xExitFlag` and whether the loop is left are the same
for any two runs of the loop that start with the same `xExitFlag` and in which
the other tasks set `xExitFlag` during the same passes, whatever the builds,
publishes and responses of the two runs are. -/
theorem schedule_independent_of_outcome (P : Platform) :
    (∀ (env : CycleEnv) (xCtx : DefenderAgentCtx_t) (xSuccess : Bool),
      (defenderCycle P env xCtx xSuccess).trace.countP
        (fun e => decide (e.kind = Kind.sleep)) = 1 ∧
      (defenderCycle P env xCtx xSuccess).trace.getLast? =
        some (Event.vTaskDelay (pdMS_TO_TICKS P MS_BETWEEN_REPORTS))) ∧
    (∀ (env : CycleEnv) (s : LoopState),
      (loopIteration P ⟨env, false⟩ s).xExitFlag = s.xExitFlag ∧
      (loopIteration P ⟨env, false⟩ s).cycles = s.cycles + 1) ∧
    (∀ (steps1 steps2 : List LoopStep) (s1 s2 : LoopState),
      steps1.map (fun x => x.exitRequested) = steps2.map (fun x => x.exitRequested) →
      s1.xExitFlag = s2.xExitFlag → s1.cycles = s2.cycles →
      (agentLoop P steps1 s1).1.cycles = (agentLoop P steps2 s2).1.cycles ∧
      (agentLoop P steps1 s1).1.xExitFlag = (agentLoop P steps2 s2).1.xExitFlag ∧
      (agentLoop P steps1 s1).2 = (agentLoop P steps2 s2).2) := by
  refine ⟨?_, ?_, agentLoop_schedule P⟩
  · intro env xCtx xSuccess
    rw [defenderCycle_trace]
    constructor
    · rw [List.countP_append, List.countP_append]
      rw [countP_sleep_zero _ (fun e he => by simp [kind_buildReport env e he])]
      have hp : (if (buildReport env).xError = CborNoError then
            Event.cbor_encoder_get_buffer_size ::
              (prvPublishDeviceMetricsReport P env.publish xCtx env.xLen).trace
          else []).countP (fun e => decide (e.kind = Kind.sleep)) = 0 := by
        apply countP_sleep_zero
        split_ifs
        · intro e he
          rcases List.mem_cons.mp he with rfl | he
          · simp [Event.kind]
          · simp [kind_prvPublishDeviceMetricsReport _ _ _ _ e he]
        · simp
      rw [hp]
      simp [List.countP_cons, Event.kind]
    · simp [List.getLast?_append, List.getLast?_cons_cons]
  · intro env s
    simp [loopIteration]

/-- Witness of C17: two runs of the loop with different outcomes, `envTimeout`
then `envPublishFails` against `envKeyVFails` then `envTimeout`, and the same
exit request during the second pass, both run two iterations and leave the
loop. -/
theorem schedule_independent_of_outcome_witness :
    (agentLoop samplePlatform [⟨envTimeout, false⟩, ⟨envPublishFails, true⟩]
      ⟨sampleCtx, true, pdFALSE, 0, []⟩).1.cycles = 2 ∧
    (agentLoop samplePlatform [⟨envTimeout, false⟩, ⟨envPublishFails, true⟩]
      ⟨sampleCtx, true, pdFALSE, 0, []⟩).1.cycles =
    (agentLoop samplePlatform [⟨envKeyVFails, false⟩, ⟨envTimeout, true⟩]
      ⟨sampleCtx, true, pdFALSE, 0, []⟩).1.cycles :=
  ⟨by decide,
   ((schedule_independent_of_outcome samplePlatform).2.2
      [⟨envTimeout, false⟩, ⟨envPublishFails, true⟩]
      [⟨envKeyVFails, false⟩, ⟨envTimeout, true⟩]
      ⟨sampleCtx, true, pdFALSE, 0, []⟩ ⟨sampleCtx, true, pdFALSE, 0, []⟩ rfl rfl rfl).1⟩

/-- Witness of C16: in the run `envTaskExitInSecondPass` the publish of the
first pass is made with the flag true, the report-response wait that follows
with the flag true, and the sleep with the flag false; in the cycle
`envBuildFails` nothing is published and the report-response wait is made with
the flag false. -/
theorem waiting_flag_invariant_witness :
    (Event.MQTTAgent_Publish 200 42 60, pdTRUE) ∈
      (vDefenderAgentTask samplePlatform envTaskExitInSecondPass).state.stamped ∧
    (Event.xTaskNotifyWait WaitSite.reportResponse 30000, pdTRUE) ∈
      (vDefenderAgentTask samplePlatform envTaskExitInSecondPass).state.stamped ∧
    (Event.vTaskDelay 300000, pdFALSE) ∈
      (vDefenderAgentTask samplePlatform envTaskExitInSecondPass).state.stamped ∧
    (vDefenderAgentTask samplePlatform
      envTaskExitInSecondPass).state.xCtx.xWaitingForCallback = pdFALSE ∧
    (defenderCycle samplePlatform envBuildFails sampleCtx true).stamped =
      [(Event.cbor_encoder_init REPORT_BUFFER_SIZE, pdFALSE),
       (Event.cbor_encoder_create_map Encoder.xEncoder Encoder.xMapEncoder none, pdFALSE),
       (Event.xTaskNotifyWait WaitSite.reportResponse 30000, pdFALSE),
       (Event.vTaskDelay 300000, pdFALSE)] :=
  ⟨by decide, by decide, by decide,
    (waiting_flag_invariant samplePlatform envTaskExitInSecondPass).2.2.2.2.2.2.2.2.1,
    by decide⟩

end Task

section Router

/-- C22: the router is called only after a successful handshake, and a
handshake makes at most one transport request.  `prvUnsubscribeFromTopic` calls
`mrouter_deRegisterCallback` exactly when the topic is non-null with a length
above zero, `MQTTAgent_Unsubscribe` returned `MQTTSuccess` and the wait
returned `pdTRUE` with value `MQTTSuccess`; it then returns the router's
result, and its calls are the request, the wait and the deregistration.
Otherwise it returns `false` and makes no router call, and likewise
`prvSubscribeToTopic` makes no router call when its handshake fails.  Each
function makes at most one transport request, and no call at all when the
topic is `NULL` or empty. -/
theorem router_only_after_handshake (P : Platform) (env : HandshakeEnv) (pcTopic : Ptr)
    (xTopicLen : Nat) (pxCallback : Handler) :
    (Event.mrouter_deRegisterCallback pcTopic xTopicLen pxCallback ∈
        (prvUnsubscribeFromTopic P env pcTopic xTopicLen pxCallback).trace ↔
      (pcTopic ≠ NULL ∧ 0 < xTopicLen ∧ env.agentStatus = MQTTSuccess ∧
        env.xNotifyResult = pdTRUE ∧ env.ulNotifiedValue = MQTTSuccess)) ∧
    ((pcTopic ≠ NULL ∧ 0 < xTopicLen ∧ env.agentStatus = MQTTSuccess ∧
        env.xNotifyResult = pdTRUE ∧ env.ulNotifiedValue = MQTTSuccess) →
      (prvUnsubscribeFromTopic P env pcTopic xTopicLen pxCallback).ret = env.routerResult ∧
      (prvUnsubscribeFromTopic P env pcTopic xTopicLen pxCallback).trace =
        [Event.MQTTAgent_Unsubscribe pcTopic xTopicLen,
         Event.xTaskNotifyWait WaitSite.unsubscribeAck RESPONSE_TIMEOUT_MS,
         Event.mrouter_deRegisterCallback pcTopic xTopicLen pxCallback]) ∧
    (¬ (pcTopic ≠ NULL ∧ 0 < xTopicLen ∧ env.agentStatus = MQTTSuccess ∧
        env.xNotifyResult = pdTRUE ∧ env.ulNotifiedValue = MQTTSuccess) →
      (prvUnsubscribeFromTopic P env pcTopic xTopicLen pxCallback).ret = false ∧
      (∀ e ∈ (prvUnsubscribeFromTopic P env pcTopic xTopicLen pxCallback).trace,
        isRouterCall e = false) ∧
      (prvSubscribeToTopic P env pcTopic xTopicLen pxCallback).ret = false ∧
      (∀ e ∈ (prvSubscribeToTopic P env pcTopic xTopicLen pxCallback).trace,
        isRouterCall e = false)) ∧
    (prvUnsubscribeFromTopic P env pcTopic xTopicLen pxCallback).trace.countP
      isTransportRequest ≤ 1 ∧
    (prvSubscribeToTopic P env pcTopic xTopicLen pxCallback).trace.countP
      isTransportRequest ≤ 1 ∧
    ((pcTopic = NULL ∨ xTopicLen = 0) →
      (prvUnsubscribeFromTopic P env pcTopic xTopicLen pxCallback).trace = [] ∧
      (prvSubscribeToTopic P env pcTopic xTopicLen pxCallback).trace = []) := by
  unfold prvUnsubscribeFromTopic prvSubscribeToTopic
  by_cases ht : pcTopic = NULL <;> by_cases hl : 0 < xTopicLen <;>
  by_cases hs : env.agentStatus = MQTTSuccess <;>
  by_cases hn : env.xNotifyResult = 1 <;>
  by_cases hv : env.ulNotifiedValue = MQTTSuccess <;>
  simp [ht, hl, hs, hn, hv, pdTRUE, pdFALSE, isRouterCall, isTransportRequest,
    List.countP_cons] <;>
  omega

/-- Witness of C22: the MQTT agent refuses the unsubscribe request; `false` is
returned, the request is the only call, and the router is not called. -/
theorem router_only_after_handshake_witness :
    (prvUnsubscribeFromTopic samplePlatform envHandshakeRefused 201 51
      Handler.prvReportAcceptedCallback).ret = false ∧
    (prvUnsubscribeFromTopic samplePlatform envHandshakeRefused 201 51
      Handler.prvReportAcceptedCallback).trace = [Event.MQTTAgent_Unsubscribe 201 51] :=
  ⟨((router_only_after_handshake samplePlatform envHandshakeRefused 201 51
      Handler.prvReportAcceptedCallback).2.2.1 (by decide)).1, by decide⟩

/-- C23 (evaluation of the code): in the cycle `envLateCompletion` the only
notification sent to the agent task is the one of `prvSubscribeOpCb`, with the
MQTT return code `1`; the report-response wait consumes it and the report
status of the cycle is `ReportStatusAccepted`, although
`prvReportAcceptedCallback` sent no notification; with the return code `2` the
report status is `ReportStatusRejected`. -/
theorem completion_code_read_as_accepted :
    prvSubscribeOpCb sampleCtx (some 1) = [Event.xTaskNotify sampleCtx.xAgentTask 1] ∧
    notifiedValue sampleCtx.xAgentTask (prvSubscribeOpCb sampleCtx (some 1)) =
      some envLateCompletion.ulResponseValue ∧
    envLateCompletion.xResponseResult = pdTRUE ∧
    (defenderCycle samplePlatform envLateCompletion sampleCtx false).xReportStatus =
      ReportStatusAccepted ∧
    (defenderCycle samplePlatform { envLateCompletion with ulResponseValue := 2 } sampleCtx
      false).xReportStatus = ReportStatusRejected := by
  decide

end Router

end Defender

namespace KVStore

open KVStoreValueType_t

section Getters

theorem xReadEntryOrDefault_bool (cfg : Config) (rd : ReadOutcome) (xKey : Nat)
    (pxType pxLength : Bool) (xBufferSize : Nat) :
    (xReadEntryOrDefault cfg rd xKey pxType pxLength xBufferSize).xResult = 0 ∨
    (xReadEntryOrDefault cfg rd xKey pxType pxLength xBufferSize).xResult = 1 := by
  unfold xReadEntryOrDefault
  by_cases h : rd.xResult = 1
  · simp [h, Defender.pdTRUE]
  · simp only [Defender.pdTRUE, ne_eq, h, not_false_eq_true, if_true]
    split_ifs <;> simp

theorem toSizeT_ne_word (x : Int) (h : x = 0 ∨ x = 1) : toSizeT x ≠ sizeof_word := by
  rcases h with rfl | rfl <;> decide

/-- C24: `xReadEntryOrDefault` returns a boolean, not a byte count, and the
getters of a word never report success.  For every configuration, key, buffer
size and outcome of the entry read, `xReadEntryOrDefault` returns 0 or 1; and
each of `KVStore_getUInt32`, `lKVStore_getInt32`, `lKVStore_getBase` and
`lKVStore_getUBase`, which compares that result with the 4-byte size of its
value type, stores `pdFALSE` through every non-null `pxSuccess`, also when the
key is valid and of the type the getter asks for and the entry read succeeds,
in which case the word that was read is returned all the same. -/
theorem getters_never_report_success (cfg : Config) (rd : ReadOutcome) (key : Nat)
    (pxSuccess : Bool) :
    (∀ (xKey : Nat) (pxType pxLength : Bool) (xBufferSize : Nat),
      (xReadEntryOrDefault cfg rd xKey pxType pxLength xBufferSize).xResult = 0 ∨
      (xReadEntryOrDefault cfg rd xKey pxType pxLength xBufferSize).xResult = 1) ∧
    (KVStore_getUInt32 cfg rd key pxSuccess).pxSuccess =
      (if pxSuccess = true then some Defender.pdFALSE else none) ∧
    (lKVStore_getInt32 cfg rd key pxSuccess).pxSuccess =
      (if pxSuccess = true then some Defender.pdFALSE else none) ∧
    (lKVStore_getBase cfg rd key pxSuccess).pxSuccess =
      (if pxSuccess = true then some Defender.pdFALSE else none) ∧
    (lKVStore_getUBase cfg rd key pxSuccess).pxSuccess =
      (if pxSuccess = true then some Defender.pdFALSE else none) ∧
    (key < cfg.CS_NUM_KEYS → (cfg.kvStoreDefaults key).type = KV_TYPE_UINT32 →
      rd.xResult = Defender.pdTRUE →
      (KVStore_getUInt32 cfg rd key true).pxSuccess = some Defender.pdFALSE ∧
      (KVStore_getUInt32 cfg rd key true).ret = wordOf rd.pvBuffer ∧
      (KVStore_getUInt32 cfg rd key true).trace =
        [KvEvent.xSemaphoreTake, KvEvent.READ_ENTRY key sizeof_word,
          KvEvent.xSemaphoreGive]) := by
  have hb := xReadEntryOrDefault_bool cfg rd key false false sizeof_word
  have hw := toSizeT_ne_word _ hb
  have hz : (0 : Nat) ≠ sizeof_word := by decide
  refine ⟨fun xKey pxType pxLength xBufferSize =>
    xReadEntryOrDefault_bool cfg rd xKey pxType pxLength xBufferSize, ?_, ?_, ?_, ?_, ?_⟩
  · unfold KVStore_getUInt32
    by_cases hg : key < cfg.CS_NUM_KEYS ∧ (cfg.kvStoreDefaults key).type = KV_TYPE_UINT32 <;>
    simp [hg, hw, hz, Defender.pdFALSE]
  · unfold lKVStore_getInt32
    by_cases hg : key < cfg.CS_NUM_KEYS ∧ (cfg.kvStoreDefaults key).type = KV_TYPE_INT32 <;>
    simp [hg, hw, hz, Defender.pdFALSE]
  · unfold lKVStore_getBase
    by_cases hg : key < cfg.CS_NUM_KEYS ∧ (cfg.kvStoreDefaults key).type = KV_TYPE_BASE_T <;>
    simp [hg, hw, hz, Defender.pdFALSE]
  · unfold lKVStore_getUBase
    by_cases hg : key < cfg.CS_NUM_KEYS ∧ (cfg.kvStoreDefaults key).type = KV_TYPE_BASE_T <;>
    simp [hg, hw, hz, Defender.pdFALSE]
  · intro h1 h2 h3
    have h3' : rd.xResult = 1 := h3
    have h4 : ¬ toSizeT 1 = sizeof_word := by decide
    simp [KVStore_getUInt32, h1, h2, hw, Defender.pdFALSE, xReadEntryOrDefault, h3',
      Defender.pdTRUE, h4]

/-- Witness of C24: key 1 of `sampleConfig` is a valid `KV_TYPE_UINT32` key and
the entry read succeeds with the word 42; the getter returns 42 and reports
failure. -/
theorem getters_never_report_success_witness :
    (KVStore_getUInt32 sampleConfig readsFortyTwo 1 true).pxSuccess = some Defender.pdFALSE ∧
    (KVStore_getUInt32 sampleConfig readsFortyTwo 1 true).ret = 42 :=
  ⟨((getters_never_report_success sampleConfig readsFortyTwo 1 true).2.2.2.2.2
      (by decide) rfl rfl).1,
   by decide⟩

/-- C25 (evaluation of the code): key 0 of `sampleConfig` has the default type
`KV_TYPE_UBASE_T`.  `KVStore_setUBaseType` accepts it and writes the value 42 to
the store; `lKVStore_getUBase` on the same key, with a store that would
deliver 42, makes no call at all, so does not read the store, and returns 0. -/
theorem getUBase_rejects_ubase_key :
    (sampleConfig.kvStoreDefaults 0).type = KV_TYPE_UBASE_T ∧
    KVStore_setUBaseType sampleConfig 1 0 42 =
      { xReturn := 1, trace := [KvEvent.WRITE_ENTRY 0 KV_TYPE_UBASE_T sizeof_word 42] } ∧
    wordOf readsFortyTwo.pvBuffer = 42 ∧
    (lKVStore_getUBase sampleConfig readsFortyTwo 0 true).trace = [] ∧
    (lKVStore_getUBase sampleConfig readsFortyTwo 0 true).ret = 0 := by
  decide

end Getters

end KVStore

namespace Cli

section Kill

end Kill

section Ps

/-- The stack depth that `ulGetStackDepth` returns is never zero. -/
theorem ulGetStackDepth_ne_zero (t : TaskStatus_t) : ulGetStackDepth t ≠ 0 := by
  unfold ulGetStackDepth
  norm_num
  omega

/-- C26 (evaluation of the code): the stack depth, divisor of the stack usage
percentage, is never zero; but the total run time is divided by 100 before it
is used as the divisor of the CPU percentage, so with an array allocated, at
least one task and a total run time below 100 `prvPSCommand` divides by
zero.  For the task `sampleTask` and a total run time of 50 the divisor is
`50 / 100 = 0`. -/
theorem prvPSCommand_divides_by_zero :
    (∀ t : TaskStatus_t, ulGetStackDepth t ≠ 0) ∧
    (∀ (p : Nat) (t : TaskStatus_t) (ts : List TaskStatus_t) (total : Nat),
      p ≠ 0 → total < 100 →
      udiv t.ulRunTimeCounter (total / 100) = none ∧ prvPSCommand p (t :: ts) total = none) ∧
    udiv sampleTask.ulRunTimeCounter (50 / 100) = none ∧
    prvPSCommand 1000 [sampleTask] 50 = none ∧
    prvPSCommand 1000 [sampleTask] 0 = none := by
  refine ⟨ulGetStackDepth_ne_zero, ?_, by decide, by decide, by decide⟩
  intro p t ts total hp ht
  have hz : total / 100 = 0 := Nat.div_eq_of_lt ht
  have hs := ulGetStackDepth_ne_zero t
  simp [prvPSCommand, hp, hz, psRows, psRow, udiv, hs]

end Ps

end Cli
